import Mathlib

/-!
# gooid/gl, package `egl`: the EGL context lifecycle manager

Shallow embedding of `egl/context.go` (with the call wrappers of
`egl/egl.go` and the handle types of `egl/types.go`).

* Handles (`unsafe.Pointer` in Go) are natural numbers, `nil` is `0`.
* `EGLint` is an integer; the only conversion from Go `int` that can wrap
  (`EGLint(minor)` in `NewContextEx`) goes through `wrapEGLint`.
* The graphics driver is a foreign, unreliable device.  It is modelled as an
  arbitrary deterministic function of the whole history of earlier driver
  calls (each recorded with its result) and of the arguments of the current
  call.  Every method of `EGLContext` takes the history so far and returns,
  next to its result and the new field values, the list of driver calls it
  issued, in order.
* `log.Println` / `log.Printf` are not driver calls and are left out.
-/

namespace egl

/-! ## Handle types (`types.go`) -/

abbrev Config := Nat
abbrev Context := Nat
abbrev Display := Nat
abbrev Surface := Nat
abbrev NativeDisplay := Nat
abbrev NativeWindow := Nat
abbrev EGLint := Int
/-- The type `Error` returned by `GetError`: an integer error code. -/
abbrev Error := Int

/-- Source: `var NO_CONTEXT Context`: the zero value, `nil`. -/
def NO_CONTEXT : Context := 0
/-- Source: `var NO_DISPLAY Display`: the zero value, `nil`. -/
def NO_DISPLAY : Display := 0
/-- Source: `var NO_SURFACE Surface`: the zero value, `nil`. -/
def NO_SURFACE : Surface := 0

/-- Conversion of a Go `int` to the 32-bit `EGLint` (two's complement wrap). -/
def wrapEGLint (n : Int) : EGLint := (n + 2 ^ 31) % 2 ^ 32 - 2 ^ 31

/-! ## Constants

The constant table of package `egl` is declared in none of `context.go`,
`egl.go`, `eglinit.go` and `types.go`.  Only the names are used by
`context.go`; the values are those of `<EGL/egl.h>`, the header `egl.go`
includes. -/

/-- Modelled from the spec: constant `NONE` (attribute list terminator), declared outside the files embedded here; value of `EGL_NONE`. -/
def NONE : EGLint := 0x3038
/-- Modelled from the spec: constant `RENDERABLE_TYPE`, declared outside the files embedded here; value of `EGL_RENDERABLE_TYPE`. -/
def RENDERABLE_TYPE : EGLint := 0x3040
/-- Modelled from the spec: constant `OPENGL_ES2_BIT`, declared outside the files embedded here; value of `EGL_OPENGL_ES2_BIT`. -/
def OPENGL_ES2_BIT : EGLint := 0x0004
/-- Modelled from the spec: constant `OPENGL_ES3_BIT`, declared outside the files embedded here; value of `EGL_OPENGL_ES3_BIT`. -/
def OPENGL_ES3_BIT : EGLint := 0x0040
/-- Modelled from the spec: constant `SURFACE_TYPE`, declared outside the files embedded here; value of `EGL_SURFACE_TYPE`. -/
def SURFACE_TYPE : EGLint := 0x3033
/-- Modelled from the spec: constant `WINDOW_BIT`, declared outside the files embedded here; value of `EGL_WINDOW_BIT`. -/
def WINDOW_BIT : EGLint := 0x0004
/-- Modelled from the spec: constant `BUFFER_SIZE`, declared outside the files embedded here; value of `EGL_BUFFER_SIZE`. -/
def BUFFER_SIZE : EGLint := 0x3020
/-- Modelled from the spec: constant `BLUE_SIZE`, declared outside the files embedded here; value of `EGL_BLUE_SIZE`. -/
def BLUE_SIZE : EGLint := 0x3022
/-- Modelled from the spec: constant `GREEN_SIZE`, declared outside the files embedded here; value of `EGL_GREEN_SIZE`. -/
def GREEN_SIZE : EGLint := 0x3023
/-- Modelled from the spec: constant `RED_SIZE`, declared outside the files embedded here; value of `EGL_RED_SIZE`. -/
def RED_SIZE : EGLint := 0x3024
/-- Modelled from the spec: constant `DEPTH_SIZE`, declared outside the files embedded here; value of `EGL_DEPTH_SIZE`. -/
def DEPTH_SIZE : EGLint := 0x3025
/-- Modelled from the spec: constant `SAMPLES`, declared outside the files embedded here; value of `EGL_SAMPLES`. -/
def SAMPLES : EGLint := 0x3031
/-- Modelled from the spec: constant `SAMPLE_BUFFERS`, declared outside the files embedded here; value of `EGL_SAMPLE_BUFFERS`. -/
def SAMPLE_BUFFERS : EGLint := 0x3032
/-- Modelled from the spec: constant `NATIVE_VISUAL_ID`, declared outside the files embedded here; value of `EGL_NATIVE_VISUAL_ID`. -/
def NATIVE_VISUAL_ID : EGLint := 0x302E
/-- Modelled from the spec: constant `CONTEXT_CLIENT_VERSION`, declared outside the files embedded here; value of `EGL_CONTEXT_CLIENT_VERSION`. -/
def CONTEXT_CLIENT_VERSION : EGLint := 0x3098
/-- Modelled from the spec: constant `CONTEXT_MAJOR_VERSION`, declared outside the files embedded here; value of `EGL_CONTEXT_MAJOR_VERSION`. -/
def CONTEXT_MAJOR_VERSION : EGLint := 0x3098
/-- Modelled from the spec: constant `CONTEXT_MINOR_VERSION`, declared outside the files embedded here; value of `EGL_CONTEXT_MINOR_VERSION`. -/
def CONTEXT_MINOR_VERSION : EGLint := 0x30FB
/-- Modelled from the spec: error code `BAD_CONTEXT`, declared outside the files embedded here; value of `EGL_BAD_CONTEXT`. -/
def BAD_CONTEXT : Error := 0x3006
/-- Modelled from the spec: error code `BAD_SURFACE`, declared outside the files embedded here; value of `EGL_BAD_SURFACE`. -/
def BAD_SURFACE : Error := 0x300D
/-- Modelled from the spec: error code `CONTEXT_LOST`, declared outside the files embedded here; value of `EGL_CONTEXT_LOST`. -/
def CONTEXT_LOST : Error := 0x300E

/-! ## The driver -/

/-- One call into the native driver, recorded with its arguments and its result. -/
inductive Event where
  | init (d : Display) (ok : Bool)
  | term (d : Display) (ok : Bool)
  | getDisplay (nd : NativeDisplay) (d : Display)
  | chooseConfig (d : Display) (attribs : List EGLint) (cap : Nat) (confs : List Config)
  | getConfigAttrib (d : Display) (conf : Config) (attr : EGLint) (val : Int) (ok : Bool)
  | createWindowSurface (d : Display) (conf : Config) (win : NativeWindow) (s : Surface)
  | createContext (d : Display) (conf : Config) (shared : Context) (attribs : List EGLint) (c : Context)
  | makeCurrent (d : Display) (draw : Surface) (read : Surface) (c : Context) (ok : Bool)
  | destroyContext (d : Display) (c : Context) (ok : Bool)
  | destroySurface (d : Display) (s : Surface) (ok : Bool)
  | swapBuffers (d : Display) (s : Surface) (ok : Bool)
  | getError (err : Error)
  deriving DecidableEq, Repr

/-- The history of driver calls, oldest first. -/
abbrev Trace := List Event

/-- A driver behaviour: the answer to each foreign call, which may depend on
everything that was called before.  `eglChooseConfig` answers with the handles
it writes into the caller's buffer (a failed call writes none). -/
structure Driver where
  eglInitialize : Trace → Display → Bool
  eglTerminate : Trace → Display → Bool
  eglGetDisplay : Trace → NativeDisplay → Display
  eglChooseConfig : Trace → Display → List EGLint → Nat → List Config
  eglGetConfigAttrib : Trace → Display → Config → EGLint → Int × Bool
  eglCreateWindowSurface : Trace → Display → Config → NativeWindow → Surface
  eglCreateContext : Trace → Display → Config → Context → List EGLint → Context
  eglMakeCurrent : Trace → Display → Surface → Surface → Context → Bool
  eglDestroyContext : Trace → Display → Context → Bool
  eglDestroySurface : Trace → Display → Surface → Bool
  eglSwapBuffers : Trace → Display → Surface → Bool
  eglGetError : Trace → Error

/-! ## Call wrappers (`egl.go`)

Each wrapper returns the result of the call and the event it adds to the
history. -/

/-- Source: `func Initialize(d Display) bool`. -/
def Initialize (drv : Driver) (h : Trace) (d : Display) : Bool × Trace :=
  (drv.eglInitialize h d, [Event.init d (drv.eglInitialize h d)])

/-- Source: `func Terminate(d Display) bool`. -/
def Terminate (drv : Driver) (h : Trace) (d : Display) : Bool × Trace :=
  (drv.eglTerminate h d, [Event.term d (drv.eglTerminate h d)])

/-- Source: `func GetDisplay(d NativeDisplay) Display`. -/
def GetDisplay (drv : Driver) (h : Trace) (nd : NativeDisplay) : Display × Trace :=
  (drv.eglGetDisplay h nd, [Event.getDisplay nd (drv.eglGetDisplay h nd)])

/-- Source: `func ChooseConfig(d Display, atrribs []EGLint, confs []Config) int`: the
driver fills at most `cap = len(confs)` entries of the buffer; the returned
count is the number of entries filled (`0` when the call fails). -/
def ChooseConfig (drv : Driver) (h : Trace) (d : Display) (attribs : List EGLint) (cap : Nat) :
    List Config × Trace :=
  ((drv.eglChooseConfig h d attribs cap).take cap,
   [Event.chooseConfig d attribs cap ((drv.eglChooseConfig h d attribs cap).take cap)])

/-- Source: `func GetConfigAttrib(d Display, conf Config, attr int) (int, bool)`. -/
def GetConfigAttrib (drv : Driver) (h : Trace) (d : Display) (conf : Config) (attr : EGLint) :
    (Int × Bool) × Trace :=
  (drv.eglGetConfigAttrib h d conf attr,
   [Event.getConfigAttrib d conf attr (drv.eglGetConfigAttrib h d conf attr).1
      (drv.eglGetConfigAttrib h d conf attr).2])

/-- Source: `func CreateWindowSurface(d, conf, win, attribs) Surface`, always called with `attribs = nil`. -/
def CreateWindowSurface (drv : Driver) (h : Trace) (d : Display) (conf : Config) (win : NativeWindow) :
    Surface × Trace :=
  (drv.eglCreateWindowSurface h d conf win,
   [Event.createWindowSurface d conf win (drv.eglCreateWindowSurface h d conf win)])

/-- Source: `func CreateContext(d, conf, shared, attribs) Context`. -/
def CreateContext (drv : Driver) (h : Trace) (d : Display) (conf : Config) (shared : Context)
    (attribs : List EGLint) : Context × Trace :=
  (drv.eglCreateContext h d conf shared attribs,
   [Event.createContext d conf shared attribs (drv.eglCreateContext h d conf shared attribs)])

/-- Source: `func MakeCurrent(d, draw, read, c) bool`. -/
def MakeCurrent (drv : Driver) (h : Trace) (d : Display) (draw read : Surface) (c : Context) :
    Bool × Trace :=
  (drv.eglMakeCurrent h d draw read c, [Event.makeCurrent d draw read c (drv.eglMakeCurrent h d draw read c)])

/-- Source: `func DestroyContext(d, c) bool`. -/
def DestroyContext (drv : Driver) (h : Trace) (d : Display) (c : Context) : Bool × Trace :=
  (drv.eglDestroyContext h d c, [Event.destroyContext d c (drv.eglDestroyContext h d c)])

/-- Source: `func DestroySurface(d, s) bool`. -/
def DestroySurface (drv : Driver) (h : Trace) (d : Display) (s : Surface) : Bool × Trace :=
  (drv.eglDestroySurface h d s, [Event.destroySurface d s (drv.eglDestroySurface h d s)])

/-- Source: `func SwapBuffers(d, s) bool`. -/
def SwapBuffers (drv : Driver) (h : Trace) (d : Display) (s : Surface) : Bool × Trace :=
  (drv.eglSwapBuffers h d s, [Event.swapBuffers d s (drv.eglSwapBuffers h d s)])

/-- Source: `func GetError() Error`. -/
def GetError (drv : Driver) (h : Trace) : Error × Trace :=
  (drv.eglGetError h, [Event.getError (drv.eglGetError h)])

/-! ## The manager (`context.go`) -/

/-- Source: `type EGLContext struct`. -/
structure EGLContext where
  surface : Surface
  display : Display
  context : Context
  config : Config
  window : NativeWindow
  esMajor : EGLint
  esMinor : EGLint
  depthSize : EGLint
  bAntialiasing : Bool
  deriving DecidableEq, Repr

/-- Result of a method: its return value, the fields after the call and the
driver calls it issued, in order. -/
structure Out (α : Type) where
  val : α
  ctx : EGLContext
  ev : Trace

/-- Source: `func NewContextEx(window, ndisplay, depthSize, esVersion, minor) *EGLContext`. -/
def NewContextEx (drv : Driver) (h : Trace) (window : NativeWindow) (ndisplay : NativeDisplay)
    (depthSize esVersion minor : Int) : EGLContext × Trace :=
  let depthSize1 := if ¬ (depthSize = 32 ∨ depthSize = 24) then 16 else depthSize
  let esVersion1 := if esVersion ≠ 3 then 2 else esVersion
  let display := GetDisplay drv h ndisplay
  ({ window := window
     display := display.1
     surface := NO_SURFACE
     context := 0
     config := 0
     depthSize := wrapEGLint depthSize1
     esMajor := wrapEGLint esVersion1
     esMinor := wrapEGLint minor
     bAntialiasing := true },
   display.2)

/-- Source: `func NewContext(window, ndisplay) *EGLContext`. -/
def NewContext (drv : Driver) (h : Trace) (window : NativeWindow) (ndisplay : NativeDisplay) :
    EGLContext × Trace :=
  NewContextEx drv h window ndisplay 16 2 0

/-- The four attribute values read for one configuration (lines 149-152). -/
structure Report where
  r : Int
  g : Int
  b : Int
  s : Int
  deriving DecidableEq, Repr

/-- Lines 149-152 of `InitEGLSurface`: the four `GetConfigAttrib` calls made
for one configuration (the `ok` results are dropped, as in the source). -/
def attribQueries (drv : Driver) (h : Trace) (d : Display) (conf : Config) : Report × Trace :=
  let r := GetConfigAttrib drv h d conf RED_SIZE
  let g := GetConfigAttrib drv (h ++ r.2) d conf GREEN_SIZE
  let b := GetConfigAttrib drv (h ++ r.2 ++ g.2) d conf BLUE_SIZE
  let s := GetConfigAttrib drv (h ++ r.2 ++ g.2 ++ b.2) d conf SAMPLE_BUFFERS
  ({ r := r.1.1, g := g.1.1, b := b.1.1, s := s.1.1 }, r.2 ++ g.2 ++ b.2 ++ s.2)

/-- The condition of lines 153-154: it tests the requested `ctx.depthSize`. -/
def matchCond (depthSize : EGLint) (rep : Report) : Bool :=
  (decide (depthSize > 16) && rep.r == 8 && rep.g == 8 && rep.b == 8) ||
  (depthSize == 16 && rep.r == 5 && rep.g == 6 && rep.b == 5)

/-- Body of the scan loop (lines 149-163) for one configuration: the fields
afterwards, the calls issued, and whether the loop is left by `break`. -/
def scanStep (drv : Driver) (ctx : EGLContext) (h : Trace) (conf : Config) :
    EGLContext × Trace × Bool :=
  let q := attribQueries drv h ctx.display conf
  if matchCond ctx.depthSize q.1 then
    ({ ctx with config := conf }, q.2, if ctx.bAntialiasing then decide (q.1.s > 0) else true)
  else
    (ctx, q.2, false)

/-- The scan loop `for _, conf := range confs[:num_configs]` (lines 148-164). -/
def scanConfs (drv : Driver) (ctx : EGLContext) (h : Trace) : List Config → EGLContext × Trace
  | [] => (ctx, [])
  | conf :: rest =>
    let r := scanStep drv ctx h conf
    if r.2.2 then (r.1, r.2.1)
    else
      let r2 := scanConfs drv r.1 (h ++ r.2.1) rest
      (r2.1, r.2.1 ++ r2.2)

/-- The candidate order of lines 119-124. -/
def candidateDepths (depthSize : EGLint) : List Int :=
  if depthSize > 16 then [32, 16] else [16, 32]

/-- The attribute list of one candidate (lines 127-141). -/
def candidateAttribs (depth : Int) (esMajor : EGLint) : List EGLint :=
  let attribs : List EGLint :=
    if depth > 16 then
      [RENDERABLE_TYPE, OPENGL_ES2_BIT, BLUE_SIZE, 8, GREEN_SIZE, 8, RED_SIZE, 8, NONE]
    else
      [RENDERABLE_TYPE, OPENGL_ES2_BIT, BLUE_SIZE, 5, GREEN_SIZE, 6, RED_SIZE, 5, NONE]
  if esMajor = 3 then attribs.set 1 OPENGL_ES3_BIT else attribs

/-- Body of the candidate loop of `InitEGLSurface` (lines 127-168) for one
candidate depth. -/
def processCandidate (drv : Driver) (ctx : EGLContext) (h : Trace) (depth : Int) :
    EGLContext × Trace :=
  let q := ChooseConfig drv h ctx.display (candidateAttribs depth ctx.esMajor) 16
  if q.1.length = 0 then (ctx, q.2)
  else
    let sc := scanConfs drv ctx (h ++ q.2) q.1
    if sc.1.config = 0 then ({ sc.1 with config := q.1.headD 0 }, q.2 ++ sc.2)
    else (sc.1, q.2 ++ sc.2)

/-- The candidate loop `for _, depth := range depths` (lines 126-169). -/
def selectLoop (drv : Driver) (ctx : EGLContext) (h : Trace) : List Int → EGLContext × Trace
  | [] => (ctx, [])
  | depth :: rest =>
    let r := processCandidate drv ctx h depth
    let r2 := selectLoop drv r.1 (h ++ r.2) rest
    (r2.1, r.2 ++ r2.2)

/-- Source: `func (ctx *EGLContext) InitEGLSurface() bool`. -/
def EGLContext.InitEGLSurface (ctx : EGLContext) (drv : Driver) (h : Trace) : Out Bool :=
  let i := Initialize drv h ctx.display
  if ¬ i.1 then { val := false, ctx := ctx, ev := i.2 }
  else
    let sel := selectLoop drv ctx (h ++ i.2) (candidateDepths ctx.depthSize)
    if sel.1.config = 0 then { val := false, ctx := sel.1, ev := i.2 ++ sel.2 }
    else
      let s := CreateWindowSurface drv (h ++ i.2 ++ sel.2) sel.1.display sel.1.config sel.1.window
      if s.1 = 0 then { val := false, ctx := { sel.1 with surface := s.1 }, ev := i.2 ++ sel.2 ++ s.2 }
      else { val := true, ctx := { sel.1 with surface := s.1 }, ev := i.2 ++ sel.2 ++ s.2 }

/-- The attribute list of `InitEGLSurfaceX` (lines 69-81) with `attribs[11]` set to `v`. -/
def attribsX (esMajor : EGLint) (v : EGLint) : List EGLint :=
  let attribs : List EGLint :=
    [RENDERABLE_TYPE, OPENGL_ES2_BIT, SURFACE_TYPE, WINDOW_BIT, BLUE_SIZE, 5, GREEN_SIZE, 6,
     RED_SIZE, 5, BUFFER_SIZE, 16, SAMPLE_BUFFERS, 1, SAMPLES, 2, RENDERABLE_TYPE, 4,
     DEPTH_SIZE, 16, NONE]
  let attribs1 := if esMajor = 3 then attribs.set 1 OPENGL_ES3_BIT else attribs
  attribs1.set 11 v

/-- Source: `func (ctx *EGLContext) InitEGLSurfaceX() bool`. -/
def EGLContext.InitEGLSurfaceX (ctx : EGLContext) (drv : Driver) (h : Trace) : Out Bool :=
  let i := Initialize drv h ctx.display
  if ¬ i.1 then { val := false, ctx := ctx, ev := i.2 }
  else
    let q1 := ChooseConfig drv (h ++ i.2) ctx.display (attribsX ctx.esMajor ctx.depthSize) 1
    let q :=
      if q1.1.length = 0 ∧ ctx.depthSize > 16 then
        let q2 := ChooseConfig drv (h ++ i.2 ++ q1.2) ctx.display (attribsX ctx.esMajor 16) 1
        (q2.1, q1.2 ++ q2.2)
      else q1
    if q.1.length = 0 then { val := false, ctx := ctx, ev := i.2 ++ q.2 }
    else
      let ctx1 := { ctx with config := q.1.headD 0 }
      let s := CreateWindowSurface drv (h ++ i.2 ++ q.2) ctx1.display ctx1.config ctx1.window
      if s.1 = 0 then { val := false, ctx := { ctx1 with surface := s.1 }, ev := i.2 ++ q.2 ++ s.2 }
      else { val := true, ctx := { ctx1 with surface := s.1 }, ev := i.2 ++ q.2 ++ s.2 }

/-- The loop of lines 219-225 of `InitEGLSurface_XX`: try to create a surface
with each configuration in turn; `true` means the method returned from inside it. -/
def trySurfaces (drv : Driver) (ctx : EGLContext) (h : Trace) : List Config → Out Bool
  | [] => { val := false, ctx := ctx, ev := [] }
  | conf :: rest =>
    let s := CreateWindowSurface drv h ctx.display conf ctx.window
    if s.1 ≠ 0 then { val := true, ctx := { ctx with surface := s.1, config := conf }, ev := s.2 }
    else
      let r := trySurfaces drv { ctx with surface := s.1 } (h ++ s.2) rest
      { val := r.val, ctx := r.ctx, ev := s.2 ++ r.ev }

/-- The candidate loop of `InitEGLSurface_XX` (lines 197-226). -/
def selectLoopXX (drv : Driver) (ctx : EGLContext) (h : Trace) : List Int → Out Bool
  | [] => { val := false, ctx := ctx, ev := [] }
  | depth :: rest =>
    let q := ChooseConfig drv h ctx.display (candidateAttribs depth ctx.esMajor) 16
    let t := trySurfaces drv ctx (h ++ q.2) q.1
    if t.val then { val := true, ctx := t.ctx, ev := q.2 ++ t.ev }
    else
      let r := selectLoopXX drv t.ctx (h ++ q.2 ++ t.ev) rest
      { val := r.val, ctx := r.ctx, ev := q.2 ++ t.ev ++ r.ev }

/-- Source: `func (ctx *EGLContext) InitEGLSurface_XX() bool`. -/
def EGLContext.InitEGLSurface_XX (ctx : EGLContext) (drv : Driver) (h : Trace) : Out Bool :=
  let i := Initialize drv h ctx.display
  if ¬ i.1 then { val := false, ctx := ctx, ev := i.2 }
  else
    let r := selectLoopXX drv ctx (h ++ i.2) (candidateDepths ctx.depthSize)
    { val := r.val, ctx := r.ctx, ev := i.2 ++ r.ev }

/-- The attribute list built by `InitEGLContext` (lines 231-242). -/
def contextAttribs (esMajor esMinor : EGLint) : List EGLint :=
  let context_attribs : List EGLint :=
    [CONTEXT_CLIENT_VERSION, 2, CONTEXT_MAJOR_VERSION, 2, CONTEXT_MINOR_VERSION, 0, NONE, NONE]
  if esMajor ≥ 3 then
    ((context_attribs.set 1 esMajor).set 3 esMajor).set 5 esMinor
  else
    context_attribs.set 2 NONE

/-- Source: `func (ctx *EGLContext) InitEGLContext() bool`. -/
def EGLContext.InitEGLContext (ctx : EGLContext) (drv : Driver) (h : Trace) : Out Bool :=
  let c := CreateContext drv h ctx.display ctx.config 0 (contextAttribs ctx.esMajor ctx.esMinor)
  let ctx1 := { ctx with context := c.1 }
  let m := MakeCurrent drv (h ++ c.2) ctx1.display ctx1.surface ctx1.surface ctx1.context
  if ¬ m.1 then { val := false, ctx := ctx1, ev := c.2 ++ m.2 }
  else { val := true, ctx := ctx1, ev := c.2 ++ m.2 }

/-- Source: `func (ctx *EGLContext) ReinitEGLContext() bool`. -/
def EGLContext.ReinitEGLContext (ctx : EGLContext) (drv : Driver) (h : Trace) : Out Bool :=
  let pre : Trace :=
    if ctx.display ≠ NO_DISPLAY then
      let m := MakeCurrent drv h ctx.display NO_SURFACE NO_SURFACE NO_CONTEXT
      if ctx.context ≠ NO_CONTEXT then m.2 ++ (DestroyContext drv (h ++ m.2) ctx.display ctx.context).2
      else m.2
    else []
  let r := ctx.InitEGLContext drv (h ++ pre)
  { val := r.val, ctx := r.ctx, ev := pre ++ r.ev }

/-- Source: `func (ctx *EGLContext) Terminate()`. -/
def EGLContext.Terminate (ctx : EGLContext) (drv : Driver) (h : Trace) : Out Unit :=
  let calls : Trace :=
    if ctx.display ≠ NO_DISPLAY then
      let m := MakeCurrent drv h ctx.display NO_SURFACE NO_SURFACE NO_CONTEXT
      let dc : Trace :=
        if ctx.context ≠ NO_CONTEXT then (DestroyContext drv (h ++ m.2) ctx.display ctx.context).2
        else []
      let ds : Trace :=
        if ctx.surface ≠ NO_SURFACE then
          (DestroySurface drv (h ++ m.2 ++ dc) ctx.display ctx.surface).2
        else []
      m.2 ++ dc ++ ds ++ (egl.Terminate drv (h ++ m.2 ++ dc ++ ds) ctx.display).2
    else []
  { val := (),
    ctx := { ctx with display := NO_DISPLAY, context := NO_CONTEXT, surface := NO_SURFACE },
    ev := calls }

/-- Source: `func (ctx *EGLContext) SwapBuffers() bool`. -/
def EGLContext.SwapBuffers (ctx : EGLContext) (drv : Driver) (h : Trace) : Out Bool :=
  let b := egl.SwapBuffers drv h ctx.display ctx.surface
  if ¬ b.1 then
    let err := GetError drv (h ++ b.2)
    if err.1 = BAD_SURFACE then
      let r := ctx.InitEGLSurface drv (h ++ b.2 ++ err.2)
      { val := true, ctx := r.ctx, ev := b.2 ++ err.2 ++ r.ev }
    else if err.1 = CONTEXT_LOST ∨ err.1 = BAD_CONTEXT then
      let t := ctx.Terminate drv (h ++ b.2 ++ err.2)
      let r := t.ctx.InitEGLContext drv (h ++ b.2 ++ err.2 ++ t.ev)
      { val := false, ctx := r.ctx, ev := b.2 ++ err.2 ++ t.ev ++ r.ev }
    else { val := false, ctx := ctx, ev := b.2 ++ err.2 }
  else { val := true, ctx := ctx, ev := b.2 }

/-- Source: `func (ctx *EGLContext) Resume() bool`. -/
def EGLContext.Resume (ctx : EGLContext) (drv : Driver) (h : Trace) : Out Bool :=
  let s := CreateWindowSurface drv h ctx.display ctx.config ctx.window
  let ctx1 := { ctx with surface := s.1 }
  let m := MakeCurrent drv (h ++ s.2) ctx1.display ctx1.surface ctx1.surface ctx1.context
  if m.1 then { val := true, ctx := ctx1, ev := s.2 ++ m.2 }
  else
    let err := GetError drv (h ++ s.2 ++ m.2)
    if err.1 = CONTEXT_LOST then
      let r := ctx1.InitEGLContext drv (h ++ s.2 ++ m.2 ++ err.2)
      { val := true, ctx := r.ctx, ev := s.2 ++ m.2 ++ err.2 ++ r.ev }
    else
      let t := ctx1.Terminate drv (h ++ s.2 ++ m.2 ++ err.2)
      let r1 := t.ctx.InitEGLSurface drv (h ++ s.2 ++ m.2 ++ err.2 ++ t.ev)
      let r2 := r1.ctx.InitEGLContext drv (h ++ s.2 ++ m.2 ++ err.2 ++ t.ev ++ r1.ev)
      { val := true, ctx := r2.ctx, ev := s.2 ++ m.2 ++ err.2 ++ t.ev ++ r1.ev ++ r2.ev }

/-- Source: `func (ctx *EGLContext) Suspend()`. -/
def EGLContext.Suspend (ctx : EGLContext) (drv : Driver) (h : Trace) : Out Unit :=
  if ctx.surface ≠ NO_SURFACE then
    { val := (),
      ctx := { ctx with surface := NO_SURFACE },
      ev := (DestroySurface drv h ctx.display ctx.surface).2 }
  else { val := (), ctx := ctx, ev := [] }

/-- Source: `func (ctx *EGLContext) IsReady() bool`. -/
def EGLContext.IsReady (ctx : EGLContext) : Bool :=
  decide (NO_SURFACE ≠ ctx.surface)

/-! ## Vocabulary of the statements -/

/-- Following the spec's words (section 4.1, policy B, steps a and c): the
target red/green/blue sizes of a candidate depth, 8/8/8 above 16 and 5/6/5
for 16. -/
def specTargetSizes (depth : Int) : Int × Int × Int :=
  if depth > 16 then (8, 8, 8) else (5, 6, 5)

/-- The red/green/blue sizes of a report. -/
def Report.sizes (rep : Report) : Int × Int × Int := (rep.r, rep.g, rep.b)

/-- The configurations of `confs` in driver order, each with the report the
scan loop reads for it as long as the loop has not been left by `break`
(every configuration costs four attribute queries). -/
def scanView (drv : Driver) (d : Display) (h : Trace) : List Config → List (Config × Report)
  | [] => []
  | c :: cs =>
    (c, (attribQueries drv h d c).1) :: scanView drv d (h ++ (attribQueries drv h d c).2) cs

/-- A `ChooseConfig` query: its attribute list and the configurations returned. -/
def Event.asChoose : Event → Option (List EGLint × List Config)
  | Event.chooseConfig _ a _ cs => some (a, cs)
  | _ => none

/-- The `ChooseConfig` queries of a list of driver calls, in order. -/
def chooseQueries (t : Trace) : List (List EGLint × List Config) := t.filterMap Event.asChoose

/-- A `CreateWindowSurface` call: the configuration used and the handle returned. -/
def Event.asCreateSurface : Event → Option (Config × Surface)
  | Event.createWindowSurface _ c _ s => some (c, s)
  | _ => none

/-- The `CreateWindowSurface` calls of a list of driver calls, in order. -/
def createdSurfaces (t : Trace) : List (Config × Surface) := t.filterMap Event.asCreateSurface

/-- A `DestroySurface` call: the handle destroyed. -/
def Event.asDestroySurface : Event → Option Surface
  | Event.destroySurface _ s _ => some s
  | _ => none

/-- The `DestroySurface` calls of a list of driver calls, in order. -/
def destroyedSurfaces (t : Trace) : List Surface := t.filterMap Event.asDestroySurface

/-- Whether a driver call is a `GetConfigAttrib` query. -/
def Event.isAttribQuery : Event → Bool
  | Event.getConfigAttrib _ _ _ _ _ => true
  | _ => false

/-- The effective content of a `NONE`-terminated attribute list, as the driver
reads it: the name/value pairs in front of the first name `NONE`. -/
def effectiveAttribs : List EGLint → List EGLint
  | n :: v :: rest => if n = NONE then [] else n :: v :: effectiveAttribs rest
  | _ => []

/-- The value an attribute list gives to the attribute `name`: that of the
first pair with this name in front of the terminator. -/
def attribValue (name : EGLint) : List EGLint → Option EGLint
  | n :: v :: rest =>
    if n = NONE then none else if n = name then some v else attribValue name rest
  | _ => none

/-- The display a driver call is addressed to (`GetDisplay` and `GetError`
take none). -/
def Event.displayArg : Event → Option Display
  | Event.init d _ => some d
  | Event.term d _ => some d
  | Event.getDisplay _ _ => none
  | Event.chooseConfig d _ _ _ => some d
  | Event.getConfigAttrib d _ _ _ _ => some d
  | Event.createWindowSurface d _ _ _ => some d
  | Event.createContext d _ _ _ _ => some d
  | Event.makeCurrent d _ _ _ _ => some d
  | Event.destroyContext d _ _ => some d
  | Event.destroySurface d _ _ => some d
  | Event.swapBuffers d _ _ => some d
  | Event.getError _ => none

/-- The invariant of the data model: a surface implies a display and a
selected configuration. -/
def surfaceInvariant (ctx : EGLContext) : Prop :=
  ctx.surface ≠ NO_SURFACE → ctx.display ≠ NO_DISPLAY ∧ ctx.config ≠ 0

instance (ctx : EGLContext) : Decidable (surfaceInvariant ctx) := by
  unfold surfaceInvariant
  exact inferInstance

/-- The lifecycle operations of the manager. -/
inductive Op where
  | initSurface
  | initSurfaceX
  | initSurfaceXX
  | initContext
  | reinitContext
  | swapBuffers
  | suspend
  | resume
  | terminate
  deriving DecidableEq, Repr

/-- One lifecycle operation: the fields afterwards and the driver calls issued. -/
def runOp (drv : Driver) (ctx : EGLContext) (h : Trace) : Op → EGLContext × Trace
  | Op.initSurface => ((ctx.InitEGLSurface drv h).ctx, (ctx.InitEGLSurface drv h).ev)
  | Op.initSurfaceX => ((ctx.InitEGLSurfaceX drv h).ctx, (ctx.InitEGLSurfaceX drv h).ev)
  | Op.initSurfaceXX => ((ctx.InitEGLSurface_XX drv h).ctx, (ctx.InitEGLSurface_XX drv h).ev)
  | Op.initContext => ((ctx.InitEGLContext drv h).ctx, (ctx.InitEGLContext drv h).ev)
  | Op.reinitContext => ((ctx.ReinitEGLContext drv h).ctx, (ctx.ReinitEGLContext drv h).ev)
  | Op.swapBuffers => ((ctx.SwapBuffers drv h).ctx, (ctx.SwapBuffers drv h).ev)
  | Op.suspend => ((ctx.Suspend drv h).ctx, (ctx.Suspend drv h).ev)
  | Op.resume => ((ctx.Resume drv h).ctx, (ctx.Resume drv h).ev)
  | Op.terminate => ((ctx.Terminate drv h).ctx, (ctx.Terminate drv h).ev)

/-- A sequence of lifecycle operations, each run on the history left by the
ones before it. -/
def runOps (drv : Driver) (ctx : EGLContext) (h : Trace) : List Op → EGLContext × Trace
  | [] => (ctx, [])
  | op :: rest =>
    ((runOps drv (runOp drv ctx h op).1 (h ++ (runOp drv ctx h op).2) rest).1,
     (runOp drv ctx h op).2 ++ (runOps drv (runOp drv ctx h op).1 (h ++ (runOp drv ctx h op).2) rest).2)

/-! ## A simulated driver, for concrete runs -/

/-- Attribute table of the simulated driver: configurations 8 and 9 are
8/8/8, configurations 5 and 7 are 5/6/5, every other one is 6/6/6; 7 and 9
have a multisample buffer. -/
def simAttrib (conf : Config) (attr : EGLint) : Int :=
  if attr = SAMPLE_BUFFERS then (if conf = 9 ∨ conf = 7 then 1 else 0)
  else if conf = 9 ∨ conf = 8 then 8
  else if conf = 7 ∨ conf = 5 then (if attr = GREEN_SIZE then 6 else 5)
  else 6

/-- A simulated driver: `Initialize` and the destroy calls succeed, the swap
answers `swapOk`, the last error is `err`, bind-current answers `bindOk`, an
8/8/8 query returns `confs32` and a 5/6/5 query `confs16`, created handles
are fresh. -/
def simDriver (swapOk bindOk : Bool) (err : Error) (confs32 confs16 : List Config) : Driver where
  eglInitialize := fun _ _ => true
  eglTerminate := fun _ _ => true
  eglGetDisplay := fun _ nd => nd
  eglChooseConfig := fun _ _ attribs _ => if attribs.getD 3 0 = 8 then confs32 else confs16
  eglGetConfigAttrib := fun _ _ conf attr => (simAttrib conf attr, true)
  eglCreateWindowSurface := fun h _ conf _ => if conf = 0 then 0 else 100 + h.length
  eglCreateContext := fun h _ _ _ _ => 200 + h.length
  eglMakeCurrent := fun _ _ _ _ _ => bindOk
  eglDestroyContext := fun _ _ _ => true
  eglDestroySurface := fun _ _ _ => true
  eglSwapBuffers := fun _ _ _ => swapOk
  eglGetError := fun _ => err

/-- A manager as `NewContextEx` leaves it (display 1, window 2, ES 2.0), with
the requested depth `depth`. -/
def freshCtx (depth : EGLint) : EGLContext :=
  { surface := NO_SURFACE, display := 1, context := 0, config := 0, window := 2,
    esMajor := 2, esMinor := 0, depthSize := depth, bAntialiasing := true }

/-- A manager in the Ready state: display 1, surface 3, context 4, config 9. -/
def readyCtx : EGLContext :=
  { surface := 3, display := 1, context := 4, config := 9, window := 2,
    esMajor := 2, esMinor := 0, depthSize := 24, bAntialiasing := true }

/-- The simulated driver with a surface creation that always fails. -/
def simDriverNoSurface (confs32 confs16 : List Config) : Driver :=
  { simDriver true true 0 confs32 confs16 with eglCreateWindowSurface := fun _ _ _ _ => 0 }

/-- A freshly constructed manager with the requested API version 3.`minor`. -/
def freshCtx3 (minor : EGLint) : EGLContext :=
  { surface := NO_SURFACE, display := 1, context := 0, config := 0, window := 2,
    esMajor := 3, esMinor := minor, depthSize := 24, bAntialiasing := true }

/-- The condition under which line 167 of `InitEGLSurface` runs for one
candidate: the driver returned at least one configuration (the candidate is
not skipped at line 144) and `config` is nil after the scan (line 166). -/
def fallbackApplied (drv : Driver) (ctx : EGLContext) (h : Trace) (depth : Int) : Bool :=
  decide ((ChooseConfig drv h ctx.display (candidateAttribs depth ctx.esMajor) 16).1.length ≠ 0) &&
  decide ((scanConfs drv ctx
    (h ++ (ChooseConfig drv h ctx.display (candidateAttribs depth ctx.esMajor) 16).2)
    (ChooseConfig drv h ctx.display (candidateAttribs depth ctx.esMajor) 16).1).1.config = 0)

/-- A simulated driver that answers the 8/8/8 query with the nil handle alone,
reports 8/8/8 with a multisample buffer for every handle, and has no 5/6/5
configuration. -/
def simDriverNil : Driver :=
  { simDriver true true 0 [0] [] with
    eglGetConfigAttrib := fun _ _ _ attr => (if attr = SAMPLE_BUFFERS then 1 else 8, true) }

/-! ## Lemmas on the scan loop -/

theorem matchCond_iff_sizes (d : EGLint) (rep : Report) (hd : d = 16 ∨ d = 24 ∨ d = 32) :
    matchCond d rep = true ↔ rep.sizes = specTargetSizes d := by
  rcases hd with hd | hd | hd <;> subst hd <;>
    simp [matchCond, Report.sizes, specTargetSizes, and_assoc]

theorem scanStep_frame (drv : Driver) (ctx : EGLContext) (h : Trace) (conf : Config) :
    (scanStep drv ctx h conf).1 = { ctx with config := (scanStep drv ctx h conf).1.config } := by
  by_cases hm : matchCond ctx.depthSize (attribQueries drv h ctx.display conf).1 = true <;>
    simp [scanStep, hm]

theorem scanConfs_frame (drv : Driver) (confs : List Config) :
    ∀ (ctx : EGLContext) (h : Trace),
      (scanConfs drv ctx h confs).1 = { ctx with config := (scanConfs drv ctx h confs).1.config } := by
  induction confs with
  | nil => intro ctx h; rfl
  | cons c cs ih =>
    intro ctx h
    simp only [scanConfs]
    split
    · exact scanStep_frame drv ctx h c
    · have h1 := ih (scanStep drv ctx h c).1 (h ++ (scanStep drv ctx h c).2.1)
      have h2 := scanStep_frame drv ctx h c
      rw [h1, h2]

/-- Whatever the scan loop assigns is a configuration of the list whose report
satisfied the condition of lines 153-154. -/
theorem scanConfs_assigned (drv : Driver) (confs : List Config) :
    ∀ (ctx : EGLContext) (h : Trace),
      (scanConfs drv ctx h confs).1.config ≠ ctx.config →
      ∃ x ∈ scanView drv ctx.display h confs,
        x.1 = (scanConfs drv ctx h confs).1.config ∧ matchCond ctx.depthSize x.2 = true := by
  induction confs with
  | nil => intro ctx h hne; exact absurd rfl hne
  | cons c cs ih =>
    intro ctx h hne
    simp only [scanConfs, scanStep] at hne ⊢
    by_cases hm : matchCond ctx.depthSize (attribQueries drv h ctx.display c).1 = true
    · simp only [hm, if_true] at hne ⊢
      by_cases hb : (if ctx.bAntialiasing = true then
          decide ((attribQueries drv h ctx.display c).1.s > 0) else true) = true
      · simp only [hb, if_true] at hne ⊢
        exact ⟨(c, (attribQueries drv h ctx.display c).1), by simp [scanView], rfl, hm⟩
      · simp only [hb] at hne ⊢
        by_cases hk : (scanConfs drv { ctx with config := c }
            (h ++ (attribQueries drv h ctx.display c).2) cs).1.config = c
        · exact ⟨(c, (attribQueries drv h ctx.display c).1), by simp [scanView], by simp [hk], hm⟩
        · obtain ⟨x, hx, hx1, hx2⟩ := ih { ctx with config := c }
            (h ++ (attribQueries drv h ctx.display c).2) hk
          exact ⟨x, by simp only [scanView]; exact List.mem_cons_of_mem _ hx, by simpa using hx1, hx2⟩
    · simp only [hm] at hne ⊢
      obtain ⟨x, hx, hx1, hx2⟩ := ih ctx (h ++ (attribQueries drv h ctx.display c).2) (by simpa using hne)
      exact ⟨x, by simp only [scanView]; exact List.mem_cons_of_mem _ hx, by simpa using hx1, hx2⟩

/-- When no configuration the scan reads satisfies the condition of lines
153-154, the scan changes nothing. -/
theorem scanConfs_no_match (drv : Driver) (confs : List Config) :
    ∀ (ctx : EGLContext) (h : Trace),
      (∀ x ∈ scanView drv ctx.display h confs, matchCond ctx.depthSize x.2 = false) →
      (scanConfs drv ctx h confs).1 = ctx := by
  induction confs with
  | nil => intro ctx h _; rfl
  | cons c cs ih =>
    intro ctx h hno
    have h0 : matchCond ctx.depthSize (attribQueries drv h ctx.display c).1 = false :=
      hno (c, (attribQueries drv h ctx.display c).1) (by simp [scanView])
    simp only [scanConfs, scanStep, h0]
    simp only [Bool.false_eq_true, if_false]
    exact ih ctx _ (fun x hx => hno x (by simp only [scanView]; exact List.mem_cons_of_mem _ hx))

/-- The scan loop issues attribute queries only. -/
theorem scanConfs_events (drv : Driver) (confs : List Config) :
    ∀ (ctx : EGLContext) (h : Trace), ∀ e ∈ (scanConfs drv ctx h confs).2, e.isAttribQuery = true := by
  induction confs with
  | nil => intro ctx h e he; simp [scanConfs] at he
  | cons c cs ih =>
    intro ctx h e he
    have hq : ∀ e ∈ (scanStep drv ctx h c).2.1, e.isAttribQuery = true := by
      intro e he
      have : (scanStep drv ctx h c).2.1 = (attribQueries drv h ctx.display c).2 := by
        by_cases hm : matchCond ctx.depthSize (attribQueries drv h ctx.display c).1 = true <;>
          simp [scanStep, hm]
      rw [this] at he
      simp only [attribQueries, GetConfigAttrib, List.mem_append, List.mem_singleton] at he
      rcases he with ((he | he) | he) | he <;> subst he <;> rfl
    simp only [scanConfs] at he
    split at he
    · exact hq e he
    · rcases List.mem_append.mp he with he | he
      · exact hq e he
      · exact ih _ _ e he

theorem filterMap_attribQueries {β : Type} (f : Event → Option β)
    (hf : ∀ e : Event, e.isAttribQuery = true → f e = none) (t : Trace)
    (ht : ∀ e ∈ t, e.isAttribQuery = true) : t.filterMap f = [] := by
  induction t with
  | nil => rfl
  | cons a l ih =>
    have ha : f a = none := hf a (ht a (List.mem_cons_self a l))
    rw [List.filterMap_cons_none ha]
    exact ih (fun e he => ht e (List.mem_cons_of_mem a he))

theorem scanConfs_chooseQueries (drv : Driver) (ctx : EGLContext) (h : Trace) (confs : List Config) :
    chooseQueries (scanConfs drv ctx h confs).2 = [] :=
  filterMap_attribQueries _ (fun e he => by cases e <;> simp_all [Event.isAttribQuery, Event.asChoose])
    _ (scanConfs_events drv confs ctx h)

theorem scanConfs_createdSurfaces (drv : Driver) (ctx : EGLContext) (h : Trace) (confs : List Config) :
    createdSurfaces (scanConfs drv ctx h confs).2 = [] :=
  filterMap_attribQueries _
    (fun e he => by cases e <;> simp_all [Event.isAttribQuery, Event.asCreateSurface])
    _ (scanConfs_events drv confs ctx h)

theorem scanConfs_destroyedSurfaces (drv : Driver) (ctx : EGLContext) (h : Trace) (confs : List Config) :
    destroyedSurfaces (scanConfs drv ctx h confs).2 = [] :=
  filterMap_attribQueries _
    (fun e he => by cases e <;> simp_all [Event.isAttribQuery, Event.asDestroySurface])
    _ (scanConfs_events drv confs ctx h)

/-- With antialiasing requested, the scan ends on the first configuration that
passes the test of lines 153-154 and has a multisample buffer. -/
theorem scanConfs_first_multisampled (drv : Driver) (confs : List Config) :
    ∀ (ctx : EGLContext) (h : Trace) (x : Config × Report),
      ctx.bAntialiasing = true →
      (scanView drv ctx.display h confs).find?
        (fun y => matchCond ctx.depthSize y.2 && decide (y.2.s > 0)) = some x →
      (scanConfs drv ctx h confs).1.config = x.1 := by
  induction confs with
  | nil => intro ctx h x _ hx; simp [scanView] at hx
  | cons c cs ih =>
    intro ctx h x ha hx
    simp only [scanView, List.find?_cons] at hx
    simp only [scanConfs, scanStep, ha, if_true]
    by_cases hm : matchCond ctx.depthSize (attribQueries drv h ctx.display c).1 = true
    · by_cases hs : (attribQueries drv h ctx.display c).1.s > 0
      · simp only [hm, hs, decide_True, Bool.and_self] at hx
        simp only [hm, hs, decide_True, if_true]
        exact congrArg Prod.fst (Option.some.inj hx)
      · simp only [hm, hs, decide_False, Bool.and_false] at hx
        simp only [hm, hs, decide_False, if_true, Bool.false_eq_true, if_false]
        have e := ih { ctx with config := c } (h ++ (attribQueries drv h ctx.display c).2) x ha hx
        simp only [ha] at e
        exact e
    · simp only [hm, Bool.false_and] at hx
      simp only [hm, Bool.false_eq_true, if_false]
      exact ih ctx _ x ha hx

/-- Without antialiasing, the scan ends on the first configuration that passes
the test of lines 153-154. -/
theorem scanConfs_first_match (drv : Driver) (confs : List Config) :
    ∀ (ctx : EGLContext) (h : Trace) (x : Config × Report),
      ctx.bAntialiasing = false →
      (scanView drv ctx.display h confs).find? (fun y => matchCond ctx.depthSize y.2) = some x →
      (scanConfs drv ctx h confs).1.config = x.1 := by
  induction confs with
  | nil => intro ctx h x _ hx; simp [scanView] at hx
  | cons c cs ih =>
    intro ctx h x ha hx
    simp only [scanView, List.find?_cons] at hx
    simp only [scanConfs, scanStep, ha]
    by_cases hm : matchCond ctx.depthSize (attribQueries drv h ctx.display c).1 = true
    · simp only [hm] at hx
      simp only [hm, if_true, Bool.false_eq_true, if_false]
      exact congrArg Prod.fst (Option.some.inj hx)
    · simp only [hm] at hx
      simp only [hm, Bool.false_eq_true, if_false]
      exact ih ctx _ x ha hx

/-! ## Lemmas on one candidate and on the candidate loop -/

theorem processCandidate_frame (drv : Driver) (ctx : EGLContext) (h : Trace) (depth : Int) :
    (processCandidate drv ctx h depth).1 =
      { ctx with config := (processCandidate drv ctx h depth).1.config } := by
  have hs := scanConfs_frame drv
    (ChooseConfig drv h ctx.display (candidateAttribs depth ctx.esMajor) 16).1 ctx
    (h ++ (ChooseConfig drv h ctx.display (candidateAttribs depth ctx.esMajor) 16).2)
  simp only [processCandidate]
  split
  · rfl
  · split
    · rw [hs]
    · rw [hs]

theorem processCandidate_chooseQueries (drv : Driver) (ctx : EGLContext) (h : Trace) (depth : Int) :
    chooseQueries (processCandidate drv ctx h depth).2 =
      [(candidateAttribs depth ctx.esMajor,
        (ChooseConfig drv h ctx.display (candidateAttribs depth ctx.esMajor) 16).1)] := by
  have hs := scanConfs_chooseQueries drv ctx
    (h ++ (ChooseConfig drv h ctx.display (candidateAttribs depth ctx.esMajor) 16).2)
    (ChooseConfig drv h ctx.display (candidateAttribs depth ctx.esMajor) 16).1
  simp only [chooseQueries] at hs
  simp only [processCandidate]
  split
  · simp [chooseQueries, ChooseConfig, Event.asChoose]
  · split <;> simp [chooseQueries, List.filterMap_append, hs] <;>
      simp [ChooseConfig, Event.asChoose]

theorem processCandidate_createdSurfaces (drv : Driver) (ctx : EGLContext) (h : Trace) (depth : Int) :
    createdSurfaces (processCandidate drv ctx h depth).2 = [] := by
  have hs := scanConfs_createdSurfaces drv ctx
    (h ++ (ChooseConfig drv h ctx.display (candidateAttribs depth ctx.esMajor) 16).2)
    (ChooseConfig drv h ctx.display (candidateAttribs depth ctx.esMajor) 16).1
  simp only [createdSurfaces] at hs
  simp only [processCandidate]
  split
  · simp [createdSurfaces, ChooseConfig, Event.asCreateSurface]
  · split <;> simp [createdSurfaces, List.filterMap_append, hs] <;>
      simp [ChooseConfig, Event.asCreateSurface]

theorem processCandidate_destroyedSurfaces (drv : Driver) (ctx : EGLContext) (h : Trace) (depth : Int) :
    destroyedSurfaces (processCandidate drv ctx h depth).2 = [] := by
  have hs := scanConfs_destroyedSurfaces drv ctx
    (h ++ (ChooseConfig drv h ctx.display (candidateAttribs depth ctx.esMajor) 16).2)
    (ChooseConfig drv h ctx.display (candidateAttribs depth ctx.esMajor) 16).1
  simp only [destroyedSurfaces] at hs
  simp only [processCandidate]
  split
  · simp [destroyedSurfaces, ChooseConfig, Event.asDestroySurface]
  · split <;> simp [destroyedSurfaces, List.filterMap_append, hs] <;>
      simp [ChooseConfig, Event.asDestroySurface]

/-- A candidate for which the driver returns nothing changes nothing. -/
theorem processCandidate_of_empty (drv : Driver) (ctx : EGLContext) (h : Trace) (depth : Int)
    (hq : (ChooseConfig drv h ctx.display (candidateAttribs depth ctx.esMajor) 16).1 = []) :
    (processCandidate drv ctx h depth).1 = ctx := by
  simp [processCandidate, hq]

/-- A candidate for which the driver returns non-nil handles leaves `config` set. -/
theorem processCandidate_config_ne (drv : Driver) (ctx : EGLContext) (h : Trace) (depth : Int)
    (hnn : (0 : Config) ∉ (ChooseConfig drv h ctx.display (candidateAttribs depth ctx.esMajor) 16).1)
    (hq : (ChooseConfig drv h ctx.display (candidateAttribs depth ctx.esMajor) 16).1 ≠ []) :
    (processCandidate drv ctx h depth).1.config ≠ 0 := by
  have hlen : ¬ (ChooseConfig drv h ctx.display (candidateAttribs depth ctx.esMajor) 16).1.length = 0 :=
    fun hl => hq (List.length_eq_zero.mp hl)
  simp only [processCandidate, hlen, if_false]
  split
  · cases hc : (ChooseConfig drv h ctx.display (candidateAttribs depth ctx.esMajor) 16).1 with
    | nil => exact absurd hc hq
    | cons a l =>
      rw [hc] at hnn
      simp only [List.headD_cons]
      intro ha
      exact hnn (by rw [ha]; exact List.mem_cons_self 0 l)
  · assumption

theorem selectLoop_two (drv : Driver) (ctx : EGLContext) (h : Trace) (d1 d2 : Int) :
    selectLoop drv ctx h [d1, d2] =
      ((processCandidate drv (processCandidate drv ctx h d1).1
          (h ++ (processCandidate drv ctx h d1).2) d2).1,
       (processCandidate drv ctx h d1).2 ++
        (processCandidate drv (processCandidate drv ctx h d1).1
          (h ++ (processCandidate drv ctx h d1).2) d2).2) := by
  simp [selectLoop]

theorem candidateDepths_eq (d : EGLint) :
    candidateDepths d = [32, 16] ∨ candidateDepths d = [16, 32] := by
  unfold candidateDepths
  split
  · exact Or.inl rfl
  · exact Or.inr rfl

/-- A candidate whose configurations all fail the test of lines 153-154: the
fallback applies when `config` is unset, nothing changes otherwise. -/
theorem processCandidate_no_match (drv : Driver) (ctx : EGLContext) (h : Trace)
    (depth : Int)
    (hne : (ChooseConfig drv h ctx.display (candidateAttribs depth ctx.esMajor) 16).1 ≠ [])
    (hno : ∀ x ∈ scanView drv ctx.display
        (h ++ (ChooseConfig drv h ctx.display (candidateAttribs depth ctx.esMajor) 16).2)
        (ChooseConfig drv h ctx.display (candidateAttribs depth ctx.esMajor) 16).1,
      matchCond ctx.depthSize x.2 = false) :
    (ctx.config = 0 →
      (ChooseConfig drv h ctx.display (candidateAttribs depth ctx.esMajor) 16).1.head? =
        some (processCandidate drv ctx h depth).1.config) ∧
    (ctx.config ≠ 0 → (processCandidate drv ctx h depth).1 = ctx) := by
  have hsc := scanConfs_no_match drv _ ctx _ hno
  have hlen : ¬ (ChooseConfig drv h ctx.display (candidateAttribs depth ctx.esMajor) 16).1.length = 0 := by
    intro hl; exact hne (List.length_eq_zero.mp hl)
  constructor
  · intro hc
    simp only [processCandidate, hlen, if_false, hsc, hc, if_true]
    cases hq : (ChooseConfig drv h ctx.display (candidateAttribs depth ctx.esMajor) 16).1 with
    | nil => exact absurd hq hne
    | cons a l => simp
  · intro hc
    simp only [processCandidate, hlen, if_false, hsc, hc]

/-! ## C1: what the scan treats as an exact match -/

/-- C1, as stated, fails.  Requested depth 24, second candidate (depth 16): the
driver has no 8/8/8 configuration and answers the 5/6/5 query with
configurations 5 and 7, both 5/6/5, the second one multisampled.  Both report
exactly the target sizes of the candidate, yet the scan assigns neither: it
leaves `config` unset and the candidate ends on the fallback, configuration 5
(with the test on the candidate's sizes the scan would have ended on 7).
Conversely configuration 8 reports 8/8/8, not the sizes of candidate 16, and
the scan of that candidate assigns it. -/
theorem C1_counterexample :
    (16 : Int) ∈ candidateDepths (freshCtx 24).depthSize ∧
    (ChooseConfig (simDriver true true 0 [] [5, 7]) [] 1 (candidateAttribs 16 2) 16).1 = [5, 7] ∧
    (attribQueries (simDriver true true 0 [] [5, 7]) [] 1 5).1.sizes = specTargetSizes 16 ∧
    ¬ ((scanStep (simDriver true true 0 [] [5, 7]) (freshCtx 24) [] 7).1.config = 7 ↔
        (attribQueries (simDriver true true 0 [] [5, 7]) [] 1 7).1.sizes = specTargetSizes 16) ∧
    (scanConfs (simDriver true true 0 [] [5, 7]) (freshCtx 24) [] [5, 7]).1.config = 0 ∧
    ((freshCtx 24).InitEGLSurface (simDriver true true 0 [] [5, 7]) []).ctx.config = 5 ∧
    ¬ ((scanStep (simDriver true true 0 [8] [5, 8]) (freshCtx 24) [] 8).1.config = 8 ↔
        (attribQueries (simDriver true true 0 [8] [5, 8]) [] 1 8).1.sizes = specTargetSizes 16) := by
  decide

/-- C1 (amended): in the scan of `InitEGLSurface`, for every requested depth in
{16, 24, 32} and whatever candidate is being processed, a configuration the scan
reads is assigned to `config` if and only if its reported red/green/blue sizes
equal the target sizes implied by the REQUESTED depth (8/8/8 above 16, 5/6/5
for 16), and is otherwise left alone; so whatever a scan assigns is a returned
configuration that reported those sizes.  For the first (preferred) candidate
these are the candidate's own target sizes. -/
theorem C1_exact_match_tests_requested_depth (drv : Driver) (ctx : EGLContext) (h : Trace)
    (conf : Config) (hd : ctx.depthSize = 16 ∨ ctx.depthSize = 24 ∨ ctx.depthSize = 32)
    (hne : ctx.config ≠ conf) :
    ((scanStep drv ctx h conf).1.config = conf ↔
      (attribQueries drv h ctx.display conf).1.sizes = specTargetSizes ctx.depthSize) ∧
    ((attribQueries drv h ctx.display conf).1.sizes ≠ specTargetSizes ctx.depthSize →
      (scanStep drv ctx h conf).1 = ctx) ∧
    (∀ confs : List Config, (scanConfs drv ctx h confs).1.config ≠ ctx.config →
      ∃ x ∈ scanView drv ctx.display h confs,
        x.1 = (scanConfs drv ctx h confs).1.config ∧ x.2.sizes = specTargetSizes ctx.depthSize) ∧
    specTargetSizes ((candidateDepths ctx.depthSize).headD 0) = specTargetSizes ctx.depthSize := by
  have hiff := matchCond_iff_sizes ctx.depthSize (attribQueries drv h ctx.display conf).1 hd
  refine ⟨?_, ?_, ?_, ?_⟩
  · rw [← hiff]
    by_cases hm : matchCond ctx.depthSize (attribQueries drv h ctx.display conf).1 = true
    · simp [scanStep, hm]
    · simp [scanStep, hm, hne]
  · intro hs
    have hm : ¬ matchCond ctx.depthSize (attribQueries drv h ctx.display conf).1 = true :=
      fun hm => hs (hiff.mp hm)
    simp [scanStep, hm]
  · intro confs hc
    obtain ⟨x, hx, hx1, hx2⟩ := scanConfs_assigned drv confs ctx h hc
    exact ⟨x, hx, hx1, (matchCond_iff_sizes ctx.depthSize x.2 hd).mp hx2⟩
  · rcases hd with hd | hd | hd <;> rw [hd] <;> decide

/-- C1 (amended), at a concrete input: requested depth 24, configuration 9 (8/8/8). -/
theorem C1_exact_match_tests_requested_depth_witness :
    ((freshCtx 24).depthSize = 16 ∨ (freshCtx 24).depthSize = 24 ∨ (freshCtx 24).depthSize = 32) ∧
    (freshCtx 24).config ≠ 9 ∧
    ((scanStep (simDriver true true 0 [9] []) (freshCtx 24) [] 9).1.config = 9 ↔
      (attribQueries (simDriver true true 0 [9] []) [] (freshCtx 24).display 9).1.sizes =
        specTargetSizes (freshCtx 24).depthSize) :=
  ⟨by decide, by decide,
    (C1_exact_match_tests_requested_depth (simDriver true true 0 [9] []) (freshCtx 24) [] 9
      (by decide) (by decide)).1⟩

/-! ## C2: the first-configuration fallback -/

/-- C2, as stated, fails.  Requested depth 24: the first candidate (32) selects
configuration 9, an exact and multisampled match.  The second candidate (16)
returns the single configuration 6, which reports 6/6/6 and is an exact match
for no depth; after that candidate `config` is still 9, not the first
configuration returned for it. -/
theorem C2_counterexample :
    (processCandidate (simDriver true true 0 [9] [6]) (freshCtx 24) [] 32).1.config = 9 ∧
    (ChooseConfig (simDriver true true 0 [9] [6])
      ([] ++ (processCandidate (simDriver true true 0 [9] [6]) (freshCtx 24) [] 32).2) 1
      (candidateAttribs 16 2) 16).1 = [6] ∧
    (attribQueries (simDriver true true 0 [9] [6]) [] 1 6).1.sizes = (6, 6, 6) ∧
    (processCandidate (simDriver true true 0 [9] [6])
      (processCandidate (simDriver true true 0 [9] [6]) (freshCtx 24) [] 32).1
      ([] ++ (processCandidate (simDriver true true 0 [9] [6]) (freshCtx 24) [] 32).2)
      16).1.config ≠ 6 ∧
    ((freshCtx 24).InitEGLSurface (simDriver true true 0 [9] [6]) []).ctx.config = 9 := by
  decide

/-- C2 (amended): in `InitEGLSurface`, for every candidate for which the driver
returns at least one configuration and none of them satisfies the exact-match
test (the test on the requested depth), the `config` after processing that
candidate is the first configuration the driver returned for that candidate
when `config` was unset before the candidate, and the manager is unchanged,
keeping the configuration selected earlier, when `config` was already set: the
fallback never overwrites. -/
theorem C2_fallback_only_when_config_unset (drv : Driver) (ctx : EGLContext) (h : Trace)
    (depth : Int)
    (hne : (ChooseConfig drv h ctx.display (candidateAttribs depth ctx.esMajor) 16).1 ≠ [])
    (hno : ∀ x ∈ scanView drv ctx.display
        (h ++ (ChooseConfig drv h ctx.display (candidateAttribs depth ctx.esMajor) 16).2)
        (ChooseConfig drv h ctx.display (candidateAttribs depth ctx.esMajor) 16).1,
      matchCond ctx.depthSize x.2 = false) :
    (ctx.config = 0 →
      (ChooseConfig drv h ctx.display (candidateAttribs depth ctx.esMajor) 16).1.head? =
        some (processCandidate drv ctx h depth).1.config) ∧
    (ctx.config ≠ 0 → (processCandidate drv ctx h depth).1 = ctx) :=
  processCandidate_no_match drv ctx h depth hne hno

/-- C2 (amended), at concrete inputs: the second candidate of a depth-24
request returning configuration 6 (6/6/6), with `config` unset. -/
theorem C2_fallback_only_when_config_unset_witness :
    (ChooseConfig (simDriver true true 0 [] [6]) [] 1 (candidateAttribs 16 2) 16).1 ≠ [] ∧
    ((freshCtx 24).config = 0 →
      (ChooseConfig (simDriver true true 0 [] [6]) [] (freshCtx 24).display
        (candidateAttribs 16 (freshCtx 24).esMajor) 16).1.head? =
        some (processCandidate (simDriver true true 0 [] [6]) (freshCtx 24) [] 16).1.config) :=
  ⟨by decide,
    (C2_fallback_only_when_config_unset (simDriver true true 0 [] [6]) (freshCtx 24) [] 16
      (by decide) (by decide)).1⟩

/-! ## C3: when the selection yields nothing -/

theorem selectLoop_two_chooseQueries (drv : Driver) (ctx : EGLContext) (h : Trace) (d1 d2 : Int) :
    chooseQueries (selectLoop drv ctx h [d1, d2]).2 =
      [(candidateAttribs d1 ctx.esMajor,
          (ChooseConfig drv h ctx.display (candidateAttribs d1 ctx.esMajor) 16).1),
       (candidateAttribs d2 ctx.esMajor,
          (ChooseConfig drv (h ++ (processCandidate drv ctx h d1).2) ctx.display
            (candidateAttribs d2 ctx.esMajor) 16).1)] := by
  have hf := processCandidate_frame drv ctx h d1
  have h1 := processCandidate_chooseQueries drv ctx h d1
  have h2 := processCandidate_chooseQueries drv (processCandidate drv ctx h d1).1
    (h ++ (processCandidate drv ctx h d1).2) d2
  have hdisp : (processCandidate drv ctx h d1).1.display = ctx.display := by rw [hf]
  have hmaj : (processCandidate drv ctx h d1).1.esMajor = ctx.esMajor := by rw [hf]
  rw [hdisp, hmaj] at h2
  rw [selectLoop_two]
  simp only [chooseQueries, List.filterMap_append] at h1 h2 ⊢
  rw [h1, h2]
  rfl

theorem selectLoop_two_createdSurfaces (drv : Driver) (ctx : EGLContext) (h : Trace) (d1 d2 : Int) :
    createdSurfaces (selectLoop drv ctx h [d1, d2]).2 = [] := by
  have h1 := processCandidate_createdSurfaces drv ctx h d1
  have h2 := processCandidate_createdSurfaces drv (processCandidate drv ctx h d1).1
    (h ++ (processCandidate drv ctx h d1).2) d2
  rw [selectLoop_two]
  simp only [createdSurfaces, List.filterMap_append] at h1 h2 ⊢
  rw [h1, h2]
  rfl

theorem selectLoop_two_destroyedSurfaces (drv : Driver) (ctx : EGLContext) (h : Trace) (d1 d2 : Int) :
    destroyedSurfaces (selectLoop drv ctx h [d1, d2]).2 = [] := by
  have h1 := processCandidate_destroyedSurfaces drv ctx h d1
  have h2 := processCandidate_destroyedSurfaces drv (processCandidate drv ctx h d1).1
    (h ++ (processCandidate drv ctx h d1).2) d2
  rw [selectLoop_two]
  simp only [destroyedSurfaces, List.filterMap_append] at h1 h2 ⊢
  rw [h1, h2]
  rfl

theorem selectLoop_two_frame (drv : Driver) (ctx : EGLContext) (h : Trace) (d1 d2 : Int) :
    (selectLoop drv ctx h [d1, d2]).1 =
      { ctx with config := (selectLoop drv ctx h [d1, d2]).1.config } := by
  have hf := processCandidate_frame drv ctx h d1
  have hf2 := processCandidate_frame drv (processCandidate drv ctx h d1).1
    (h ++ (processCandidate drv ctx h d1).2) d2
  rw [selectLoop_two]
  simp only
  rw [hf2, hf]

/-- With a driver that returns non-nil handles only, the candidate loop leaves
an unset `config` unset exactly when both queries return nothing. -/
theorem selectLoop_two_config (drv : Driver) (ctx : EGLContext) (h : Trace) (d1 d2 : Int)
    (hfresh : ctx.config = 0)
    (hnn : ∀ (t : Trace) (d : Display) (a : List EGLint) (n : Nat),
      (0 : Config) ∉ drv.eglChooseConfig t d a n) :
    (selectLoop drv ctx h [d1, d2]).1.config = 0 ↔
      ((ChooseConfig drv h ctx.display (candidateAttribs d1 ctx.esMajor) 16).1 = [] ∧
       (ChooseConfig drv (h ++ (processCandidate drv ctx h d1).2) ctx.display
          (candidateAttribs d2 ctx.esMajor) 16).1 = []) := by
  have hnn2 : ∀ (t : Trace) (d : Display) (a : List EGLint),
      (0 : Config) ∉ (ChooseConfig drv t d a 16).1 := by
    intro t d a hm
    exact hnn t d a 16 (List.mem_of_mem_take hm)
  have hf := processCandidate_frame drv ctx h d1
  have hdisp : (processCandidate drv ctx h d1).1.display = ctx.display := by rw [hf]
  have hmaj : (processCandidate drv ctx h d1).1.esMajor = ctx.esMajor := by rw [hf]
  rw [selectLoop_two]
  simp only
  by_cases hq2 : (ChooseConfig drv (h ++ (processCandidate drv ctx h d1).2) ctx.display
      (candidateAttribs d2 ctx.esMajor) 16).1 = []
  · have e2 := processCandidate_of_empty drv (processCandidate drv ctx h d1).1
      (h ++ (processCandidate drv ctx h d1).2) d2 (by rw [hdisp, hmaj]; exact hq2)
    rw [e2]
    by_cases hq1 : (ChooseConfig drv h ctx.display (candidateAttribs d1 ctx.esMajor) 16).1 = []
    · rw [processCandidate_of_empty drv ctx h d1 hq1]
      simp [hfresh, hq1, hq2]
    · have := processCandidate_config_ne drv ctx h d1 (hnn2 _ _ _) hq1
      simp [this, hq1]
  · have := processCandidate_config_ne drv (processCandidate drv ctx h d1).1
      (h ++ (processCandidate drv ctx h d1).2) d2 (hnn2 _ _ _) (by rw [hdisp, hmaj]; exact hq2)
    simp [this, hq2]

/-- C3: for every manager with `config` unset (as after construction), every
history and every driver whose `Initialize` succeeds and that returns non-nil
configuration handles only, the selection of `InitEGLSurface` yields no
configuration if and only if the two `ChooseConfig` queries, one per depth
candidate in candidate order, both returned zero configurations; and when it
yields none, `InitEGLSurface` returns false and issues no `CreateWindowSurface`
call. -/
theorem C3_selection_fails_iff_both_candidates_empty (drv : Driver) (ctx : EGLContext) (h : Trace)
    (hfresh : ctx.config = 0) (hinit : drv.eglInitialize h ctx.display = true)
    (hnn : ∀ (t : Trace) (d : Display) (a : List EGLint) (n : Nat),
      (0 : Config) ∉ drv.eglChooseConfig t d a n) :
    ((ctx.InitEGLSurface drv h).ctx.config = 0 ↔
      chooseQueries (ctx.InitEGLSurface drv h).ev =
        (candidateDepths ctx.depthSize).map (fun d => (candidateAttribs d ctx.esMajor, []))) ∧
    ((ctx.InitEGLSurface drv h).ctx.config = 0 →
      (ctx.InitEGLSurface drv h).val = false ∧ createdSurfaces (ctx.InitEGLSurface drv h).ev = []) := by
  have hd : ∃ d1 d2, candidateDepths ctx.depthSize = [d1, d2] := by
    rcases candidateDepths_eq ctx.depthSize with hc | hc <;> exact ⟨_, _, hc⟩
  obtain ⟨d1, d2, hd⟩ := hd
  have hcq := selectLoop_two_chooseQueries drv ctx (h ++ [Event.init ctx.display true]) d1 d2
  have hcs := selectLoop_two_createdSurfaces drv ctx (h ++ [Event.init ctx.display true]) d1 d2
  have hcf := selectLoop_two_config drv ctx (h ++ [Event.init ctx.display true]) d1 d2 hfresh hnn
  simp only [chooseQueries, createdSurfaces] at hcq hcs
  have hev : chooseQueries (ctx.InitEGLSurface drv h).ev =
      chooseQueries (selectLoop drv ctx (h ++ [Event.init ctx.display true]) [d1, d2]).2 := by
    simp only [EGLContext.InitEGLSurface, Initialize, hinit, hd]
    simp only [not_true_eq_false, if_false]
    split
    · simp [chooseQueries, List.filterMap_append, Event.asChoose]
    · split <;>
        simp [chooseQueries, List.filterMap_append, Event.asChoose, CreateWindowSurface]
  have hcfg : (ctx.InitEGLSurface drv h).ctx.config =
      (selectLoop drv ctx (h ++ [Event.init ctx.display true]) [d1, d2]).1.config := by
    simp only [EGLContext.InitEGLSurface, Initialize, hinit, hd]
    simp only [not_true_eq_false, if_false]
    split
    · rfl
    · split <;> rfl
  constructor
  · rw [hcfg, hev, hcf, hd]
    simp only [chooseQueries]
    rw [hcq]
    simp
  · intro h0
    rw [hcfg] at h0
    simp only [EGLContext.InitEGLSurface, Initialize, hinit, hd]
    simp only [not_true_eq_false, if_false, h0, if_true]
    simp [createdSurfaces, List.filterMap_append, Event.asCreateSurface, hcs]

/-- C3 at a concrete driver: both queries return nothing, selection fails. -/
theorem C3_selection_fails_iff_both_candidates_empty_witness :
    (freshCtx 24).config = 0 ∧
    (simDriver true true 0 [] []).eglInitialize [] (freshCtx 24).display = true ∧
    (((freshCtx 24).InitEGLSurface (simDriver true true 0 [] []) []).ctx.config = 0 ↔
      chooseQueries ((freshCtx 24).InitEGLSurface (simDriver true true 0 [] []) []).ev =
        (candidateDepths (freshCtx 24).depthSize).map
          (fun d => (candidateAttribs d (freshCtx 24).esMajor, []))) :=
  ⟨by decide, by decide,
    (C3_selection_fails_iff_both_candidates_empty (simDriver true true 0 [] []) (freshCtx 24) []
      (by decide) (by decide) (by intro t d a n; simp [simDriver])).1⟩

/-! ## C4: depth 24 with 16-bit configurations only -/

/-- C4, as stated, fails.  A manager constructed with depth 24; the driver
returns zero configurations for the 8/8/8 query.  When it answers the 5/6/5
query with configuration 5 (5/6/5) followed by configuration 8 (8/8/8), the
scan assigns 8, which passes the test on the requested depth, and `config` is
8, not the first configuration returned.  When it answers with the nil handle
followed by configuration 5, nothing passes the test, the fallback stores the
first entry, the nil handle, and `InitEGLSurface` fails at the selection step,
returns false and creates no surface. -/
theorem C4_counterexample :
    (NewContextEx (simDriver true true 0 [] [5, 8]) [] 2 1 24 2 0).1.depthSize = 24 ∧
    chooseQueries ((NewContextEx (simDriver true true 0 [] [5, 8]) [] 2 1 24 2 0).1.InitEGLSurface
      (simDriver true true 0 [] [5, 8])
      (NewContextEx (simDriver true true 0 [] [5, 8]) [] 2 1 24 2 0).2).ev =
      [(candidateAttribs 32 2, []), (candidateAttribs 16 2, [5, 8])] ∧
    (attribQueries (simDriver true true 0 [] [5, 8]) [] 1 5).1.sizes = (5, 6, 5) ∧
    ((NewContextEx (simDriver true true 0 [] [5, 8]) [] 2 1 24 2 0).1.InitEGLSurface
      (simDriver true true 0 [] [5, 8])
      (NewContextEx (simDriver true true 0 [] [5, 8]) [] 2 1 24 2 0).2).ctx.config = 8 ∧
    chooseQueries ((NewContextEx (simDriver true true 0 [] [0, 5]) [] 2 1 24 2 0).1.InitEGLSurface
      (simDriver true true 0 [] [0, 5])
      (NewContextEx (simDriver true true 0 [] [0, 5]) [] 2 1 24 2 0).2).ev =
      [(candidateAttribs 32 2, []), (candidateAttribs 16 2, [0, 5])] ∧
    ((NewContextEx (simDriver true true 0 [] [0, 5]) [] 2 1 24 2 0).1.InitEGLSurface
      (simDriver true true 0 [] [0, 5])
      (NewContextEx (simDriver true true 0 [] [0, 5]) [] 2 1 24 2 0).2).val = false ∧
    createdSurfaces ((NewContextEx (simDriver true true 0 [] [0, 5]) [] 2 1 24 2 0).1.InitEGLSurface
      (simDriver true true 0 [] [0, 5])
      (NewContextEx (simDriver true true 0 [] [0, 5]) [] 2 1 24 2 0).2).ev = [] := by
  decide

/-- C4 (amended): for a manager with `config` unset and requested depth 24 (as
constructed by `NewContextEx` with depth 24), when `Initialize` succeeds, the
driver returns zero configurations for the 8/8/8 query and, for the 5/6/5
query, at least one configuration, the first a non-nil handle and none
reporting 8/8/8 (as when all of them are 5/6/5), then `InitEGLSurface` queries
the 32 candidate first and the 16 candidate second, `config` becomes the first
configuration returned for the 16 candidate, one window surface is created
with it, and `InitEGLSurface` returns true exactly when that surface handle is
not the none sentinel. -/
theorem C4_depth24_falls_back_to_16 (drv : Driver) (ctx : EGLContext) (h : Trace)
    (c0 : Config) (rest : List Config)
    (hfresh : ctx.config = 0) (hd : ctx.depthSize = 24)
    (hinit : drv.eglInitialize h ctx.display = true)
    (h32 : (ChooseConfig drv (h ++ [Event.init ctx.display true]) ctx.display
      (candidateAttribs 32 ctx.esMajor) 16).1 = [])
    (h16 : (ChooseConfig drv
      (h ++ [Event.init ctx.display true,
        Event.chooseConfig ctx.display (candidateAttribs 32 ctx.esMajor) 16 []])
      ctx.display (candidateAttribs 16 ctx.esMajor) 16).1 = c0 :: rest)
    (hc0 : c0 ≠ 0)
    (hno888 : ∀ x ∈ scanView drv ctx.display
      (h ++ [Event.init ctx.display true,
        Event.chooseConfig ctx.display (candidateAttribs 32 ctx.esMajor) 16 [],
        Event.chooseConfig ctx.display (candidateAttribs 16 ctx.esMajor) 16 (c0 :: rest)])
      (c0 :: rest), x.2.sizes ≠ (8, 8, 8)) :
    chooseQueries (ctx.InitEGLSurface drv h).ev =
      [(candidateAttribs 32 ctx.esMajor, []), (candidateAttribs 16 ctx.esMajor, c0 :: rest)] ∧
    (ctx.InitEGLSurface drv h).ctx.config = c0 ∧
    createdSurfaces (ctx.InitEGLSurface drv h).ev = [(c0, (ctx.InitEGLSurface drv h).ctx.surface)] ∧
    ((ctx.InitEGLSurface drv h).val = true ↔ (ctx.InitEGLSurface drv h).ctx.surface ≠ NO_SURFACE) := by
  have hdep : candidateDepths ctx.depthSize = [32, 16] := by rw [hd]; decide
  -- the first candidate
  have e32 : (ChooseConfig drv (h ++ [Event.init ctx.display true]) ctx.display
      (candidateAttribs 32 ctx.esMajor) 16).2 =
      [Event.chooseConfig ctx.display (candidateAttribs 32 ctx.esMajor) 16 []] := by
    have := h32
    simp only [ChooseConfig] at this ⊢
    rw [this]
  have p32 : processCandidate drv ctx (h ++ [Event.init ctx.display true]) 32 =
      (ctx, [Event.chooseConfig ctx.display (candidateAttribs 32 ctx.esMajor) 16 []]) := by
    simp only [processCandidate, h32, e32, List.length_nil, if_true]
  -- the second candidate
  have hh : h ++ [Event.init ctx.display true] ++
      [Event.chooseConfig ctx.display (candidateAttribs 32 ctx.esMajor) 16 []] =
      h ++ [Event.init ctx.display true,
        Event.chooseConfig ctx.display (candidateAttribs 32 ctx.esMajor) 16 []] := by simp
  have e16 : (ChooseConfig drv
      (h ++ [Event.init ctx.display true,
        Event.chooseConfig ctx.display (candidateAttribs 32 ctx.esMajor) 16 []])
      ctx.display (candidateAttribs 16 ctx.esMajor) 16).2 =
      [Event.chooseConfig ctx.display (candidateAttribs 16 ctx.esMajor) 16 (c0 :: rest)] := by
    have := h16
    simp only [ChooseConfig] at this ⊢
    rw [this]
  have hno : ∀ x ∈ scanView drv ctx.display
      (h ++ [Event.init ctx.display true,
          Event.chooseConfig ctx.display (candidateAttribs 32 ctx.esMajor) 16 []] ++
        (ChooseConfig drv
          (h ++ [Event.init ctx.display true,
            Event.chooseConfig ctx.display (candidateAttribs 32 ctx.esMajor) 16 []])
          ctx.display (candidateAttribs 16 ctx.esMajor) 16).2)
      (ChooseConfig drv
        (h ++ [Event.init ctx.display true,
          Event.chooseConfig ctx.display (candidateAttribs 32 ctx.esMajor) 16 []])
        ctx.display (candidateAttribs 16 ctx.esMajor) 16).1,
      matchCond ctx.depthSize x.2 = false := by
    rw [e16, h16]
    intro x hx
    have hs := hno888 x (by simpa using hx)
    by_contra hm
    have hm2 : matchCond ctx.depthSize x.2 = true := by simpa using hm
    have hsz := (matchCond_iff_sizes ctx.depthSize x.2 (Or.inr (Or.inl hd))).mp hm2
    rw [hd] at hsz
    exact hs (hsz.trans (by decide))
  have p16 := (processCandidate_no_match drv ctx
    (h ++ [Event.init ctx.display true,
      Event.chooseConfig ctx.display (candidateAttribs 32 ctx.esMajor) 16 []]) 16
    (by rw [h16]; exact List.cons_ne_nil _ _) hno).1 hfresh
  rw [h16] at p16
  have hcfg : (processCandidate drv ctx
      (h ++ [Event.init ctx.display true,
        Event.chooseConfig ctx.display (candidateAttribs 32 ctx.esMajor) 16 []]) 16).1.config = c0 := by
    simpa using p16.symm
  have hsel : (selectLoop drv ctx (h ++ [Event.init ctx.display true]) [32, 16]).1.config = c0 := by
    rw [selectLoop_two, p32]
    simp only [hh]
    exact hcfg
  have hcq := selectLoop_two_chooseQueries drv ctx (h ++ [Event.init ctx.display true]) 32 16
  rw [p32] at hcq
  simp only [hh, h32, h16] at hcq
  have hcs := selectLoop_two_createdSurfaces drv ctx (h ++ [Event.init ctx.display true]) 32 16
  have hne : ¬ (selectLoop drv ctx (h ++ [Event.init ctx.display true]) [32, 16]).1.config = 0 := by
    rw [hsel]; exact hc0
  simp only [chooseQueries, createdSurfaces] at hcq hcs
  simp only [EGLContext.InitEGLSurface, Initialize, hinit, hdep]
  simp only [not_true_eq_false, if_false, hne]
  refine ⟨?_, ?_, ?_, ?_⟩
  · split <;>
      simp [chooseQueries, List.filterMap_append, Event.asChoose, CreateWindowSurface, hcq]
  · split <;> exact hsel
  · split <;>
      simp [createdSurfaces, List.filterMap_append, Event.asCreateSurface, CreateWindowSurface,
        hcs, hsel]
  · split <;> simp_all [NO_SURFACE]

/-- C4 (amended) at a concrete run: a context constructed by `NewContextEx`
with depth 24 and a driver that has configuration 5 (5/6/5) and configuration
6 (6/6/6) only: `config` becomes 5. -/
theorem C4_depth24_falls_back_to_16_witness :
    (NewContextEx (simDriver true true 0 [] [5, 6]) [] 2 1 24 2 0).1.config = 0 ∧
    (NewContextEx (simDriver true true 0 [] [5, 6]) [] 2 1 24 2 0).1.depthSize = 24 ∧
    ((NewContextEx (simDriver true true 0 [] [5, 6]) [] 2 1 24 2 0).1.InitEGLSurface
      (simDriver true true 0 [] [5, 6]) []).ctx.config = 5 :=
  ⟨by decide, by decide,
    (C4_depth24_falls_back_to_16 (simDriver true true 0 [] [5, 6])
      (NewContextEx (simDriver true true 0 [] [5, 6]) [] 2 1 24 2 0).1 [] 5 [6]
      (by decide) (by decide) (by decide) (by decide) (by decide) (by decide) (by decide)).2.1⟩

/-! ## C5: the scan of the preferred candidate -/

/-- C5: in `InitEGLSurface`, for the first (preferred) candidate and every
requested depth in {16, 24, 32}, with exact match meaning that the reported
red/green/blue sizes equal the target sizes of that candidate: when
antialiasing is requested and the scanned results contain an exact match with
`SAMPLE_BUFFERS > 0`, the `config` held right after the scan is the first such
configuration in driver order; when antialiasing is not requested and the
results contain an exact match, it is the first exact match in driver order. -/
theorem C5_preferred_candidate_scan (drv : Driver) (ctx : EGLContext) (h : Trace)
    (confs : List Config)
    (hd : ctx.depthSize = 16 ∨ ctx.depthSize = 24 ∨ ctx.depthSize = 32) :
    (ctx.bAntialiasing = true → ∀ x : Config × Report,
      (scanView drv ctx.display h confs).find?
        (fun y => decide (y.2.sizes = specTargetSizes ((candidateDepths ctx.depthSize).headD 0)) &&
          decide (y.2.s > 0)) = some x →
      (scanConfs drv ctx h confs).1.config = x.1) ∧
    (ctx.bAntialiasing = false → ∀ x : Config × Report,
      (scanView drv ctx.display h confs).find?
        (fun y => decide (y.2.sizes = specTargetSizes ((candidateDepths ctx.depthSize).headD 0))) =
        some x →
      (scanConfs drv ctx h confs).1.config = x.1) := by
  have hhead : specTargetSizes ((candidateDepths ctx.depthSize).headD 0) =
      specTargetSizes ctx.depthSize := by
    rcases hd with hd | hd | hd <;> rw [hd] <;> decide
  have hp : ∀ y : Config × Report,
      decide (y.2.sizes = specTargetSizes ((candidateDepths ctx.depthSize).headD 0)) =
        matchCond ctx.depthSize y.2 := by
    intro y
    rw [hhead]
    by_cases hm : matchCond ctx.depthSize y.2 = true
    · rw [hm]; exact decide_eq_true ((matchCond_iff_sizes _ _ hd).mp hm)
    · have hm2 : matchCond ctx.depthSize y.2 = false := by simpa using hm
      rw [hm2]
      exact decide_eq_false (fun hs => hm ((matchCond_iff_sizes _ _ hd).mpr hs))
  constructor
  · intro ha x hx
    simp only [hp] at hx
    exact scanConfs_first_multisampled drv confs ctx h x ha hx
  · intro ha x hx
    simp only [hp] at hx
    exact scanConfs_first_match drv confs ctx h x ha hx

/-- C5 at a concrete run: requested depth 24 with antialiasing, the driver
returns 8 (8/8/8, no multisample buffer), 9 (8/8/8, multisampled), 8 again:
the scan ends on 9. -/
theorem C5_preferred_candidate_scan_witness :
    ((freshCtx 24).depthSize = 16 ∨ (freshCtx 24).depthSize = 24 ∨ (freshCtx 24).depthSize = 32) ∧
    (scanConfs (simDriver true true 0 [8, 9, 8] []) (freshCtx 24) [] [8, 9, 8]).1.config = 9 :=
  ⟨by decide,
    (C5_preferred_candidate_scan (simDriver true true 0 [8, 9, 8] []) (freshCtx 24) []
      [8, 9, 8] (by decide)).1 (by decide) (9, { r := 8, g := 8, b := 8, s := 1 }) (by decide)⟩

/-! ## Lemmas on `InitEGLSurface` as a whole -/

theorem InitEGLSurface_frame (drv : Driver) (ctx : EGLContext) (h : Trace) :
    (ctx.InitEGLSurface drv h).ctx =
      { ctx with config := (ctx.InitEGLSurface drv h).ctx.config,
                 surface := (ctx.InitEGLSurface drv h).ctx.surface } := by
  have hd : ∃ d1 d2, candidateDepths ctx.depthSize = [d1, d2] := by
    rcases candidateDepths_eq ctx.depthSize with hc | hc <;> exact ⟨_, _, hc⟩
  obtain ⟨d1, d2, hd⟩ := hd
  have hf := selectLoop_two_frame drv ctx (h ++ (Initialize drv h ctx.display).2) d1 d2
  simp only [EGLContext.InitEGLSurface, hd]
  split
  · rfl
  · split
    · rw [hf]
    · split <;> rw [hf]

theorem InitEGLSurface_destroyedSurfaces (drv : Driver) (ctx : EGLContext) (h : Trace) :
    destroyedSurfaces (ctx.InitEGLSurface drv h).ev = [] := by
  have hd : ∃ d1 d2, candidateDepths ctx.depthSize = [d1, d2] := by
    rcases candidateDepths_eq ctx.depthSize with hc | hc <;> exact ⟨_, _, hc⟩
  obtain ⟨d1, d2, hd⟩ := hd
  have hs := selectLoop_two_destroyedSurfaces drv ctx (h ++ (Initialize drv h ctx.display).2) d1 d2
  simp only [destroyedSurfaces, Initialize] at hs
  simp only [EGLContext.InitEGLSurface, hd]
  split
  · simp [destroyedSurfaces, Initialize, Event.asDestroySurface]
  · split
    · simp [destroyedSurfaces, List.filterMap_append, hs, Initialize, Event.asDestroySurface]
    · split <;>
        simp [destroyedSurfaces, List.filterMap_append, hs, Initialize, CreateWindowSurface,
          Event.asDestroySurface]

/-- Source: `InitEGLSurface` either creates no surface and leaves `surface` alone, or
creates exactly one, with the selected `config`, and stores its handle. -/
theorem InitEGLSurface_createdSurfaces (drv : Driver) (ctx : EGLContext) (h : Trace) :
    (createdSurfaces (ctx.InitEGLSurface drv h).ev = [] ∧
      (ctx.InitEGLSurface drv h).ctx.surface = ctx.surface ∧
      (ctx.InitEGLSurface drv h).val = false) ∨
    (createdSurfaces (ctx.InitEGLSurface drv h).ev =
      [((ctx.InitEGLSurface drv h).ctx.config, (ctx.InitEGLSurface drv h).ctx.surface)] ∧
      (ctx.InitEGLSurface drv h).ctx.config ≠ 0 ∧
      drv.eglInitialize h ctx.display = true) := by
  have hd : ∃ d1 d2, candidateDepths ctx.depthSize = [d1, d2] := by
    rcases candidateDepths_eq ctx.depthSize with hc | hc <;> exact ⟨_, _, hc⟩
  obtain ⟨d1, d2, hd⟩ := hd
  cases hi : drv.eglInitialize h ctx.display with
  | false =>
    left
    simp [EGLContext.InitEGLSurface, Initialize, hi, createdSurfaces, Event.asCreateSurface]
  | true =>
    have hs := selectLoop_two_createdSurfaces drv ctx (h ++ [Event.init ctx.display true]) d1 d2
    have hf := selectLoop_two_frame drv ctx (h ++ [Event.init ctx.display true]) d1 d2
    have hsurf : (selectLoop drv ctx (h ++ [Event.init ctx.display true]) [d1, d2]).1.surface =
        ctx.surface := by rw [hf]
    simp only [createdSurfaces] at hs
    simp only [EGLContext.InitEGLSurface, Initialize, hi, hd, not_true_eq_false, if_false]
    by_cases hc : (selectLoop drv ctx (h ++ [Event.init ctx.display true]) [d1, d2]).1.config = 0
    · left
      simp only [hc, if_true]
      refine ⟨?_, hsurf, trivial⟩
      simp [createdSurfaces, List.filterMap_append, hs, Event.asCreateSurface]
    · right
      simp only [hc, if_false]
      split <;>
        simp [createdSurfaces, List.filterMap_append, hs, CreateWindowSurface,
          Event.asCreateSurface, hc]

/-- When `Initialize` succeeds, `InitEGLSurface` issues one `ChooseConfig`
query per depth candidate, in candidate order. -/
theorem InitEGLSurface_chooseQueries (drv : Driver) (ctx : EGLContext) (h : Trace)
    (hinit : drv.eglInitialize h ctx.display = true) :
    (chooseQueries (ctx.InitEGLSurface drv h).ev).map Prod.fst =
      (candidateDepths ctx.depthSize).map (fun d => candidateAttribs d ctx.esMajor) := by
  have hd : ∃ d1 d2, candidateDepths ctx.depthSize = [d1, d2] := by
    rcases candidateDepths_eq ctx.depthSize with hc | hc <;> exact ⟨_, _, hc⟩
  obtain ⟨d1, d2, hd⟩ := hd
  have hcq := selectLoop_two_chooseQueries drv ctx (h ++ [Event.init ctx.display true]) d1 d2
  simp only [chooseQueries] at hcq
  simp only [EGLContext.InitEGLSurface, Initialize, hinit, hd]
  simp only [not_true_eq_false, if_false]
  split
  · simp [chooseQueries, List.filterMap_append, Event.asChoose, hcq]
  · split <;>
      simp [chooseQueries, List.filterMap_append, Event.asChoose, CreateWindowSurface, hcq]

theorem InitEGLSurface_of_init_failure (drv : Driver) (ctx : EGLContext) (h : Trace)
    (hinit : drv.eglInitialize h ctx.display = false) :
    (ctx.InitEGLSurface drv h).ctx = ctx ∧
      (ctx.InitEGLSurface drv h).ev = [Event.init ctx.display false] := by
  simp [EGLContext.InitEGLSurface, Initialize, hinit]

/-! ## C6, C7: `SwapBuffers` on `BAD_SURFACE` -/

/-- C6, as stated, fails.  A manager built by `NewContextEx` (depth 24) and
`InitEGLSurfaceX` holds configuration 5.  The next swap fails with
`BAD_SURFACE`: `SwapBuffers` issues two `ChooseConfig` queries and `config`
becomes 9. -/
theorem C6_counterexample :
    ((freshCtx 24).InitEGLSurfaceX (simDriver false true BAD_SURFACE [9] [5]) []).ctx.config = 5 ∧
    (simDriver false true BAD_SURFACE [9] [5]).eglSwapBuffers
      ((freshCtx 24).InitEGLSurfaceX (simDriver false true BAD_SURFACE [9] [5]) []).ev 1
      ((freshCtx 24).InitEGLSurfaceX (simDriver false true BAD_SURFACE [9] [5]) []).ctx.surface = false ∧
    (simDriver false true BAD_SURFACE [9] [5]).eglGetError [] = BAD_SURFACE ∧
    chooseQueries
      (((freshCtx 24).InitEGLSurfaceX (simDriver false true BAD_SURFACE [9] [5]) []).ctx.SwapBuffers
        (simDriver false true BAD_SURFACE [9] [5])
        ((freshCtx 24).InitEGLSurfaceX (simDriver false true BAD_SURFACE [9] [5]) []).ev).ev =
      [(candidateAttribs 32 2, [9]), (candidateAttribs 16 2, [5])] ∧
    (((freshCtx 24).InitEGLSurfaceX (simDriver false true BAD_SURFACE [9] [5]) []).ctx.SwapBuffers
        (simDriver false true BAD_SURFACE [9] [5])
        ((freshCtx 24).InitEGLSurfaceX (simDriver false true BAD_SURFACE [9] [5]) []).ev).ctx.config = 9 := by
  decide

/-- C6 (amended): when the driver's swap fails and the last error is
`BAD_SURFACE`, `EGLContext.SwapBuffers` runs the whole of `InitEGLSurface`,
selection included, and returns true: the fields after the call are those
`InitEGLSurface` leaves, so `config` is the configuration that selection
yields; when `Initialize` succeeds one `ChooseConfig` query is issued per depth
candidate, and only when `Initialize` fails is no `ChooseConfig` query issued
and the manager, `config` included, left as it was. -/
theorem C6_bad_surface_reruns_selection (drv : Driver) (ctx : EGLContext) (h : Trace)
    (hswap : drv.eglSwapBuffers h ctx.display ctx.surface = false)
    (herr : drv.eglGetError (h ++ [Event.swapBuffers ctx.display ctx.surface false]) = BAD_SURFACE) :
    (ctx.SwapBuffers drv h).val = true ∧
    (ctx.SwapBuffers drv h).ctx =
      (ctx.InitEGLSurface drv
        (h ++ [Event.swapBuffers ctx.display ctx.surface false, Event.getError BAD_SURFACE])).ctx ∧
    (ctx.SwapBuffers drv h).ev =
      [Event.swapBuffers ctx.display ctx.surface false, Event.getError BAD_SURFACE] ++
      (ctx.InitEGLSurface drv
        (h ++ [Event.swapBuffers ctx.display ctx.surface false, Event.getError BAD_SURFACE])).ev ∧
    (drv.eglInitialize
        (h ++ [Event.swapBuffers ctx.display ctx.surface false, Event.getError BAD_SURFACE])
        ctx.display = true →
      (chooseQueries (ctx.SwapBuffers drv h).ev).map Prod.fst =
        (candidateDepths ctx.depthSize).map (fun d => candidateAttribs d ctx.esMajor)) ∧
    (drv.eglInitialize
        (h ++ [Event.swapBuffers ctx.display ctx.surface false, Event.getError BAD_SURFACE])
        ctx.display = false →
      chooseQueries (ctx.SwapBuffers drv h).ev = [] ∧ (ctx.SwapBuffers drv h).ctx = ctx) := by
  have e : ctx.SwapBuffers drv h =
      { val := true,
        ctx := (ctx.InitEGLSurface drv
          (h ++ [Event.swapBuffers ctx.display ctx.surface false, Event.getError BAD_SURFACE])).ctx,
        ev := [Event.swapBuffers ctx.display ctx.surface false, Event.getError BAD_SURFACE] ++
          (ctx.InitEGLSurface drv
            (h ++ [Event.swapBuffers ctx.display ctx.surface false,
              Event.getError BAD_SURFACE])).ev } := by
    simp [EGLContext.SwapBuffers, SwapBuffers, GetError, hswap, herr]
  rw [e]
  refine ⟨rfl, rfl, rfl, ?_, ?_⟩
  · intro hi
    have hq := InitEGLSurface_chooseQueries drv ctx _ hi
    simp only [chooseQueries] at hq
    simp [chooseQueries, List.filterMap_append, Event.asChoose, hq]
  · intro hi
    have hq := InitEGLSurface_of_init_failure drv ctx _ hi
    simp [chooseQueries, hq.1, hq.2, Event.asChoose]

/-- C6 (amended) at a concrete run: the swap of the counterexample. -/
theorem C6_bad_surface_reruns_selection_witness :
    (simDriver false true BAD_SURFACE [9] [5]).eglSwapBuffers [] (freshCtx 24).display
      (freshCtx 24).surface = false ∧
    ((freshCtx 24).SwapBuffers (simDriver false true BAD_SURFACE [9] [5]) []).val = true :=
  ⟨by decide,
    (C6_bad_surface_reruns_selection (simDriver false true BAD_SURFACE [9] [5]) (freshCtx 24) []
      (by decide) (by decide)).1⟩

/-- C7, as stated, fails.  A manager built by `NewContextEx` (depth 24) and
`InitEGLSurface` holds a surface.  The next swap fails with `BAD_SURFACE`:
`SwapBuffers` creates a new window surface but issues no `DestroySurface`
call, so the previous handle is not destroyed. -/
theorem C7_counterexample :
    ((freshCtx 24).InitEGLSurface (simDriver false true BAD_SURFACE [9] [5]) []).ctx.surface = 111 ∧
    (simDriver false true BAD_SURFACE [9] [5]).eglSwapBuffers
      ((freshCtx 24).InitEGLSurface (simDriver false true BAD_SURFACE [9] [5]) []).ev 1 111 = false ∧
    (simDriver false true BAD_SURFACE [9] [5]).eglGetError [] = BAD_SURFACE ∧
    destroyedSurfaces
      (((freshCtx 24).InitEGLSurface (simDriver false true BAD_SURFACE [9] [5]) []).ctx.SwapBuffers
        (simDriver false true BAD_SURFACE [9] [5])
        ((freshCtx 24).InitEGLSurface (simDriver false true BAD_SURFACE [9] [5]) []).ev).ev = [] ∧
    (((freshCtx 24).InitEGLSurface (simDriver false true BAD_SURFACE [9] [5]) []).ctx.SwapBuffers
        (simDriver false true BAD_SURFACE [9] [5])
        ((freshCtx 24).InitEGLSurface (simDriver false true BAD_SURFACE [9] [5]) []).ev).ctx.surface ≠ 111 := by
  decide

/-- C7 (amended): when the driver's swap fails and the last error is
`BAD_SURFACE`, `EGLContext.SwapBuffers` issues no `DestroySurface` call, leaves
the context handle (and the display) unchanged and returns true; it either
creates no window surface and leaves `surface` as it was (`Initialize` failed
or no configuration is selected), or creates exactly one window surface, with
the selected `config`, and replaces `surface` with the handle returned. -/
theorem C7_bad_surface_recreates_without_destroy (drv : Driver) (ctx : EGLContext) (h : Trace)
    (hswap : drv.eglSwapBuffers h ctx.display ctx.surface = false)
    (herr : drv.eglGetError (h ++ [Event.swapBuffers ctx.display ctx.surface false]) = BAD_SURFACE) :
    (ctx.SwapBuffers drv h).val = true ∧
    (ctx.SwapBuffers drv h).ctx.context = ctx.context ∧
    (ctx.SwapBuffers drv h).ctx.display = ctx.display ∧
    destroyedSurfaces (ctx.SwapBuffers drv h).ev = [] ∧
    ((createdSurfaces (ctx.SwapBuffers drv h).ev = [] ∧
        (ctx.SwapBuffers drv h).ctx.surface = ctx.surface) ∨
      (createdSurfaces (ctx.SwapBuffers drv h).ev =
          [((ctx.SwapBuffers drv h).ctx.config, (ctx.SwapBuffers drv h).ctx.surface)] ∧
        (ctx.SwapBuffers drv h).ctx.config ≠ 0)) := by
  have e : ctx.SwapBuffers drv h =
      { val := true,
        ctx := (ctx.InitEGLSurface drv
          (h ++ [Event.swapBuffers ctx.display ctx.surface false, Event.getError BAD_SURFACE])).ctx,
        ev := [Event.swapBuffers ctx.display ctx.surface false, Event.getError BAD_SURFACE] ++
          (ctx.InitEGLSurface drv
            (h ++ [Event.swapBuffers ctx.display ctx.surface false,
              Event.getError BAD_SURFACE])).ev } := by
    simp [EGLContext.SwapBuffers, SwapBuffers, GetError, hswap, herr]
  have hf := InitEGLSurface_frame drv ctx
    (h ++ [Event.swapBuffers ctx.display ctx.surface false, Event.getError BAD_SURFACE])
  have hds := InitEGLSurface_destroyedSurfaces drv ctx
    (h ++ [Event.swapBuffers ctx.display ctx.surface false, Event.getError BAD_SURFACE])
  have hcs := InitEGLSurface_createdSurfaces drv ctx
    (h ++ [Event.swapBuffers ctx.display ctx.surface false, Event.getError BAD_SURFACE])
  simp only [destroyedSurfaces, createdSurfaces] at hds hcs
  rw [e]
  refine ⟨rfl, ?_, ?_, ?_, ?_⟩
  · simp only; rw [hf]
  · simp only; rw [hf]
  · simp [destroyedSurfaces, List.filterMap_append, Event.asDestroySurface, hds]
  · rcases hcs with ⟨h1, h2, _⟩ | ⟨h1, h2, _⟩
    · left
      exact ⟨by simp [createdSurfaces, List.filterMap_append, Event.asCreateSurface, h1], h2⟩
    · right
      exact ⟨by simp [createdSurfaces, List.filterMap_append, Event.asCreateSurface, h1], h2⟩

/-- C7 (amended) at a concrete run: the swap of the counterexample. -/
theorem C7_bad_surface_recreates_without_destroy_witness :
    (simDriver false true BAD_SURFACE [9] [5]).eglSwapBuffers [] (freshCtx 24).display
      (freshCtx 24).surface = false ∧
    destroyedSurfaces ((freshCtx 24).SwapBuffers (simDriver false true BAD_SURFACE [9] [5]) []).ev = [] :=
  ⟨by decide,
    (C7_bad_surface_recreates_without_destroy (simDriver false true BAD_SURFACE [9] [5])
      (freshCtx 24) [] (by decide) (by decide)).2.2.2.1⟩

/-! ## C8: `SwapBuffers` on context loss -/

/-- Source: `InitEGLContext` issues one `CreateContext` (against `config`, no shared
context) and one bind-current, stores the new handle and returns the result of
the bind. -/
theorem InitEGLContext_spec (drv : Driver) (ctx : EGLContext) (h : Trace) :
    (ctx.InitEGLContext drv h).ctx =
      { ctx with context :=
          drv.eglCreateContext h ctx.display ctx.config 0 (contextAttribs ctx.esMajor ctx.esMinor) } ∧
    (ctx.InitEGLContext drv h).ev =
      [Event.createContext ctx.display ctx.config 0 (contextAttribs ctx.esMajor ctx.esMinor)
          (ctx.InitEGLContext drv h).ctx.context,
       Event.makeCurrent ctx.display ctx.surface ctx.surface (ctx.InitEGLContext drv h).ctx.context
          (ctx.InitEGLContext drv h).val] ∧
    (ctx.InitEGLContext drv h).val =
      drv.eglMakeCurrent
        (h ++ [Event.createContext ctx.display ctx.config 0 (contextAttribs ctx.esMajor ctx.esMinor)
          (ctx.InitEGLContext drv h).ctx.context])
        ctx.display ctx.surface ctx.surface (ctx.InitEGLContext drv h).ctx.context := by
  cases hm : drv.eglMakeCurrent
      (h ++ [Event.createContext ctx.display ctx.config 0 (contextAttribs ctx.esMajor ctx.esMinor)
        (drv.eglCreateContext h ctx.display ctx.config 0 (contextAttribs ctx.esMajor ctx.esMinor))])
      ctx.display ctx.surface ctx.surface
      (drv.eglCreateContext h ctx.display ctx.config 0 (contextAttribs ctx.esMajor ctx.esMinor)) <;>
    simp [EGLContext.InitEGLContext, CreateContext, MakeCurrent, hm]


/-- The driver calls of `Terminate`: none when `display` is the none sentinel;
otherwise the unbind, `DestroyContext` if a context is present,
`DestroySurface` if a surface is present, then the driver's `Terminate`. -/
theorem Terminate_events (drv : Driver) (ctx : EGLContext) (h : Trace) :
    (ctx.display = NO_DISPLAY → (ctx.Terminate drv h).ev = []) ∧
    (ctx.display ≠ NO_DISPLAY → ∃ ok1 ok2 ok3 ok4 : Bool,
      (ctx.Terminate drv h).ev =
        [Event.makeCurrent ctx.display NO_SURFACE NO_SURFACE NO_CONTEXT ok1] ++
        (if ctx.context ≠ NO_CONTEXT then [Event.destroyContext ctx.display ctx.context ok2] else []) ++
        (if ctx.surface ≠ NO_SURFACE then [Event.destroySurface ctx.display ctx.surface ok3] else []) ++
        [Event.term ctx.display ok4]) := by
  constructor
  · intro hd
    simp [EGLContext.Terminate, hd]
  · intro hd
    simp only [EGLContext.Terminate, hd, ne_eq, not_false_eq_true, if_true]
    by_cases hc : ctx.context = NO_CONTEXT <;> by_cases hs : ctx.surface = NO_SURFACE <;>
      simp only [hc, hs, not_true_eq_false, not_false_eq_true, if_true, if_false, MakeCurrent,
        DestroyContext, DestroySurface, egl.Terminate]
    · exact ⟨_, true, true, _, rfl⟩
    · exact ⟨_, true, _, _, rfl⟩
    · exact ⟨_, _, true, _, rfl⟩
    · exact ⟨_, _, _, _, rfl⟩

/-- C8: when the driver's swap fails and the last error is `CONTEXT_LOST` or
`BAD_CONTEXT`, `EGLContext.SwapBuffers` issues, after the swap and the
last-error query, the calls of `Terminate` (when `display` is set: unbind,
`DestroyContext` if a context is present, `DestroySurface` if a surface is
present, the driver's `Terminate`), then those of `InitEGLContext` (one
`CreateContext`, one bind-current), and returns false whatever
`InitEGLContext` returns; afterwards `surface` is the none sentinel,
`IsReady()` is false, and `context` is the handle the new `CreateContext`
call returned. -/
theorem C8_context_lost_terminates_and_rebuilds (drv : Driver) (ctx : EGLContext) (h : Trace)
    (err : Error)
    (hswap : drv.eglSwapBuffers h ctx.display ctx.surface = false)
    (herr : drv.eglGetError (h ++ [Event.swapBuffers ctx.display ctx.surface false]) = err)
    (hlost : err = CONTEXT_LOST ∨ err = BAD_CONTEXT) :
    (ctx.SwapBuffers drv h).val = false ∧
    (ctx.SwapBuffers drv h).ev =
      [Event.swapBuffers ctx.display ctx.surface false, Event.getError err] ++
      (ctx.Terminate drv
        (h ++ [Event.swapBuffers ctx.display ctx.surface false, Event.getError err])).ev ++
      ((ctx.Terminate drv
        (h ++ [Event.swapBuffers ctx.display ctx.surface false, Event.getError err])).ctx.InitEGLContext
        drv
        (h ++ [Event.swapBuffers ctx.display ctx.surface false, Event.getError err] ++
          (ctx.Terminate drv
            (h ++ [Event.swapBuffers ctx.display ctx.surface false, Event.getError err])).ev)).ev ∧
    (ctx.display ≠ NO_DISPLAY → ∃ ok1 ok2 ok3 ok4 : Bool,
      (ctx.Terminate drv
        (h ++ [Event.swapBuffers ctx.display ctx.surface false, Event.getError err])).ev =
        [Event.makeCurrent ctx.display NO_SURFACE NO_SURFACE NO_CONTEXT ok1] ++
        (if ctx.context ≠ NO_CONTEXT then [Event.destroyContext ctx.display ctx.context ok2] else []) ++
        (if ctx.surface ≠ NO_SURFACE then [Event.destroySurface ctx.display ctx.surface ok3] else []) ++
        [Event.term ctx.display ok4]) ∧
    (∃ ok : Bool,
      ((ctx.Terminate drv
        (h ++ [Event.swapBuffers ctx.display ctx.surface false, Event.getError err])).ctx.InitEGLContext
        drv
        (h ++ [Event.swapBuffers ctx.display ctx.surface false, Event.getError err] ++
          (ctx.Terminate drv
            (h ++ [Event.swapBuffers ctx.display ctx.surface false, Event.getError err])).ev)).ev =
        [Event.createContext NO_DISPLAY ctx.config 0 (contextAttribs ctx.esMajor ctx.esMinor)
            (ctx.SwapBuffers drv h).ctx.context,
         Event.makeCurrent NO_DISPLAY NO_SURFACE NO_SURFACE (ctx.SwapBuffers drv h).ctx.context ok]) ∧
    (ctx.SwapBuffers drv h).ctx.surface = NO_SURFACE ∧
    (ctx.SwapBuffers drv h).ctx.IsReady = false ∧
    (ctx.SwapBuffers drv h).ctx.display = NO_DISPLAY ∧
    (ctx.SwapBuffers drv h).ctx.config = ctx.config := by
  have hnb : err ≠ BAD_SURFACE := by
    rcases hlost with hl | hl <;> rw [hl] <;> decide
  have e : ctx.SwapBuffers drv h =
      { val := false,
        ctx := ((ctx.Terminate drv
          (h ++ [Event.swapBuffers ctx.display ctx.surface false, Event.getError err])).ctx.InitEGLContext
          drv
          (h ++ [Event.swapBuffers ctx.display ctx.surface false, Event.getError err] ++
            (ctx.Terminate drv
              (h ++ [Event.swapBuffers ctx.display ctx.surface false, Event.getError err])).ev)).ctx,
        ev := [Event.swapBuffers ctx.display ctx.surface false, Event.getError err] ++
          (ctx.Terminate drv
            (h ++ [Event.swapBuffers ctx.display ctx.surface false, Event.getError err])).ev ++
          ((ctx.Terminate drv
            (h ++ [Event.swapBuffers ctx.display ctx.surface false, Event.getError err])).ctx.InitEGLContext
            drv
            (h ++ [Event.swapBuffers ctx.display ctx.surface false, Event.getError err] ++
              (ctx.Terminate drv
                (h ++ [Event.swapBuffers ctx.display ctx.surface false,
                  Event.getError err])).ev)).ev } := by
    simp [EGLContext.SwapBuffers, SwapBuffers, GetError, hswap, herr, hnb, hlost]
  have ht : (ctx.Terminate drv
      (h ++ [Event.swapBuffers ctx.display ctx.surface false, Event.getError err])).ctx =
      { ctx with display := NO_DISPLAY, context := NO_CONTEXT, surface := NO_SURFACE } := rfl
  have hi := InitEGLContext_spec drv
    (ctx.Terminate drv
      (h ++ [Event.swapBuffers ctx.display ctx.surface false, Event.getError err])).ctx
    (h ++ [Event.swapBuffers ctx.display ctx.surface false, Event.getError err] ++
      (ctx.Terminate drv
        (h ++ [Event.swapBuffers ctx.display ctx.surface false, Event.getError err])).ev)
  rw [e]
  refine ⟨rfl, rfl, (Terminate_events drv ctx _).2, ?_, ?_, ?_, ?_, ?_⟩
  · exact ⟨((ctx.Terminate drv
      (h ++ [Event.swapBuffers ctx.display ctx.surface false, Event.getError err])).ctx.InitEGLContext
      drv
      (h ++ [Event.swapBuffers ctx.display ctx.surface false, Event.getError err] ++
        (ctx.Terminate drv
          (h ++ [Event.swapBuffers ctx.display ctx.surface false, Event.getError err])).ev)).val,
      hi.2.1⟩
  · simp only; rw [hi.1, ht]
  · simp only; rw [hi.1, ht]; rfl
  · simp only; rw [hi.1, ht]
  · simp only; rw [hi.1, ht]

/-- C8 at a concrete run: a Ready manager, the swap fails with `CONTEXT_LOST`,
the rebuilt context binds successfully, the swap still reports false. -/
theorem C8_context_lost_terminates_and_rebuilds_witness :
    (simDriver false true CONTEXT_LOST [9] [5]).eglSwapBuffers [] readyCtx.display
      readyCtx.surface = false ∧
    (readyCtx.SwapBuffers (simDriver false true CONTEXT_LOST [9] [5]) []).val = false ∧
    (readyCtx.SwapBuffers (simDriver false true CONTEXT_LOST [9] [5]) []).ev =
      [Event.swapBuffers 1 3 false, Event.getError CONTEXT_LOST,
       Event.makeCurrent 1 0 0 0 true, Event.destroyContext 1 4 true, Event.destroySurface 1 3 true,
       Event.term 1 true,
       Event.createContext 0 9 0 (contextAttribs 2 0) 206, Event.makeCurrent 0 0 0 206 true] :=
  ⟨by decide,
    (C8_context_lost_terminates_and_rebuilds (simDriver false true CONTEXT_LOST [9] [5]) readyCtx []
      CONTEXT_LOST (by decide) (by decide) (Or.inl rfl)).1,
    by decide⟩

/-! ## C9: `SwapBuffers` without recovery -/

/-- C9: when the driver's swap succeeds, `EGLContext.SwapBuffers` returns
true, changes no field and issues the swap call only; when the swap fails with
a last error other than `BAD_SURFACE`, `CONTEXT_LOST` and `BAD_CONTEXT`, it
returns false, changes no field and issues the swap and the last-error query
only. -/
theorem C9_swap_without_recovery (drv : Driver) (ctx : EGLContext) (h : Trace) :
    (drv.eglSwapBuffers h ctx.display ctx.surface = true →
      (ctx.SwapBuffers drv h).val = true ∧ (ctx.SwapBuffers drv h).ctx = ctx ∧
      (ctx.SwapBuffers drv h).ev = [Event.swapBuffers ctx.display ctx.surface true]) ∧
    (drv.eglSwapBuffers h ctx.display ctx.surface = false →
      drv.eglGetError (h ++ [Event.swapBuffers ctx.display ctx.surface false]) ≠ BAD_SURFACE →
      drv.eglGetError (h ++ [Event.swapBuffers ctx.display ctx.surface false]) ≠ CONTEXT_LOST →
      drv.eglGetError (h ++ [Event.swapBuffers ctx.display ctx.surface false]) ≠ BAD_CONTEXT →
      (ctx.SwapBuffers drv h).val = false ∧ (ctx.SwapBuffers drv h).ctx = ctx ∧
      (ctx.SwapBuffers drv h).ev =
        [Event.swapBuffers ctx.display ctx.surface false,
         Event.getError
          (drv.eglGetError (h ++ [Event.swapBuffers ctx.display ctx.surface false]))]) := by
  constructor
  · intro hs
    simp [EGLContext.SwapBuffers, SwapBuffers, hs]
  · intro hs h1 h2 h3
    simp [EGLContext.SwapBuffers, SwapBuffers, GetError, hs, h1, h2, h3]

/-- C9 at concrete runs: a successful swap, and a swap failing with the last
error `0x3003` (`EGL_BAD_ALLOC`), on a Ready manager. -/
theorem C9_swap_without_recovery_witness :
    ((simDriver true true 0 [9] [5]).eglSwapBuffers [] readyCtx.display readyCtx.surface = true ∧
      (readyCtx.SwapBuffers (simDriver true true 0 [9] [5]) []).ctx = readyCtx) ∧
    ((simDriver false true 0x3003 [9] [5]).eglSwapBuffers [] readyCtx.display readyCtx.surface = false ∧
      (readyCtx.SwapBuffers (simDriver false true 0x3003 [9] [5]) []).ev =
        [Event.swapBuffers 1 3 false, Event.getError 0x3003]) :=
  ⟨⟨by decide,
    ((C9_swap_without_recovery (simDriver true true 0 [9] [5]) readyCtx []).1 (by decide)).2.1⟩,
   ⟨by decide,
    ((C9_swap_without_recovery (simDriver false true 0x3003 [9] [5]) readyCtx []).2
      (by decide) (by decide) (by decide) (by decide)).2.2⟩⟩

/-! ## C10: `Resume` reports success -/

/-- C10: `Resume` returns true for every manager state, every history and
every driver behaviour: when the bind-current succeeds, when it fails with
`CONTEXT_LOST`, and when it fails with any other error, whatever the recovery
steps return. -/
theorem C10_resume_returns_true (drv : Driver) (ctx : EGLContext) (h : Trace) :
    (ctx.Resume drv h).val = true := by
  unfold EGLContext.Resume
  simp only
  split
  · rfl
  · split <;> rfl

/-! ## C11, C12: `Resume` after a failed bind -/

/-- `InitEGLSurface` returns true only with a surface; when it returns false
the surface is the old one (no creation attempted) or the none sentinel. -/
theorem InitEGLSurface_val (drv : Driver) (ctx : EGLContext) (h : Trace) :
    ((ctx.InitEGLSurface drv h).val = true → (ctx.InitEGLSurface drv h).ctx.surface ≠ NO_SURFACE) ∧
    ((ctx.InitEGLSurface drv h).val = false →
      (ctx.InitEGLSurface drv h).ctx.surface = ctx.surface ∨
      (ctx.InitEGLSurface drv h).ctx.surface = NO_SURFACE) := by
  have hd : ∃ d1 d2, candidateDepths ctx.depthSize = [d1, d2] := by
    rcases candidateDepths_eq ctx.depthSize with hc | hc <;> exact ⟨_, _, hc⟩
  obtain ⟨d1, d2, hd⟩ := hd
  cases hi : drv.eglInitialize h ctx.display with
  | false => simp [EGLContext.InitEGLSurface, Initialize, hi]
  | true =>
    have hf := selectLoop_two_frame drv ctx (h ++ [Event.init ctx.display true]) d1 d2
    have hsurf : (selectLoop drv ctx (h ++ [Event.init ctx.display true]) [d1, d2]).1.surface =
        ctx.surface := by rw [hf]
    simp only [EGLContext.InitEGLSurface, Initialize, hi, hd, not_true_eq_false, if_false]
    by_cases hc : (selectLoop drv ctx (h ++ [Event.init ctx.display true]) [d1, d2]).1.config = 0
    · simp only [hc, if_true]
      exact ⟨fun hv => by simp at hv, fun _ => Or.inl hsurf⟩
    · simp only [hc, if_false]
      split
      · rename_i hs
        exact ⟨fun hv => by simp at hv, fun _ => Or.inr hs⟩
      · rename_i hs
        exact ⟨fun _ => hs, fun hv => by simp at hv⟩

/-- After a surface initialisation started without a surface and a context
initialisation, readiness is the result of the surface initialisation. -/
theorem rebuild_readiness (drv : Driver) (c : EGLContext) (hA hB : Trace)
    (hc : c.surface = NO_SURFACE) :
    ((c.InitEGLSurface drv hA).val = false →
      ((c.InitEGLSurface drv hA).ctx.InitEGLContext drv hB).ctx.surface = NO_SURFACE ∧
      ((c.InitEGLSurface drv hA).ctx.InitEGLContext drv hB).ctx.IsReady = false) ∧
    ((c.InitEGLSurface drv hA).val = true →
      ((c.InitEGLSurface drv hA).ctx.InitEGLContext drv hB).ctx.surface ≠ NO_SURFACE ∧
      ((c.InitEGLSurface drv hA).ctx.InitEGLContext drv hB).ctx.IsReady = true) := by
  have hv := InitEGLSurface_val drv c hA
  have hs : ((c.InitEGLSurface drv hA).ctx.InitEGLContext drv hB).ctx.surface =
      (c.InitEGLSurface drv hA).ctx.surface := by
    rw [(InitEGLContext_spec drv _ hB).1]
  constructor
  · intro h1
    have h0 : (c.InitEGLSurface drv hA).ctx.surface = NO_SURFACE := by
      rcases hv.2 h1 with h2 | h2
      · rw [h2, hc]
      · exact h2
    refine ⟨by rw [hs, h0], ?_⟩
    simp [EGLContext.IsReady, hs, h0]
  · intro h1
    have h0 := hv.1 h1
    refine ⟨by rw [hs]; exact h0, ?_⟩
    simp only [EGLContext.IsReady, hs]
    exact decide_eq_true (Ne.symm h0)

/-- C11, as stated, fails.  A Ready manager is suspended and resumed; every
bind-current fails and the last error is `0x3003` (`EGL_BAD_ALLOC`).  `Resume`
takes the rebuild path, the rebuild's `InitEGLSurface` succeeds and its
`InitEGLContext` fails at the bind: afterwards `IsReady()` is true although
the final bind-current failed, so the manager is neither Ready nor reporting
readiness false. -/
theorem C11_counterexample :
    (readyCtx.Suspend (simDriver true false 0x3003 [9] [5]) []).ev = [Event.destroySurface 1 3 true] ∧
    ((readyCtx.Suspend (simDriver true false 0x3003 [9] [5]) []).ctx.Resume
      (simDriver true false 0x3003 [9] [5]) [Event.destroySurface 1 3 true]).ev.getLast? =
      some (Event.makeCurrent 0 119 119 220 false) ∧
    ((readyCtx.Suspend (simDriver true false 0x3003 [9] [5]) []).ctx.Resume
      (simDriver true false 0x3003 [9] [5]) [Event.destroySurface 1 3 true]).ctx.surface = 119 ∧
    ((readyCtx.Suspend (simDriver true false 0x3003 [9] [5]) []).ctx.Resume
      (simDriver true false 0x3003 [9] [5]) [Event.destroySurface 1 3 true]).ctx.IsReady = true := by
  decide

/-- C11 (amended): when the bind-current of `Resume` fails with a last error
other than `CONTEXT_LOST`, `Resume` issues, after the surface creation, the
bind and the last-error query, the calls of `Terminate`, then those of
`InitEGLSurface`, then those of `InitEGLContext`, in that order, each on the
fields the previous one left.  If the rebuild's `InitEGLSurface` fails,
`surface` is the none sentinel afterwards and `IsReady()` is false; if it
succeeds, `surface` is not the none sentinel and `IsReady()` is true whatever
the final bind-current returns, so the manager is Ready only when that bind
succeeded as well. -/
theorem C11_resume_rebuild_path (drv : Driver) (ctx : EGLContext) (h : Trace) (err : Error)
    (hbind : drv.eglMakeCurrent
      (h ++ [Event.createWindowSurface ctx.display ctx.config ctx.window
        (drv.eglCreateWindowSurface h ctx.display ctx.config ctx.window)])
      ctx.display (drv.eglCreateWindowSurface h ctx.display ctx.config ctx.window)
      (drv.eglCreateWindowSurface h ctx.display ctx.config ctx.window) ctx.context = false)
    (herr : drv.eglGetError
      (h ++ [Event.createWindowSurface ctx.display ctx.config ctx.window
          (drv.eglCreateWindowSurface h ctx.display ctx.config ctx.window),
        Event.makeCurrent ctx.display (drv.eglCreateWindowSurface h ctx.display ctx.config ctx.window)
          (drv.eglCreateWindowSurface h ctx.display ctx.config ctx.window) ctx.context false]) = err)
    (hne : err ≠ CONTEXT_LOST) :
    ∃ (t : Out Unit) (r1 r2 : Out Bool) (pre : Trace),
      pre = [Event.createWindowSurface ctx.display ctx.config ctx.window
          (drv.eglCreateWindowSurface h ctx.display ctx.config ctx.window),
        Event.makeCurrent ctx.display (drv.eglCreateWindowSurface h ctx.display ctx.config ctx.window)
          (drv.eglCreateWindowSurface h ctx.display ctx.config ctx.window) ctx.context false,
        Event.getError err] ∧
      t = EGLContext.Terminate
        { ctx with surface := drv.eglCreateWindowSurface h ctx.display ctx.config ctx.window }
        drv (h ++ pre) ∧
      r1 = t.ctx.InitEGLSurface drv (h ++ pre ++ t.ev) ∧
      r2 = r1.ctx.InitEGLContext drv (h ++ pre ++ t.ev ++ r1.ev) ∧
      (ctx.Resume drv h).ev = pre ++ t.ev ++ r1.ev ++ r2.ev ∧
      (ctx.Resume drv h).ctx = r2.ctx ∧
      (r1.val = false →
        (ctx.Resume drv h).ctx.surface = NO_SURFACE ∧ (ctx.Resume drv h).ctx.IsReady = false) ∧
      (r1.val = true →
        (ctx.Resume drv h).ctx.surface ≠ NO_SURFACE ∧ (ctx.Resume drv h).ctx.IsReady = true) := by
  refine ⟨_, _, _, _, rfl, rfl, rfl, rfl, ?_⟩
  simp only [EGLContext.Resume, CreateWindowSurface, MakeCurrent, GetError, hbind, herr, hne,
    Bool.false_eq_true, if_false, List.append_assoc, List.singleton_append, List.cons_append,
    List.nil_append]
  exact ⟨trivial, trivial, rebuild_readiness drv _ _ _ rfl⟩


/-- C11 (amended) at a concrete run: on a Ready manager every bind-current
fails with the last error `0x3003`; the rebuild's `InitEGLSurface` succeeds
and `IsReady()` is true afterwards. -/
theorem C11_resume_rebuild_path_witness :
    (simDriver true false 0x3003 [9] [5]).eglMakeCurrent
      ([] ++ [Event.createWindowSurface readyCtx.display readyCtx.config readyCtx.window
        ((simDriver true false 0x3003 [9] [5]).eglCreateWindowSurface [] readyCtx.display
          readyCtx.config readyCtx.window)])
      readyCtx.display
      ((simDriver true false 0x3003 [9] [5]).eglCreateWindowSurface [] readyCtx.display
        readyCtx.config readyCtx.window)
      ((simDriver true false 0x3003 [9] [5]).eglCreateWindowSurface [] readyCtx.display
        readyCtx.config readyCtx.window) readyCtx.context = false ∧
    (readyCtx.Resume (simDriver true false 0x3003 [9] [5]) []).ctx.IsReady = true := by
  refine ⟨by decide, ?_⟩
  obtain ⟨t, r1, r2, pre, hp, ht, h1, _, _, _, _, htrue⟩ :=
    C11_resume_rebuild_path (simDriver true false 0x3003 [9] [5]) readyCtx [] 0x3003
      (by decide) (by decide) (by decide)
  subst hp
  subst ht
  subst h1
  exact (htrue (by decide)).2

/-- C12: when the bind-current of `Resume` fails with the last error
`CONTEXT_LOST`, `Resume` returns true after exactly five driver calls: the
surface creation, the failed bind, the last-error query, one `CreateContext`
(against `config`, no shared context) and one bind-current with the new
context; no `DestroySurface`, `DestroyContext` or `Terminate` call is issued;
afterwards `surface` is the handle the surface creation returned, `context`
the new handle, and every other field, `display` and `config` included, is
unchanged. -/
theorem C12_resume_context_lost_rebuilds_context_only (drv : Driver) (ctx : EGLContext) (h : Trace)
    (hbind : drv.eglMakeCurrent
      (h ++ [Event.createWindowSurface ctx.display ctx.config ctx.window
        (drv.eglCreateWindowSurface h ctx.display ctx.config ctx.window)])
      ctx.display (drv.eglCreateWindowSurface h ctx.display ctx.config ctx.window)
      (drv.eglCreateWindowSurface h ctx.display ctx.config ctx.window) ctx.context = false)
    (herr : drv.eglGetError
      (h ++ [Event.createWindowSurface ctx.display ctx.config ctx.window
          (drv.eglCreateWindowSurface h ctx.display ctx.config ctx.window),
        Event.makeCurrent ctx.display (drv.eglCreateWindowSurface h ctx.display ctx.config ctx.window)
          (drv.eglCreateWindowSurface h ctx.display ctx.config ctx.window) ctx.context false]) =
      CONTEXT_LOST) :
    (ctx.Resume drv h).val = true ∧
    ∃ (s : Surface) (c : Context) (ok : Bool),
      s = drv.eglCreateWindowSurface h ctx.display ctx.config ctx.window ∧
      (ctx.Resume drv h).ev =
        [Event.createWindowSurface ctx.display ctx.config ctx.window s,
         Event.makeCurrent ctx.display s s ctx.context false,
         Event.getError CONTEXT_LOST,
         Event.createContext ctx.display ctx.config 0 (contextAttribs ctx.esMajor ctx.esMinor) c,
         Event.makeCurrent ctx.display s s c ok] ∧
      (ctx.Resume drv h).ctx = { ctx with surface := s, context := c } := by
  have hi := InitEGLContext_spec drv
    { ctx with surface := drv.eglCreateWindowSurface h ctx.display ctx.config ctx.window }
    (h ++ [Event.createWindowSurface ctx.display ctx.config ctx.window
          (drv.eglCreateWindowSurface h ctx.display ctx.config ctx.window),
        Event.makeCurrent ctx.display (drv.eglCreateWindowSurface h ctx.display ctx.config ctx.window)
          (drv.eglCreateWindowSurface h ctx.display ctx.config ctx.window) ctx.context false,
        Event.getError CONTEXT_LOST])
  have e : ctx.Resume drv h =
      { val := true,
        ctx := (EGLContext.InitEGLContext
          { ctx with surface := drv.eglCreateWindowSurface h ctx.display ctx.config ctx.window }
          drv
          (h ++ [Event.createWindowSurface ctx.display ctx.config ctx.window
              (drv.eglCreateWindowSurface h ctx.display ctx.config ctx.window),
            Event.makeCurrent ctx.display
              (drv.eglCreateWindowSurface h ctx.display ctx.config ctx.window)
              (drv.eglCreateWindowSurface h ctx.display ctx.config ctx.window) ctx.context false,
            Event.getError CONTEXT_LOST])).ctx,
        ev := [Event.createWindowSurface ctx.display ctx.config ctx.window
              (drv.eglCreateWindowSurface h ctx.display ctx.config ctx.window),
            Event.makeCurrent ctx.display
              (drv.eglCreateWindowSurface h ctx.display ctx.config ctx.window)
              (drv.eglCreateWindowSurface h ctx.display ctx.config ctx.window) ctx.context false,
            Event.getError CONTEXT_LOST] ++
          (EGLContext.InitEGLContext
            { ctx with surface := drv.eglCreateWindowSurface h ctx.display ctx.config ctx.window }
            drv
            (h ++ [Event.createWindowSurface ctx.display ctx.config ctx.window
                (drv.eglCreateWindowSurface h ctx.display ctx.config ctx.window),
              Event.makeCurrent ctx.display
                (drv.eglCreateWindowSurface h ctx.display ctx.config ctx.window)
                (drv.eglCreateWindowSurface h ctx.display ctx.config ctx.window) ctx.context false,
              Event.getError CONTEXT_LOST])).ev } := by
    simp [EGLContext.Resume, CreateWindowSurface, MakeCurrent, GetError, hbind, herr]
  obtain ⟨R, hR⟩ : ∃ R : Out Bool, R = EGLContext.InitEGLContext
      { ctx with surface := drv.eglCreateWindowSurface h ctx.display ctx.config ctx.window }
      drv
      (h ++ [Event.createWindowSurface ctx.display ctx.config ctx.window
          (drv.eglCreateWindowSurface h ctx.display ctx.config ctx.window),
        Event.makeCurrent ctx.display
          (drv.eglCreateWindowSurface h ctx.display ctx.config ctx.window)
          (drv.eglCreateWindowSurface h ctx.display ctx.config ctx.window) ctx.context false,
        Event.getError CONTEXT_LOST]) := ⟨_, rfl⟩
  rw [← hR] at hi e
  rw [e]
  refine ⟨rfl, drv.eglCreateWindowSurface h ctx.display ctx.config ctx.window, R.ctx.context,
    R.val, rfl, ?_, ?_⟩
  · simp only
    rw [hi.2.1]
    rfl
  · simp only
    rw [hi.1]

/-- C12 at a concrete run: a suspended manager whose context was lost. -/
theorem C12_resume_context_lost_rebuilds_context_only_witness :
    (simDriver true false CONTEXT_LOST [9] [5]).eglGetError [] = CONTEXT_LOST ∧
    (readyCtx.Resume (simDriver true false CONTEXT_LOST [9] [5]) []).val = true :=
  ⟨by decide,
    (C12_resume_context_lost_rebuilds_context_only (simDriver true false CONTEXT_LOST [9] [5])
      readyCtx [] (by decide) (by decide)).1⟩

/-! ## C13: `Terminate` -/

/-- C13: for every manager state, history and driver, after `Terminate` the
display, the context and the surface are the none sentinel and `IsReady()` is
false; a second `Terminate`, on any later history, issues no driver call and
changes no field. -/
theorem C13_terminate_resets_and_is_idempotent (drv : Driver) (ctx : EGLContext) (h : Trace) :
    (ctx.Terminate drv h).ctx.display = NO_DISPLAY ∧
    (ctx.Terminate drv h).ctx.context = NO_CONTEXT ∧
    (ctx.Terminate drv h).ctx.surface = NO_SURFACE ∧
    (ctx.Terminate drv h).ctx.IsReady = false ∧
    ∀ h2 : Trace,
      ((ctx.Terminate drv h).ctx.Terminate drv h2).ev = [] ∧
      ((ctx.Terminate drv h).ctx.Terminate drv h2).ctx = (ctx.Terminate drv h).ctx := by
  refine ⟨rfl, rfl, rfl, rfl, fun h2 => ⟨?_, rfl⟩⟩
  simp [EGLContext.Terminate]

/-! ## C14: `Suspend` -/

/-- C14: `Suspend` on a manager without a surface issues no driver call and
changes no field; on a manager with a surface it issues exactly one
`DestroySurface` call, on that surface, sets `surface` to the none sentinel
and leaves every other field (`context`, `display`, `config`) unchanged; a
second `Suspend`, on any later history, issues no driver call and changes no
field. -/
theorem C14_suspend (drv : Driver) (ctx : EGLContext) (h : Trace) :
    (ctx.surface = NO_SURFACE →
      (ctx.Suspend drv h).ev = [] ∧ (ctx.Suspend drv h).ctx = ctx) ∧
    (ctx.surface ≠ NO_SURFACE →
      (∃ ok : Bool, (ctx.Suspend drv h).ev = [Event.destroySurface ctx.display ctx.surface ok]) ∧
      (ctx.Suspend drv h).ctx = { ctx with surface := NO_SURFACE }) ∧
    (∀ h2 : Trace,
      ((ctx.Suspend drv h).ctx.Suspend drv h2).ev = [] ∧
      ((ctx.Suspend drv h).ctx.Suspend drv h2).ctx = (ctx.Suspend drv h).ctx) := by
  refine ⟨?_, ?_, ?_⟩
  · intro hs
    simp [EGLContext.Suspend, hs]
  · intro hs
    simp [EGLContext.Suspend, hs, DestroySurface]
  · intro h2
    by_cases hs : ctx.surface = NO_SURFACE <;> simp [EGLContext.Suspend, hs]

/-- C14 at concrete runs: a Ready manager (surface 3) and a fresh one. -/
theorem C14_suspend_witness :
    ((freshCtx 24).surface = NO_SURFACE ∧
      ((freshCtx 24).Suspend (simDriver true true 0 [9] [5]) []).ev = []) ∧
    (readyCtx.surface ≠ NO_SURFACE ∧
      (readyCtx.Suspend (simDriver true true 0 [9] [5]) []).ctx =
        { readyCtx with surface := NO_SURFACE }) :=
  ⟨⟨by decide, ((C14_suspend (simDriver true true 0 [9] [5]) (freshCtx 24) []).1 (by decide)).1⟩,
   ⟨by decide, ((C14_suspend (simDriver true true 0 [9] [5]) readyCtx []).2.1 (by decide)).2⟩⟩

/-! ## C15: what a failed acquisition leaves behind -/

/-- C15, as stated, fails.  On a Ready manager (context 4) `InitEGLContext`
with a failing bind-current returns false and leaves the new handle 200 in
`context`.  On a fresh manager `InitEGLSurface` with a failing surface
creation returns false and leaves the selected configuration 9 in `config`;
on a Ready manager (surface 3) it also overwrites `surface` with the none
sentinel. -/
theorem C15_counterexample :
    (readyCtx.InitEGLContext (simDriver true false 0 [9] [5]) []).val = false ∧
    readyCtx.context = 4 ∧
    (readyCtx.InitEGLContext (simDriver true false 0 [9] [5]) []).ctx.context = 200 ∧
    ((freshCtx 24).InitEGLSurface (simDriverNoSurface [9] [5]) []).val = false ∧
    (freshCtx 24).config = 0 ∧
    ((freshCtx 24).InitEGLSurface (simDriverNoSurface [9] [5]) []).ctx.config = 9 ∧
    (readyCtx.InitEGLSurface (simDriverNoSurface [9] [5]) []).val = false ∧
    readyCtx.surface = 3 ∧
    (readyCtx.InitEGLSurface (simDriverNoSurface [9] [5]) []).ctx.surface = NO_SURFACE := by
  decide

/-- C15 (amended): when `InitEGLSurface` returns false, `display`, `context`,
the window and the requested attributes are as before the call; every field is
as before when `Initialize` failed; when the selection failed, `config` is
unset, `surface` is as before and no surface creation was attempted; when the
surface creation returned the none handle, `config` holds the selected
configuration and `surface` is the none sentinel.  When `InitEGLContext`
returns false (the bind-current failed), `context` holds the handle
`CreateContext` returned and every other field is as before the call. -/
theorem C15_failed_acquisition_state (drv : Driver) (ctx : EGLContext) (h : Trace) :
    ((ctx.InitEGLSurface drv h).val = false →
      (ctx.InitEGLSurface drv h).ctx =
        { ctx with config := (ctx.InitEGLSurface drv h).ctx.config,
                   surface := (ctx.InitEGLSurface drv h).ctx.surface } ∧
      (drv.eglInitialize h ctx.display = false → (ctx.InitEGLSurface drv h).ctx = ctx) ∧
      (drv.eglInitialize h ctx.display = true →
        ((ctx.InitEGLSurface drv h).ctx.config = 0 ∧
          (ctx.InitEGLSurface drv h).ctx.surface = ctx.surface ∧
          createdSurfaces (ctx.InitEGLSurface drv h).ev = []) ∨
        ((ctx.InitEGLSurface drv h).ctx.config ≠ 0 ∧
          (ctx.InitEGLSurface drv h).ctx.surface = NO_SURFACE ∧
          createdSurfaces (ctx.InitEGLSurface drv h).ev =
            [((ctx.InitEGLSurface drv h).ctx.config, NO_SURFACE)]))) ∧
    ((ctx.InitEGLContext drv h).val = false →
      ∃ c : Context,
        (ctx.InitEGLContext drv h).ev =
          [Event.createContext ctx.display ctx.config NO_CONTEXT
              (contextAttribs ctx.esMajor ctx.esMinor) c,
           Event.makeCurrent ctx.display ctx.surface ctx.surface c false] ∧
        (ctx.InitEGLContext drv h).ctx = { ctx with context := c }) := by
  constructor
  · intro hv
    refine ⟨InitEGLSurface_frame drv ctx h, fun hi => (InitEGLSurface_of_init_failure drv ctx h hi).1,
      ?_⟩
    intro hi
    have hd : ∃ d1 d2, candidateDepths ctx.depthSize = [d1, d2] := by
      rcases candidateDepths_eq ctx.depthSize with hc | hc <;> exact ⟨_, _, hc⟩
    obtain ⟨d1, d2, hd⟩ := hd
    have hs := selectLoop_two_createdSurfaces drv ctx (h ++ [Event.init ctx.display true]) d1 d2
    have hf := selectLoop_two_frame drv ctx (h ++ [Event.init ctx.display true]) d1 d2
    have hsurf : (selectLoop drv ctx (h ++ [Event.init ctx.display true]) [d1, d2]).1.surface =
        ctx.surface := by rw [hf]
    simp only [createdSurfaces] at hs
    simp only [EGLContext.InitEGLSurface, Initialize, hi, hd, not_true_eq_false, if_false] at hv ⊢
    by_cases hc : (selectLoop drv ctx (h ++ [Event.init ctx.display true]) [d1, d2]).1.config = 0
    · left
      simp only [hc, if_true]
      refine ⟨trivial, hsurf, ?_⟩
      simp [createdSurfaces, List.filterMap_append, hs, Event.asCreateSurface]
    · right
      simp only [hc, if_false] at hv ⊢
      split at hv
      · rename_i h0
        simp only [h0, if_true]
        refine ⟨hc, rfl, ?_⟩
        have h0b : drv.eglCreateWindowSurface
            (h ++ [Event.init ctx.display true] ++
              (selectLoop drv ctx (h ++ [Event.init ctx.display true]) [d1, d2]).2)
            (selectLoop drv ctx (h ++ [Event.init ctx.display true]) [d1, d2]).1.display
            (selectLoop drv ctx (h ++ [Event.init ctx.display true]) [d1, d2]).1.config
            (selectLoop drv ctx (h ++ [Event.init ctx.display true]) [d1, d2]).1.window = 0 := h0
        simp only [List.append_assoc, List.singleton_append] at h0b
        simp [createdSurfaces, List.filterMap_append, hs, CreateWindowSurface,
          Event.asCreateSurface, h0b, NO_SURFACE]
      · simp at hv
  · intro hv
    have hi := InitEGLContext_spec drv ctx h
    rw [hv] at hi
    exact ⟨(ctx.InitEGLContext drv h).ctx.context, hi.2.1, by rw [hi.1]⟩

/-- C15 (amended) at concrete runs: the failing bind and the failing surface
creation of the counterexample. -/
theorem C15_failed_acquisition_state_witness :
    ((readyCtx.InitEGLSurface (simDriverNoSurface [9] [5]) []).val = false ∧
      (readyCtx.InitEGLSurface (simDriverNoSurface [9] [5]) []).ctx =
        { readyCtx with
          config := (readyCtx.InitEGLSurface (simDriverNoSurface [9] [5]) []).ctx.config,
          surface := (readyCtx.InitEGLSurface (simDriverNoSurface [9] [5]) []).ctx.surface }) ∧
    ((readyCtx.InitEGLContext (simDriver true false 0 [9] [5]) []).val = false ∧
      ∃ c : Context,
        (readyCtx.InitEGLContext (simDriver true false 0 [9] [5]) []).ev =
          [Event.createContext readyCtx.display readyCtx.config NO_CONTEXT
              (contextAttribs readyCtx.esMajor readyCtx.esMinor) c,
           Event.makeCurrent readyCtx.display readyCtx.surface readyCtx.surface c false] ∧
        (readyCtx.InitEGLContext (simDriver true false 0 [9] [5]) []).ctx =
          { readyCtx with context := c }) :=
  ⟨⟨by decide,
    ((C15_failed_acquisition_state (simDriverNoSurface [9] [5]) readyCtx []).1 (by decide)).1⟩,
   ⟨by decide,
    (C15_failed_acquisition_state (simDriver true false 0 [9] [5]) readyCtx []).2 (by decide)⟩⟩

/-! ## C16: `InitEGLContext` -/

/-- C16: `InitEGLContext` issues exactly one `CreateContext` call, against
`config` and with no shared context, then one bind-current of the new context
with `surface` as draw and read surface, stores the new handle and returns the
result of that bind.  The effective content of the attribute list is
`[CONTEXT_CLIENT_VERSION, 2]` when the requested major version is below 3 and
`[CONTEXT_CLIENT_VERSION, major, CONTEXT_MAJOR_VERSION, major,
CONTEXT_MINOR_VERSION, minor]` when it is 3 or more. -/
theorem C16_init_context (drv : Driver) (ctx : EGLContext) (h : Trace) :
    (∃ (c : Context) (ok : Bool),
      (ctx.InitEGLContext drv h).ev =
        [Event.createContext ctx.display ctx.config NO_CONTEXT
            (contextAttribs ctx.esMajor ctx.esMinor) c,
         Event.makeCurrent ctx.display ctx.surface ctx.surface c ok] ∧
      (ctx.InitEGLContext drv h).ctx = { ctx with context := c } ∧
      (ctx.InitEGLContext drv h).val = ok) ∧
    (ctx.esMajor < 3 →
      effectiveAttribs (contextAttribs ctx.esMajor ctx.esMinor) = [CONTEXT_CLIENT_VERSION, 2]) ∧
    (ctx.esMajor ≥ 3 →
      effectiveAttribs (contextAttribs ctx.esMajor ctx.esMinor) =
        [CONTEXT_CLIENT_VERSION, ctx.esMajor, CONTEXT_MAJOR_VERSION, ctx.esMajor,
         CONTEXT_MINOR_VERSION, ctx.esMinor]) := by
  have hi := InitEGLContext_spec drv ctx h
  refine ⟨⟨(ctx.InitEGLContext drv h).ctx.context, (ctx.InitEGLContext drv h).val, hi.2.1,
    by rw [hi.1], rfl⟩, ?_, ?_⟩
  · intro hm
    have hm2 : ¬ ctx.esMajor ≥ 3 := not_le.mpr hm
    simp [contextAttribs, hm2, effectiveAttribs, NONE, CONTEXT_CLIENT_VERSION]
  · intro hm
    simp [contextAttribs, hm, effectiveAttribs, NONE, CONTEXT_CLIENT_VERSION,
      CONTEXT_MAJOR_VERSION, CONTEXT_MINOR_VERSION]

/-- C16 at concrete runs: ES 2.0 on a Ready manager and ES 3.1 on a fresh one. -/
theorem C16_init_context_witness :
    (readyCtx.esMajor < 3 ∧
      effectiveAttribs (contextAttribs readyCtx.esMajor readyCtx.esMinor) =
        [CONTEXT_CLIENT_VERSION, 2]) ∧
    ((freshCtx3 1).esMajor ≥ 3 ∧
      effectiveAttribs (contextAttribs (freshCtx3 1).esMajor (freshCtx3 1).esMinor) =
        [CONTEXT_CLIENT_VERSION, (freshCtx3 1).esMajor, CONTEXT_MAJOR_VERSION, (freshCtx3 1).esMajor,
         CONTEXT_MINOR_VERSION, (freshCtx3 1).esMinor]) :=
  ⟨⟨by decide, (C16_init_context (simDriver true true 0 [9] [5]) readyCtx []).2.1 (by decide)⟩,
   ⟨by decide, (C16_init_context (simDriver true true 0 [9] [5]) (freshCtx3 1) []).2.2 (by decide)⟩⟩

/-! ## C17: the attribute list of `InitEGLSurfaceX` -/

/-- What the attribute list of `InitEGLSurfaceX` requests: 5/6/5 channel
sizes and a depth buffer of 16 whatever the value `v` stored at index 11, which
is the value of `BUFFER_SIZE`. -/
theorem attribsX_values (esMajor v : EGLint) :
    attribValue RED_SIZE (attribsX esMajor v) = some 5 ∧
    attribValue GREEN_SIZE (attribsX esMajor v) = some 6 ∧
    attribValue BLUE_SIZE (attribsX esMajor v) = some 5 ∧
    attribValue DEPTH_SIZE (attribsX esMajor v) = some 16 ∧
    attribValue BUFFER_SIZE (attribsX esMajor v) = some v := by
  by_cases hm : esMajor = 3 <;>
    simp [attribsX, hm, attribValue, NONE, RENDERABLE_TYPE, SURFACE_TYPE,
      BLUE_SIZE, GREEN_SIZE, RED_SIZE, BUFFER_SIZE, SAMPLE_BUFFERS, SAMPLES, DEPTH_SIZE]

/-- C17 (the code departs from the claim): the code at the failing input.  A
manager constructed by `NewContextEx` with depth 24, a driver whose
`Initialize` succeeds and that returns no configuration.  The first query of
`InitEGLSurfaceX` asks for red/green/blue 5/6/5, where the claim, the comment
of lines 64-68 and the sibling `InitEGLSurface` have 8/8/8 above 16, and for a
`DEPTH_SIZE` of 16, where the claim has the requested depth 24: index 11, which
receives the requested depth, is the value of `BUFFER_SIZE`.  The retry, which
the comment of line 85 calls a fall back to a 16 bit depth buffer, differs
from the first query in the `BUFFER_SIZE` value only, and `InitEGLSurfaceX`
returns false. -/
theorem C17_code_at_failing_input :
    (NewContextEx (simDriver true true 0 [] []) [] 2 1 24 2 0).1.depthSize = 24 ∧
    (chooseQueries ((NewContextEx (simDriver true true 0 [] []) [] 2 1 24 2 0).1.InitEGLSurfaceX
      (simDriver true true 0 [] [])
      (NewContextEx (simDriver true true 0 [] []) [] 2 1 24 2 0).2).ev).map Prod.fst =
      [attribsX 2 24, attribsX 2 16] ∧
    attribValue RED_SIZE (attribsX 2 24) = some 5 ∧
    attribValue GREEN_SIZE (attribsX 2 24) = some 6 ∧
    attribValue BLUE_SIZE (attribsX 2 24) = some 5 ∧
    attribValue DEPTH_SIZE (attribsX 2 24) = some 16 ∧
    attribValue BUFFER_SIZE (attribsX 2 24) = some 24 ∧
    attribValue DEPTH_SIZE (attribsX 2 16) = some 16 ∧
    attribValue BUFFER_SIZE (attribsX 2 16) = some 16 ∧
    attribsX 2 16 = (attribsX 2 24).set 11 16 ∧
    ((NewContextEx (simDriver true true 0 [] []) [] 2 1 24 2 0).1.InitEGLSurfaceX
      (simDriver true true 0 [] [])
      (NewContextEx (simDriver true true 0 [] []) [] 2 1 24 2 0).2).val = false := by
  decide

/-- The queries `InitEGLSurfaceX` issues, as the code is written (lines 69-92):
when `Initialize` succeeds the query is issued once, with the list of
`attribsX` at the requested depth, and a second time only when the first query
returned no configuration and the requested depth is above 16, with index 11
set to 16; the method returns false when the last query issued returned no
configuration. -/
theorem InitEGLSurfaceX_queries (drv : Driver) (ctx : EGLContext) (h : Trace)
    (hinit : drv.eglInitialize h ctx.display = true) :
    (attribValue RED_SIZE (attribsX ctx.esMajor ctx.depthSize) = some 5 ∧
      attribValue GREEN_SIZE (attribsX ctx.esMajor ctx.depthSize) = some 6 ∧
      attribValue BLUE_SIZE (attribsX ctx.esMajor ctx.depthSize) = some 5 ∧
      attribValue DEPTH_SIZE (attribsX ctx.esMajor ctx.depthSize) = some 16 ∧
      attribValue BUFFER_SIZE (attribsX ctx.esMajor ctx.depthSize) = some ctx.depthSize) ∧
    (attribsX ctx.esMajor 16 = (attribsX ctx.esMajor ctx.depthSize).set 11 16 ∧
      attribValue BUFFER_SIZE (attribsX ctx.esMajor 16) = some 16) ∧
    (¬ ((ChooseConfig drv (h ++ [Event.init ctx.display true]) ctx.display
          (attribsX ctx.esMajor ctx.depthSize) 1).1 = [] ∧ ctx.depthSize > 16) →
      chooseQueries (ctx.InitEGLSurfaceX drv h).ev =
        [(attribsX ctx.esMajor ctx.depthSize,
          (ChooseConfig drv (h ++ [Event.init ctx.display true]) ctx.display
            (attribsX ctx.esMajor ctx.depthSize) 1).1)] ∧
      ((ChooseConfig drv (h ++ [Event.init ctx.display true]) ctx.display
          (attribsX ctx.esMajor ctx.depthSize) 1).1 = [] →
        (ctx.InitEGLSurfaceX drv h).val = false)) ∧
    (((ChooseConfig drv (h ++ [Event.init ctx.display true]) ctx.display
          (attribsX ctx.esMajor ctx.depthSize) 1).1 = [] ∧ ctx.depthSize > 16) →
      chooseQueries (ctx.InitEGLSurfaceX drv h).ev =
        [(attribsX ctx.esMajor ctx.depthSize, []),
         (attribsX ctx.esMajor 16,
          (ChooseConfig drv
            (h ++ [Event.init ctx.display true,
              Event.chooseConfig ctx.display (attribsX ctx.esMajor ctx.depthSize) 1 []])
            ctx.display (attribsX ctx.esMajor 16) 1).1)] ∧
      ((ChooseConfig drv
          (h ++ [Event.init ctx.display true,
            Event.chooseConfig ctx.display (attribsX ctx.esMajor ctx.depthSize) 1 []])
          ctx.display (attribsX ctx.esMajor 16) 1).1 = [] →
        (ctx.InitEGLSurfaceX drv h).val = false)) := by
  refine ⟨attribsX_values _ _, ⟨?_, (attribsX_values _ _).2.2.2.2⟩, ?_, ?_⟩
  · by_cases hm : ctx.esMajor = 3 <;> simp [attribsX, hm]
  · intro hno
    have hno2 : ¬ ((ChooseConfig drv (h ++ [Event.init ctx.display true]) ctx.display
        (attribsX ctx.esMajor ctx.depthSize) 1).1.length = 0 ∧ ctx.depthSize > 16) := by
      rw [List.length_eq_zero]; exact hno
    simp only [EGLContext.InitEGLSurfaceX, Initialize, hinit, not_true_eq_false, if_false, hno2]
    by_cases hl : (ChooseConfig drv (h ++ [Event.init ctx.display true]) ctx.display
        (attribsX ctx.esMajor ctx.depthSize) 1).1.length = 0
    · simp only [hl, if_true]
      refine ⟨?_, fun _ => trivial⟩
      simp [chooseQueries, List.filterMap_append, Event.asChoose, ChooseConfig]
    · simp only [hl, if_false]
      have hl2 : ¬ (ChooseConfig drv (h ++ [Event.init ctx.display true]) ctx.display
          (attribsX ctx.esMajor ctx.depthSize) 1).1 = [] := by
        rw [← List.length_eq_zero]; exact hl
      refine ⟨?_, fun he => absurd he hl2⟩
      split <;>
        simp [chooseQueries, List.filterMap_append, Event.asChoose, ChooseConfig,
          CreateWindowSurface]
  · intro hyes
    have hyes2 : (ChooseConfig drv (h ++ [Event.init ctx.display true]) ctx.display
        (attribsX ctx.esMajor ctx.depthSize) 1).1.length = 0 ∧ ctx.depthSize > 16 := by
      rw [List.length_eq_zero]; exact hyes
    have e1 : (ChooseConfig drv (h ++ [Event.init ctx.display true]) ctx.display
        (attribsX ctx.esMajor ctx.depthSize) 1).2 =
        [Event.chooseConfig ctx.display (attribsX ctx.esMajor ctx.depthSize) 1 []] := by
      have := hyes.1
      simp only [ChooseConfig] at this ⊢
      rw [this]
    simp only [EGLContext.InitEGLSurfaceX, Initialize, hinit, not_true_eq_false, if_false, hyes2,
      and_self, if_true, e1, List.append_assoc, List.singleton_append]
    by_cases hl : (ChooseConfig drv
        (h ++ [Event.init ctx.display true,
          Event.chooseConfig ctx.display (attribsX ctx.esMajor ctx.depthSize) 1 []])
        ctx.display (attribsX ctx.esMajor 16) 1).1.length = 0
    · simp only [hl, if_true]
      refine ⟨?_, fun _ => trivial⟩
      have hl2 := List.length_eq_zero.mp hl
      simp only [ChooseConfig] at hl2
      simp [chooseQueries, List.filterMap_append, Event.asChoose, ChooseConfig, hl2]
    · simp only [hl, if_false]
      have hl2 : ¬ (ChooseConfig drv
          (h ++ [Event.init ctx.display true,
            Event.chooseConfig ctx.display (attribsX ctx.esMajor ctx.depthSize) 1 []])
          ctx.display (attribsX ctx.esMajor 16) 1).1 = [] := by
        rw [← List.length_eq_zero]; exact hl
      refine ⟨?_, fun he => absurd he hl2⟩
      split <;>
        simp [chooseQueries, List.filterMap_append, Event.asChoose, ChooseConfig,
          CreateWindowSurface]

/-! ## C18: `ReinitEGLContext` -/

/-- C18, as stated, fails.  On a terminated manager (`display` is the none
sentinel) `ReinitEGLContext` issues the two calls of `InitEGLContext` only:
no unbind call `MakeCurrent(display, none, none, none)` is issued. -/
theorem C18_counterexample :
    (readyCtx.Terminate (simDriver true true 0 [9] [5]) []).ctx.display = NO_DISPLAY ∧
    ((readyCtx.Terminate (simDriver true true 0 [9] [5]) []).ctx.ReinitEGLContext
      (simDriver true true 0 [9] [5]) (readyCtx.Terminate (simDriver true true 0 [9] [5]) []).ev).ev =
      [Event.createContext NO_DISPLAY 9 NO_CONTEXT (contextAttribs 2 0) 204,
       Event.makeCurrent NO_DISPLAY NO_SURFACE NO_SURFACE 204 true] ∧
    (∀ ok : Bool, Event.makeCurrent NO_DISPLAY NO_SURFACE NO_SURFACE NO_CONTEXT ok ∉
      ((readyCtx.Terminate (simDriver true true 0 [9] [5]) []).ctx.ReinitEGLContext
        (simDriver true true 0 [9] [5])
        (readyCtx.Terminate (simDriver true true 0 [9] [5]) []).ev).ev) := by
  decide

/-- C18 (amended): `ReinitEGLContext` issues the unbind call
`MakeCurrent(display, none, none, none)`, followed by `DestroyContext` on the
existing context if it is not the none sentinel, only when `display` is not
the none sentinel; when `display` is the none sentinel it issues neither.  In
both cases it then runs `InitEGLContext` and returns its result. -/
theorem C18_reinit_context (drv : Driver) (ctx : EGLContext) (h : Trace) :
    ∃ pre : Trace,
      (ctx.display = NO_DISPLAY → pre = []) ∧
      (ctx.display ≠ NO_DISPLAY → ∃ ok1 ok2 : Bool,
        pre = [Event.makeCurrent ctx.display NO_SURFACE NO_SURFACE NO_CONTEXT ok1] ++
          (if ctx.context ≠ NO_CONTEXT then [Event.destroyContext ctx.display ctx.context ok2]
           else [])) ∧
      (ctx.ReinitEGLContext drv h).ev = pre ++ (ctx.InitEGLContext drv (h ++ pre)).ev ∧
      (ctx.ReinitEGLContext drv h).val = (ctx.InitEGLContext drv (h ++ pre)).val ∧
      (ctx.ReinitEGLContext drv h).ctx = (ctx.InitEGLContext drv (h ++ pre)).ctx := by
  by_cases hd : ctx.display = NO_DISPLAY
  · refine ⟨[], fun _ => rfl, fun hn => absurd hd hn, ?_, ?_, ?_⟩ <;>
      simp [EGLContext.ReinitEGLContext, hd]
  · by_cases hc : ctx.context = NO_CONTEXT
    · refine ⟨[Event.makeCurrent ctx.display NO_SURFACE NO_SURFACE NO_CONTEXT
          (drv.eglMakeCurrent h ctx.display NO_SURFACE NO_SURFACE NO_CONTEXT)],
        fun hn => absurd hn hd,
        fun _ => ⟨drv.eglMakeCurrent h ctx.display NO_SURFACE NO_SURFACE NO_CONTEXT, true,
          by simp [hc]⟩, ?_, ?_, ?_⟩ <;>
        simp [EGLContext.ReinitEGLContext, hd, hc, MakeCurrent]
    · refine ⟨[Event.makeCurrent ctx.display NO_SURFACE NO_SURFACE NO_CONTEXT
          (drv.eglMakeCurrent h ctx.display NO_SURFACE NO_SURFACE NO_CONTEXT),
          Event.destroyContext ctx.display ctx.context
            (drv.eglDestroyContext
              (h ++ [Event.makeCurrent ctx.display NO_SURFACE NO_SURFACE NO_CONTEXT
                (drv.eglMakeCurrent h ctx.display NO_SURFACE NO_SURFACE NO_CONTEXT)])
              ctx.display ctx.context)],
        fun hn => absurd hn hd,
        fun _ => ⟨drv.eglMakeCurrent h ctx.display NO_SURFACE NO_SURFACE NO_CONTEXT,
          drv.eglDestroyContext
            (h ++ [Event.makeCurrent ctx.display NO_SURFACE NO_SURFACE NO_CONTEXT
              (drv.eglMakeCurrent h ctx.display NO_SURFACE NO_SURFACE NO_CONTEXT)])
            ctx.display ctx.context,
          by simp [hc]⟩, ?_, ?_, ?_⟩ <;>
        simp [EGLContext.ReinitEGLContext, hd, hc, MakeCurrent, DestroyContext]

/-- C18 (amended) at a concrete run: a Ready manager, where the unbind and
the `DestroyContext` call come first. -/
theorem C18_reinit_context_witness :
    readyCtx.display ≠ NO_DISPLAY ∧
    ∃ (pre : Trace) (ok1 ok2 : Bool),
      pre = [Event.makeCurrent readyCtx.display NO_SURFACE NO_SURFACE NO_CONTEXT ok1] ++
        (if readyCtx.context ≠ NO_CONTEXT then
          [Event.destroyContext readyCtx.display readyCtx.context ok2] else []) ∧
      (readyCtx.ReinitEGLContext (simDriver true true 0 [9] [5]) []).ev =
        pre ++ (readyCtx.InitEGLContext (simDriver true true 0 [9] [5]) ([] ++ pre)).ev := by
  refine ⟨by decide, ?_⟩
  obtain ⟨pre, _, h2, h3, _, _⟩ := C18_reinit_context (simDriver true true 0 [9] [5]) readyCtx []
  obtain ⟨ok1, ok2, hp⟩ := h2 (by decide)
  exact ⟨pre, ok1, ok2, hp, h3⟩

/-! ## Lemmas for the invariant and for the display -/

/-- The surface loop of `InitEGLSurface_XX`: only `config` and `surface` can
change; on success the surface is set and the configuration is one of the
list; on failure `config` is as before and `surface` is as before or none. -/
theorem trySurfaces_spec (drv : Driver) (confs : List Config) :
    ∀ (ctx : EGLContext) (h : Trace),
      (trySurfaces drv ctx h confs).ctx =
        { ctx with config := (trySurfaces drv ctx h confs).ctx.config,
                   surface := (trySurfaces drv ctx h confs).ctx.surface } ∧
      ((trySurfaces drv ctx h confs).val = true →
        (trySurfaces drv ctx h confs).ctx.surface ≠ NO_SURFACE ∧
        (trySurfaces drv ctx h confs).ctx.config ∈ confs) ∧
      ((trySurfaces drv ctx h confs).val = false →
        (trySurfaces drv ctx h confs).ctx.config = ctx.config ∧
        ((trySurfaces drv ctx h confs).ctx.surface = ctx.surface ∨
          (trySurfaces drv ctx h confs).ctx.surface = NO_SURFACE)) := by
  induction confs with
  | nil => intro ctx h; simp [trySurfaces]
  | cons c cs ih =>
    intro ctx h
    simp only [trySurfaces]
    by_cases hs : (CreateWindowSurface drv h ctx.display c ctx.window).1 = 0
    · have hi := ih { ctx with surface := (CreateWindowSurface drv h ctx.display c ctx.window).1 }
        (h ++ (CreateWindowSurface drv h ctx.display c ctx.window).2)
      simp only [hs, ne_eq, not_true_eq_false, if_false] at hi ⊢
      refine ⟨?_, ?_, ?_⟩
      · rw [hi.1]
      · intro hv
        exact ⟨(hi.2.1 hv).1, List.mem_cons_of_mem _ (hi.2.1 hv).2⟩
      · intro hv
        refine ⟨(hi.2.2 hv).1, Or.inr ?_⟩
        rcases (hi.2.2 hv).2 with h1 | h1
        · exact h1
        · exact h1
    · simp only [hs, ne_eq, not_false_eq_true, if_true]
      exact ⟨trivial, fun _ => ⟨hs, List.mem_cons_self _ _⟩, fun hv => by simp at hv⟩

/-- The candidate loop of `InitEGLSurface_XX`, for a driver that returns
non-nil handles only. -/
theorem selectLoopXX_spec (drv : Driver) (depths : List Int) :
    ∀ (ctx : EGLContext) (h : Trace),
      (selectLoopXX drv ctx h depths).ctx =
        { ctx with config := (selectLoopXX drv ctx h depths).ctx.config,
                   surface := (selectLoopXX drv ctx h depths).ctx.surface } ∧
      ((selectLoopXX drv ctx h depths).val = true →
        (selectLoopXX drv ctx h depths).ctx.surface ≠ NO_SURFACE ∧
        ((∀ (t : Trace) (d : Display) (a : List EGLint) (n : Nat),
            (0 : Config) ∉ drv.eglChooseConfig t d a n) →
          (selectLoopXX drv ctx h depths).ctx.config ≠ 0)) ∧
      ((selectLoopXX drv ctx h depths).val = false →
        (selectLoopXX drv ctx h depths).ctx.config = ctx.config ∧
        ((selectLoopXX drv ctx h depths).ctx.surface = ctx.surface ∨
          (selectLoopXX drv ctx h depths).ctx.surface = NO_SURFACE)) := by
  induction depths with
  | nil => intro ctx h; simp [selectLoopXX]
  | cons d ds ih =>
    intro ctx h
    have ht := trySurfaces_spec drv
      (ChooseConfig drv h ctx.display (candidateAttribs d ctx.esMajor) 16).1 ctx
      (h ++ (ChooseConfig drv h ctx.display (candidateAttribs d ctx.esMajor) 16).2)
    simp only [selectLoopXX]
    by_cases hv : (trySurfaces drv ctx
        (h ++ (ChooseConfig drv h ctx.display (candidateAttribs d ctx.esMajor) 16).2)
        (ChooseConfig drv h ctx.display (candidateAttribs d ctx.esMajor) 16).1).val = true
    · simp only [hv, if_true]
      refine ⟨ht.1, fun _ => ⟨(ht.2.1 hv).1, ?_⟩, fun hf => by simp at hf⟩
      intro hnn h0
      have hmem := (ht.2.1 hv).2
      rw [h0] at hmem
      exact hnn _ _ _ 16 (List.mem_of_mem_take hmem)
    · have hv2 : (trySurfaces drv ctx
          (h ++ (ChooseConfig drv h ctx.display (candidateAttribs d ctx.esMajor) 16).2)
          (ChooseConfig drv h ctx.display (candidateAttribs d ctx.esMajor) 16).1).val = false := by
        simpa using hv
      have hi := ih (trySurfaces drv ctx
          (h ++ (ChooseConfig drv h ctx.display (candidateAttribs d ctx.esMajor) 16).2)
          (ChooseConfig drv h ctx.display (candidateAttribs d ctx.esMajor) 16).1).ctx
        (h ++ (ChooseConfig drv h ctx.display (candidateAttribs d ctx.esMajor) 16).2 ++
          (trySurfaces drv ctx
            (h ++ (ChooseConfig drv h ctx.display (candidateAttribs d ctx.esMajor) 16).2)
            (ChooseConfig drv h ctx.display (candidateAttribs d ctx.esMajor) 16).1).ev)
      simp only [hv2, Bool.false_eq_true, if_false]
      refine ⟨?_, hi.2.1, ?_⟩
      · rw [hi.1, ht.1]
      · intro hf
        refine ⟨by rw [(hi.2.2 hf).1, (ht.2.2 hv2).1], ?_⟩
        rcases (hi.2.2 hf).2 with h1 | h1
        · rw [h1]; exact (ht.2.2 hv2).2
        · exact Or.inr h1

theorem InitEGLSurface_XX_spec (drv : Driver) (ctx : EGLContext) (h : Trace) :
    (ctx.InitEGLSurface_XX drv h).ctx =
      { ctx with config := (ctx.InitEGLSurface_XX drv h).ctx.config,
                 surface := (ctx.InitEGLSurface_XX drv h).ctx.surface } ∧
    ((ctx.InitEGLSurface_XX drv h).val = true →
      (ctx.InitEGLSurface_XX drv h).ctx.surface ≠ NO_SURFACE ∧
      ((∀ (t : Trace) (d : Display) (a : List EGLint) (n : Nat),
          (0 : Config) ∉ drv.eglChooseConfig t d a n) →
        (ctx.InitEGLSurface_XX drv h).ctx.config ≠ 0)) ∧
    ((ctx.InitEGLSurface_XX drv h).val = false →
      (ctx.InitEGLSurface_XX drv h).ctx.config = ctx.config ∧
      ((ctx.InitEGLSurface_XX drv h).ctx.surface = ctx.surface ∨
        (ctx.InitEGLSurface_XX drv h).ctx.surface = NO_SURFACE)) := by
  have hl := selectLoopXX_spec drv (candidateDepths ctx.depthSize) ctx
    (h ++ (Initialize drv h ctx.display).2)
  simp only [EGLContext.InitEGLSurface_XX]
  split
  · simp
  · exact hl

/-- `InitEGLSurfaceX` changes nothing, or stores the first configuration
returned (non-nil for a driver that returns non-nil handles only) and the
handle of the surface created with it; only `config` and `surface` can change. -/
theorem InitEGLSurfaceX_spec (drv : Driver) (ctx : EGLContext) (h : Trace) :
    (ctx.InitEGLSurfaceX drv h).ctx =
      { ctx with config := (ctx.InitEGLSurfaceX drv h).ctx.config,
                 surface := (ctx.InitEGLSurfaceX drv h).ctx.surface } ∧
    ((ctx.InitEGLSurfaceX drv h).ctx = ctx ∨
      ((∀ (t : Trace) (d : Display) (a : List EGLint) (n : Nat),
          (0 : Config) ∉ drv.eglChooseConfig t d a n) →
        (ctx.InitEGLSurfaceX drv h).ctx.config ≠ 0)) := by
  have key : ∀ (q : List Config × Trace),
      (∃ t d a, q.1 = (ChooseConfig drv t d a 1).1) → ¬ q.1.length = 0 →
      (∀ (t : Trace) (d : Display) (a : List EGLint) (n : Nat),
          (0 : Config) ∉ drv.eglChooseConfig t d a n) → q.1.headD 0 ≠ 0 := by
    intro q ⟨t, d, a, hq⟩ hl hnn h0
    cases hc : q.1 with
    | nil => rw [hc] at hl; exact hl rfl
    | cons x xs =>
      rw [hc] at h0
      simp only [List.headD_cons] at h0
      have hmem : (0 : Config) ∈ (ChooseConfig drv t d a 1).1 := by
        rw [← hq, hc, h0]; exact List.mem_cons_self _ _
      exact hnn t d a 1 (List.mem_of_mem_take hmem)
  simp only [EGLContext.InitEGLSurfaceX]
  by_cases hi : (Initialize drv h ctx.display).1 = true
  · simp only [hi, not_true_eq_false, if_false]
    by_cases hr : (ChooseConfig drv (h ++ (Initialize drv h ctx.display).2) ctx.display
        (attribsX ctx.esMajor ctx.depthSize) 1).1.length = 0 ∧ ctx.depthSize > 16
    · simp only [if_pos hr]
      split
      · exact ⟨rfl, Or.inl rfl⟩
      · rename_i hl
        have hk := key _ ⟨_, _, _, rfl⟩ hl
        split
        · exact ⟨rfl, Or.inr hk⟩
        · exact ⟨rfl, Or.inr hk⟩
    · simp only [if_neg hr]
      split
      · exact ⟨rfl, Or.inl rfl⟩
      · rename_i hl
        have hk := key _ ⟨_, _, _, rfl⟩ hl
        split
        · exact ⟨rfl, Or.inr hk⟩
        · exact ⟨rfl, Or.inr hk⟩
  · simp only [hi, not_false_eq_true, if_true]
    exact ⟨rfl, Or.inl rfl⟩

/-- With a driver that returns non-nil handles only, `InitEGLSurface` never
unsets a configuration. -/
theorem InitEGLSurface_config_ne (drv : Driver) (ctx : EGLContext) (h : Trace)
    (hnn : ∀ (t : Trace) (d : Display) (a : List EGLint) (n : Nat),
      (0 : Config) ∉ drv.eglChooseConfig t d a n)
    (hc : ctx.config ≠ 0) : (ctx.InitEGLSurface drv h).ctx.config ≠ 0 := by
  have hnn2 : ∀ (t : Trace) (d : Display) (a : List EGLint),
      (0 : Config) ∉ (ChooseConfig drv t d a 16).1 := by
    intro t d a hm
    exact hnn t d a 16 (List.mem_of_mem_take hm)
  have hpc : ∀ (c : EGLContext) (t : Trace) (d : Int), c.config ≠ 0 →
      (processCandidate drv c t d).1.config ≠ 0 := by
    intro c t d hc0
    by_cases hq : (ChooseConfig drv t c.display (candidateAttribs d c.esMajor) 16).1 = []
    · rw [processCandidate_of_empty drv c t d hq]; exact hc0
    · exact processCandidate_config_ne drv c t d (hnn2 _ _ _) hq
  have hd : ∃ d1 d2, candidateDepths ctx.depthSize = [d1, d2] := by
    rcases candidateDepths_eq ctx.depthSize with hc | hc <;> exact ⟨_, _, hc⟩
  obtain ⟨d1, d2, hd⟩ := hd
  have hsel : (selectLoop drv ctx (h ++ (Initialize drv h ctx.display).2) [d1, d2]).1.config ≠ 0 := by
    rw [selectLoop_two]
    exact hpc _ _ _ (hpc _ _ _ hc)
  simp only [EGLContext.InitEGLSurface, hd]
  repeat' split
  all_goals first | exact hc | exact hsel

/-- The context of `ReinitEGLContext` is that of an `InitEGLContext` run on
the same fields. -/
theorem ReinitEGLContext_ctx (drv : Driver) (ctx : EGLContext) (h : Trace) :
    ∃ h2 : Trace, (ctx.ReinitEGLContext drv h).ctx = (ctx.InitEGLContext drv h2).ctx ∧
      (ctx.ReinitEGLContext drv h).val = (ctx.InitEGLContext drv h2).val :=
  ⟨_, rfl, rfl⟩

/-- The fields `SwapBuffers` leaves: those it found, those of `InitEGLSurface`,
or those of `InitEGLContext` run after `Terminate`. -/
theorem SwapBuffers_cases (drv : Driver) (ctx : EGLContext) (h : Trace) :
    (ctx.SwapBuffers drv h).ctx = ctx ∨
    (∃ h2 : Trace, (ctx.SwapBuffers drv h).ctx = (ctx.InitEGLSurface drv h2).ctx) ∨
    (∃ h2 h3 : Trace,
      (ctx.SwapBuffers drv h).ctx = ((ctx.Terminate drv h2).ctx.InitEGLContext drv h3).ctx) := by
  simp only [EGLContext.SwapBuffers]
  split
  · split
    · exact Or.inr (Or.inl ⟨_, rfl⟩)
    · split
      · exact Or.inr (Or.inr ⟨_, _, rfl⟩)
      · exact Or.inl rfl
  · exact Or.inl rfl

/-- The fields `Resume` leaves: the new surface on the old fields, then
possibly `InitEGLContext`, or `Terminate`, `InitEGLSurface` and
`InitEGLContext`. -/
theorem Resume_cases (drv : Driver) (ctx : EGLContext) (h : Trace) :
    ∃ s : Surface,
      (ctx.Resume drv h).ctx = { ctx with surface := s } ∨
      (∃ h2 : Trace,
        (ctx.Resume drv h).ctx = (EGLContext.InitEGLContext { ctx with surface := s } drv h2).ctx) ∨
      (∃ h2 h3 h4 : Trace,
        (ctx.Resume drv h).ctx =
          (((EGLContext.Terminate { ctx with surface := s } drv h2).ctx.InitEGLSurface
            drv h3).ctx.InitEGLContext drv h4).ctx) := by
  refine ⟨(CreateWindowSurface drv h ctx.display ctx.config ctx.window).1, ?_⟩
  simp only [EGLContext.Resume]
  split
  · exact Or.inl rfl
  · split
    · exact Or.inr (Or.inl ⟨_, rfl⟩)
    · exact Or.inr (Or.inr ⟨_, _, _, rfl⟩)

/-- The rebuild path of `Resume`: after three calls (surface creation, failed
bind, last-error query) come the calls of `Terminate`, of `InitEGLSurface` on
the terminated manager and of `InitEGLContext` on what it leaves. -/
theorem Resume_rebuild_decomp (drv : Driver) (ctx : EGLContext) (h : Trace) (err : Error)
    (hbind : drv.eglMakeCurrent
      (h ++ [Event.createWindowSurface ctx.display ctx.config ctx.window
        (drv.eglCreateWindowSurface h ctx.display ctx.config ctx.window)])
      ctx.display (drv.eglCreateWindowSurface h ctx.display ctx.config ctx.window)
      (drv.eglCreateWindowSurface h ctx.display ctx.config ctx.window) ctx.context = false)
    (herr : drv.eglGetError
      (h ++ [Event.createWindowSurface ctx.display ctx.config ctx.window
          (drv.eglCreateWindowSurface h ctx.display ctx.config ctx.window),
        Event.makeCurrent ctx.display (drv.eglCreateWindowSurface h ctx.display ctx.config ctx.window)
          (drv.eglCreateWindowSurface h ctx.display ctx.config ctx.window) ctx.context false]) = err)
    (hne : err ≠ CONTEXT_LOST) :
    ∃ (pre : Trace) (c : EGLContext) (h2 h3 h4 : Trace),
      (ctx.Resume drv h).ev =
        pre ++ (c.Terminate drv h2).ev ++ ((c.Terminate drv h2).ctx.InitEGLSurface drv h3).ev ++
          (((c.Terminate drv h2).ctx.InitEGLSurface drv h3).ctx.InitEGLContext drv h4).ev ∧
      (ctx.Resume drv h).ctx =
        (((c.Terminate drv h2).ctx.InitEGLSurface drv h3).ctx.InitEGLContext drv h4).ctx ∧
      (ctx.Resume drv h).val = true ∧
      pre = [Event.createWindowSurface ctx.display ctx.config ctx.window
          (drv.eglCreateWindowSurface h ctx.display ctx.config ctx.window),
        Event.makeCurrent ctx.display (drv.eglCreateWindowSurface h ctx.display ctx.config ctx.window)
          (drv.eglCreateWindowSurface h ctx.display ctx.config ctx.window) ctx.context false,
        Event.getError err] := by
  simp only [EGLContext.Resume, CreateWindowSurface, MakeCurrent, GetError, hbind, herr, hne,
    Bool.false_eq_true, if_false, List.append_assoc, List.singleton_append, List.cons_append,
    List.nil_append]
  exact ⟨[Event.createWindowSurface ctx.display ctx.config ctx.window
        (drv.eglCreateWindowSurface h ctx.display ctx.config ctx.window),
      Event.makeCurrent ctx.display (drv.eglCreateWindowSurface h ctx.display ctx.config ctx.window)
        (drv.eglCreateWindowSurface h ctx.display ctx.config ctx.window) ctx.context false,
      Event.getError err],
    { ctx with surface := drv.eglCreateWindowSurface h ctx.display ctx.config ctx.window },
    _, _, _, rfl, rfl, trivial, rfl⟩

/-- The loss path of `SwapBuffers`: after the swap and the last-error query come
the calls of `Terminate` and of `InitEGLContext` on the terminated manager. -/
theorem SwapBuffers_lost_decomp (drv : Driver) (ctx : EGLContext) (h : Trace) (err : Error)
    (hswap : drv.eglSwapBuffers h ctx.display ctx.surface = false)
    (herr : drv.eglGetError (h ++ [Event.swapBuffers ctx.display ctx.surface false]) = err)
    (hlost : err = CONTEXT_LOST ∨ err = BAD_CONTEXT) :
    ∃ (h2 h3 : Trace),
      (ctx.SwapBuffers drv h).ev =
        [Event.swapBuffers ctx.display ctx.surface false, Event.getError err] ++
          (ctx.Terminate drv h2).ev ++ ((ctx.Terminate drv h2).ctx.InitEGLContext drv h3).ev ∧
      (ctx.SwapBuffers drv h).ctx = ((ctx.Terminate drv h2).ctx.InitEGLContext drv h3).ctx := by
  have hnb : err ≠ BAD_SURFACE := by
    rcases hlost with hl | hl <;> rw [hl] <;> decide
  simp only [EGLContext.SwapBuffers, SwapBuffers, GetError, hswap, herr, hnb, hlost,
    Bool.false_eq_true, not_false_eq_true, if_true, if_false]
  exact ⟨_, _, rfl, rfl⟩

/-! ### The display a call is addressed to -/

theorem scanConfs_displayArg (drv : Driver) (confs : List Config) :
    ∀ (ctx : EGLContext) (h : Trace),
      ∀ e ∈ (scanConfs drv ctx h confs).2, e.displayArg = some ctx.display := by
  induction confs with
  | nil => intro ctx h e he; simp [scanConfs] at he
  | cons c cs ih =>
    intro ctx h e he
    have hq : ∀ e ∈ (scanStep drv ctx h c).2.1, e.displayArg = some ctx.display := by
      intro e he
      have : (scanStep drv ctx h c).2.1 = (attribQueries drv h ctx.display c).2 := by
        by_cases hm : matchCond ctx.depthSize (attribQueries drv h ctx.display c).1 = true <;>
          simp [scanStep, hm]
      rw [this] at he
      simp only [attribQueries, GetConfigAttrib, List.mem_append, List.mem_singleton] at he
      rcases he with ((he | he) | he) | he <;> subst he <;> rfl
    have hdisp : (scanStep drv ctx h c).1.display = ctx.display := by
      rw [scanStep_frame]
    simp only [scanConfs] at he
    split at he
    · exact hq e he
    · rcases List.mem_append.mp he with he | he
      · exact hq e he
      · rw [← hdisp]; exact ih _ _ e he

theorem processCandidate_displayArg (drv : Driver) (ctx : EGLContext) (h : Trace) (depth : Int) :
    ∀ e ∈ (processCandidate drv ctx h depth).2, e.displayArg = some ctx.display := by
  intro e he
  have hs := scanConfs_displayArg drv
    (ChooseConfig drv h ctx.display (candidateAttribs depth ctx.esMajor) 16).1 ctx
    (h ++ (ChooseConfig drv h ctx.display (candidateAttribs depth ctx.esMajor) 16).2)
  have hq : ∀ e ∈ (ChooseConfig drv h ctx.display (candidateAttribs depth ctx.esMajor) 16).2,
      e.displayArg = some ctx.display := by
    intro e he
    simp only [ChooseConfig, List.mem_singleton] at he
    subst he; rfl
  simp only [processCandidate] at he
  split at he
  · exact hq e he
  · split at he
    · rcases List.mem_append.mp he with he | he
      · exact hq e he
      · exact hs e he
    · rcases List.mem_append.mp he with he | he
      · exact hq e he
      · exact hs e he

/-- Every driver call of `InitEGLSurface` is addressed to the manager's display. -/
theorem InitEGLSurface_displayArg (drv : Driver) (ctx : EGLContext) (h : Trace) :
    ∀ e ∈ (ctx.InitEGLSurface drv h).ev, e.displayArg = some ctx.display := by
  have hd : ∃ d1 d2, candidateDepths ctx.depthSize = [d1, d2] := by
    rcases candidateDepths_eq ctx.depthSize with hc | hc <;> exact ⟨_, _, hc⟩
  obtain ⟨d1, d2, hd⟩ := hd
  have hf := selectLoop_two_frame drv ctx (h ++ (Initialize drv h ctx.display).2) d1 d2
  have hdisp : (selectLoop drv ctx (h ++ (Initialize drv h ctx.display).2) [d1, d2]).1.display =
      ctx.display := by rw [hf]
  have hf1 := processCandidate_frame drv ctx (h ++ (Initialize drv h ctx.display).2) d1
  have hdisp1 : (processCandidate drv ctx (h ++ (Initialize drv h ctx.display).2) d1).1.display =
      ctx.display := by rw [hf1]
  have hsel : ∀ e ∈ (selectLoop drv ctx (h ++ (Initialize drv h ctx.display).2) [d1, d2]).2,
      e.displayArg = some ctx.display := by
    intro e he
    rw [selectLoop_two] at he
    rcases List.mem_append.mp he with he | he
    · exact processCandidate_displayArg drv ctx _ d1 e he
    · rw [← hdisp1]; exact processCandidate_displayArg drv _ _ d2 e he
  have hi : ∀ e ∈ (Initialize drv h ctx.display).2, e.displayArg = some ctx.display := by
    intro e he
    simp only [Initialize, List.mem_singleton] at he
    subst he; rfl
  have hcw : ∀ (t : Trace) (c : Config) (w : NativeWindow),
      ∀ e ∈ (CreateWindowSurface drv t ctx.display c w).2, e.displayArg = some ctx.display := by
    intro t c w e he
    simp only [CreateWindowSurface, List.mem_singleton] at he
    subst he; rfl
  intro e he
  simp only [EGLContext.InitEGLSurface, hd, hdisp] at he
  repeat' split at he
  all_goals simp only [List.mem_append] at he
  · exact hi e he
  · rcases he with he | he
    · exact hi e he
    · exact hsel e he
  · rcases he with (he | he) | he
    · exact hi e he
    · exact hsel e he
    · exact hcw _ _ _ e he
  · rcases he with (he | he) | he
    · exact hi e he
    · exact hsel e he
    · exact hcw _ _ _ e he

/-- Every driver call of `InitEGLContext` is addressed to the manager's display. -/
theorem InitEGLContext_displayArg (drv : Driver) (ctx : EGLContext) (h : Trace) :
    ∀ e ∈ (ctx.InitEGLContext drv h).ev, e.displayArg = some ctx.display := by
  intro e he
  rw [(InitEGLContext_spec drv ctx h).2.1] at he
  simp only [List.mem_cons, List.mem_singleton, List.not_mem_nil, or_false] at he
  rcases he with he | he <;> subst he <;> rfl

/-- `InitEGLSurface` starts with the driver's `Initialize`, on the manager's
display. -/
theorem InitEGLSurface_head (drv : Driver) (ctx : EGLContext) (h : Trace) :
    ∃ rest : Trace,
      (ctx.InitEGLSurface drv h).ev =
        Event.init ctx.display (drv.eglInitialize h ctx.display) :: rest := by
  simp only [EGLContext.InitEGLSurface, Initialize]
  repeat' split
  all_goals simp

/-! ### One operation and the invariant, one operation and the display -/

theorem InitEGLContext_invariant (drv : Driver) (ctx : EGLContext) (h : Trace)
    (hinv : surfaceInvariant ctx) : surfaceInvariant (ctx.InitEGLContext drv h).ctx := by
  unfold surfaceInvariant at hinv ⊢
  rw [(InitEGLContext_spec drv ctx h).1]
  exact hinv

theorem InitEGLSurface_invariant (drv : Driver) (ctx : EGLContext) (h : Trace)
    (hinv : surfaceInvariant ctx) (hdisp : ctx.display ≠ NO_DISPLAY)
    (hnn : ∀ (t : Trace) (d : Display) (a : List EGLint) (n : Nat),
      (0 : Config) ∉ drv.eglChooseConfig t d a n) :
    surfaceInvariant (ctx.InitEGLSurface drv h).ctx := by
  have hf := InitEGLSurface_frame drv ctx h
  have hd : (ctx.InitEGLSurface drv h).ctx.display = ctx.display := by rw [hf]
  unfold surfaceInvariant at hinv ⊢
  intro hs
  refine ⟨by rw [hd]; exact hdisp, ?_⟩
  rcases InitEGLSurface_createdSurfaces drv ctx h with ⟨_, h2, _⟩ | ⟨_, h2, _⟩
  · rw [h2] at hs
    exact InitEGLSurface_config_ne drv ctx h hnn (hinv hs).2
  · exact h2

/-- No operation assigns a display: afterwards `display` is what it was, or
the none sentinel. -/
theorem runOp_display (drv : Driver) (ctx : EGLContext) (h : Trace) (op : Op) :
    (runOp drv ctx h op).1.display = ctx.display ∨ (runOp drv ctx h op).1.display = NO_DISPLAY := by
  cases op with
  | initSurface =>
    left
    simp only [runOp]
    rw [InitEGLSurface_frame]
  | initSurfaceX =>
    left
    simp only [runOp]
    rw [(InitEGLSurfaceX_spec drv ctx h).1]
  | initSurfaceXX =>
    left
    simp only [runOp]
    rw [(InitEGLSurface_XX_spec drv ctx h).1]
  | initContext =>
    left
    simp only [runOp]
    rw [(InitEGLContext_spec drv ctx h).1]
  | reinitContext =>
    left
    obtain ⟨h2, hc, _⟩ := ReinitEGLContext_ctx drv ctx h
    simp only [runOp]
    rw [hc, (InitEGLContext_spec drv ctx h2).1]
  | swapBuffers =>
    simp only [runOp]
    rcases SwapBuffers_cases drv ctx h with hc | ⟨h2, hc⟩ | ⟨h2, h3, hc⟩
    · left; rw [hc]
    · left; rw [hc, InitEGLSurface_frame]
    · right; rw [hc, (InitEGLContext_spec drv _ h3).1]; rfl
  | suspend =>
    left
    simp only [runOp, EGLContext.Suspend]
    split <;> rfl
  | resume =>
    simp only [runOp]
    obtain ⟨s, hc | ⟨h2, hc⟩ | ⟨h2, h3, h4, hc⟩⟩ := Resume_cases drv ctx h
    · left; rw [hc]
    · left; rw [hc, (InitEGLContext_spec drv _ h2).1]
    · right; rw [hc, (InitEGLContext_spec drv _ h4).1]
      simp only
      rw [InitEGLSurface_frame]
      rfl
  | terminate =>
    right
    rfl

/-- Once `display` is the none sentinel it stays so through every sequence of
operations. -/
theorem runOps_display_none (drv : Driver) (ops : List Op) :
    ∀ (ctx : EGLContext) (h : Trace), ctx.display = NO_DISPLAY →
      (runOps drv ctx h ops).1.display = NO_DISPLAY := by
  induction ops with
  | nil => intro ctx h hd; exact hd
  | cons op rest ih =>
    intro ctx h hd
    simp only [runOps]
    apply ih
    rcases runOp_display drv ctx h op with h1 | h1
    · rw [h1]; exact hd
    · exact h1

/-! ## C19: the surface invariant -/

/-- C19, as stated, fails.  A Ready manager satisfies the invariant.  Every
bind-current fails with the last error `0x3003`: `Resume` takes its rebuild
path, `Terminate` resets `display` and the rebuild's `InitEGLSurface` creates
a surface on the none display, so afterwards a surface exists without a
display.  The same happens when `InitEGLSurface` is called on a terminated
manager. -/
theorem C19_counterexample :
    surfaceInvariant readyCtx ∧
    ¬ surfaceInvariant (readyCtx.Resume (simDriver true false 0x3003 [9] [5]) []).ctx ∧
    (readyCtx.Resume (simDriver true false 0x3003 [9] [5]) []).ctx.surface ≠ NO_SURFACE ∧
    (readyCtx.Resume (simDriver true false 0x3003 [9] [5]) []).ctx.display = NO_DISPLAY ∧
    surfaceInvariant (readyCtx.Terminate (simDriver true true 0 [9] [5]) []).ctx ∧
    ¬ surfaceInvariant
      ((readyCtx.Terminate (simDriver true true 0 [9] [5]) []).ctx.InitEGLSurface
        (simDriver true true 0 [9] [5])
        (readyCtx.Terminate (simDriver true true 0 [9] [5]) []).ev).ctx := by
  decide

/-- C19 (amended): the invariant `surface` set implies `display` set and
`config` set holds for the manager `NewContextEx` returns and is preserved,
under every driver behaviour, by `InitEGLContext`, `ReinitEGLContext`,
`Suspend` and `Terminate`.  `InitEGLSurface`, `InitEGLSurfaceX`,
`InitEGLSurface_XX` and `SwapBuffers` preserve it when `display` is not the
none sentinel on entry and the driver returns non-nil configuration handles
only.  `Resume` establishes it when `display` and `config` are set on entry
and the bind-current succeeds or fails with `CONTEXT_LOST`; on its rebuild
path `display` is the none sentinel afterwards, so the invariant then holds
exactly when `surface` is the none sentinel. -/
theorem C19_surface_invariant (drv : Driver) (ctx : EGLContext) (h : Trace) :
    (∀ (window : NativeWindow) (ndisplay : NativeDisplay) (depthSize esVersion minor : Int),
      surfaceInvariant (NewContextEx drv h window ndisplay depthSize esVersion minor).1) ∧
    (surfaceInvariant ctx →
      surfaceInvariant (ctx.InitEGLContext drv h).ctx ∧
      surfaceInvariant (ctx.ReinitEGLContext drv h).ctx ∧
      surfaceInvariant (ctx.Suspend drv h).ctx ∧
      surfaceInvariant (ctx.Terminate drv h).ctx) ∧
    (surfaceInvariant ctx → ctx.display ≠ NO_DISPLAY →
      (∀ (t : Trace) (d : Display) (a : List EGLint) (n : Nat),
        (0 : Config) ∉ drv.eglChooseConfig t d a n) →
      surfaceInvariant (ctx.InitEGLSurface drv h).ctx ∧
      surfaceInvariant (ctx.InitEGLSurfaceX drv h).ctx ∧
      surfaceInvariant (ctx.InitEGLSurface_XX drv h).ctx ∧
      surfaceInvariant (ctx.SwapBuffers drv h).ctx) ∧
    (ctx.display ≠ NO_DISPLAY → ctx.config ≠ 0 →
      (drv.eglMakeCurrent
          (h ++ [Event.createWindowSurface ctx.display ctx.config ctx.window
            (drv.eglCreateWindowSurface h ctx.display ctx.config ctx.window)])
          ctx.display (drv.eglCreateWindowSurface h ctx.display ctx.config ctx.window)
          (drv.eglCreateWindowSurface h ctx.display ctx.config ctx.window) ctx.context = true ∨
        drv.eglGetError
          (h ++ [Event.createWindowSurface ctx.display ctx.config ctx.window
              (drv.eglCreateWindowSurface h ctx.display ctx.config ctx.window),
            Event.makeCurrent ctx.display
              (drv.eglCreateWindowSurface h ctx.display ctx.config ctx.window)
              (drv.eglCreateWindowSurface h ctx.display ctx.config ctx.window) ctx.context false]) =
          CONTEXT_LOST) →
      surfaceInvariant (ctx.Resume drv h).ctx) ∧
    (drv.eglMakeCurrent
        (h ++ [Event.createWindowSurface ctx.display ctx.config ctx.window
          (drv.eglCreateWindowSurface h ctx.display ctx.config ctx.window)])
        ctx.display (drv.eglCreateWindowSurface h ctx.display ctx.config ctx.window)
        (drv.eglCreateWindowSurface h ctx.display ctx.config ctx.window) ctx.context = false →
      drv.eglGetError
        (h ++ [Event.createWindowSurface ctx.display ctx.config ctx.window
            (drv.eglCreateWindowSurface h ctx.display ctx.config ctx.window),
          Event.makeCurrent ctx.display
            (drv.eglCreateWindowSurface h ctx.display ctx.config ctx.window)
            (drv.eglCreateWindowSurface h ctx.display ctx.config ctx.window) ctx.context false]) ≠
        CONTEXT_LOST →
      (ctx.Resume drv h).ctx.display = NO_DISPLAY ∧
      (surfaceInvariant (ctx.Resume drv h).ctx ↔ (ctx.Resume drv h).ctx.surface = NO_SURFACE)) := by
  refine ⟨?_, ?_, ?_, ?_, ?_⟩
  · intro w nd d e m hs
    exact absurd rfl hs
  · intro hinv
    refine ⟨InitEGLContext_invariant drv ctx h hinv, ?_, ?_, ?_⟩
    · obtain ⟨h2, hc, _⟩ := ReinitEGLContext_ctx drv ctx h
      rw [hc]
      exact InitEGLContext_invariant drv ctx h2 hinv
    · simp only [EGLContext.Suspend]
      split
      · intro hs; exact absurd rfl hs
      · exact hinv
    · intro hs; exact absurd rfl hs
  · intro hinv hdisp hnn
    refine ⟨InitEGLSurface_invariant drv ctx h hinv hdisp hnn, ?_, ?_, ?_⟩
    · have hx := InitEGLSurfaceX_spec drv ctx h
      rcases hx.2 with h1 | h1
      · rw [h1]; exact hinv
      · have hd : (ctx.InitEGLSurfaceX drv h).ctx.display = ctx.display := by rw [hx.1]
        intro _
        exact ⟨by rw [hd]; exact hdisp, h1 hnn⟩
    · have hx := InitEGLSurface_XX_spec drv ctx h
      have hd : (ctx.InitEGLSurface_XX drv h).ctx.display = ctx.display := by rw [hx.1]
      intro hs
      refine ⟨by rw [hd]; exact hdisp, ?_⟩
      cases hv : (ctx.InitEGLSurface_XX drv h).val with
      | true => exact (hx.2.1 hv).2 hnn
      | false =>
        have h2 := hx.2.2 hv
        rcases h2.2 with h3 | h3
        · rw [h2.1]
          rw [h3] at hs
          exact (hinv hs).2
        · exact absurd h3 hs
    · rcases SwapBuffers_cases drv ctx h with hc | ⟨h2, hc⟩ | ⟨h2, h3, hc⟩
      · rw [hc]; exact hinv
      · rw [hc]; exact InitEGLSurface_invariant drv ctx h2 hinv hdisp hnn
      · rw [hc]
        exact InitEGLContext_invariant drv _ h3 (fun hs => absurd rfl hs)
  · intro hdisp hcfg hb
    have hbase : ∀ s : Surface, surfaceInvariant { ctx with surface := s } :=
      fun s _ => ⟨hdisp, hcfg⟩
    simp only [EGLContext.Resume, CreateWindowSurface, MakeCurrent, GetError, List.append_assoc,
      List.singleton_append, List.cons_append, List.nil_append]
    cases hm : drv.eglMakeCurrent
        (h ++ [Event.createWindowSurface ctx.display ctx.config ctx.window
          (drv.eglCreateWindowSurface h ctx.display ctx.config ctx.window)])
        ctx.display (drv.eglCreateWindowSurface h ctx.display ctx.config ctx.window)
        (drv.eglCreateWindowSurface h ctx.display ctx.config ctx.window) ctx.context with
    | true =>
      simp only [if_true]
      exact hbase _
    | false =>
      rw [hm] at hb
      have he := hb.resolve_left (by simp)
      simp only [Bool.false_eq_true, if_false, he, if_true]
      exact InitEGLContext_invariant drv _ _ (hbase _)
  · intro hbind hne
    obtain ⟨pre, c, h2, h3, h4, _, hctx, _, _⟩ :=
      Resume_rebuild_decomp drv ctx h _ hbind rfl hne
    have hd : (ctx.Resume drv h).ctx.display = NO_DISPLAY := by
      rw [hctx, (InitEGLContext_spec drv _ h4).1]
      simp only
      rw [InitEGLSurface_frame]
      rfl
    refine ⟨hd, ?_⟩
    unfold surfaceInvariant
    constructor
    · intro hi
      by_contra hs
      exact (hi hs).1 hd
    · intro hs hn
      exact absurd hs hn

/-- C19 (amended) at a concrete run: `InitEGLSurface` on a freshly constructed
manager with a driver that returns non-nil handles. -/
theorem C19_surface_invariant_witness :
    surfaceInvariant (freshCtx 24) ∧ (freshCtx 24).display ≠ NO_DISPLAY ∧
    surfaceInvariant ((freshCtx 24).InitEGLSurface (simDriver true true 0 [9] [5]) []).ctx :=
  ⟨by decide, by decide,
    ((C19_surface_invariant (simDriver true true 0 [9] [5]) (freshCtx 24) []).2.2.1
      (by decide) (by decide)
      (by intro t d a n; simp only [simDriver]; split <;> decide)).1⟩

/-! ## C20: the display is never acquired again -/

/-- C20: no lifecycle operation assigns a display: after any of them `display`
is what it was or the none sentinel; hence after `Terminate` it is the none
sentinel through every later sequence of operations.  On a manager whose
`display` is the none sentinel every driver call of `InitEGLSurface`
(`Initialize` first, then `ChooseConfig`, the attribute queries and
`CreateWindowSurface`) and of `InitEGLContext` (`CreateContext`, bind-current)
is addressed to the none display; these are the calls the rebuild path of
`Resume` issues after those of `Terminate`, and the calls of `InitEGLContext`
are those the loss path of `SwapBuffers` issues after those of `Terminate`. -/
theorem C20_display_never_reacquired (drv : Driver) (ctx : EGLContext) (h : Trace) :
    (∀ op : Op,
      (runOp drv ctx h op).1.display = ctx.display ∨ (runOp drv ctx h op).1.display = NO_DISPLAY) ∧
    (∀ (ops : List Op) (h2 : Trace),
      (runOps drv (ctx.Terminate drv h).ctx h2 ops).1.display = NO_DISPLAY) ∧
    (ctx.display = NO_DISPLAY →
      (∃ rest : Trace, (ctx.InitEGLSurface drv h).ev =
        Event.init NO_DISPLAY (drv.eglInitialize h NO_DISPLAY) :: rest) ∧
      (∀ e ∈ (ctx.InitEGLSurface drv h).ev, e.displayArg = some NO_DISPLAY) ∧
      (∃ (c : Context) (ok : Bool), (ctx.InitEGLContext drv h).ev =
        [Event.createContext NO_DISPLAY ctx.config NO_CONTEXT
            (contextAttribs ctx.esMajor ctx.esMinor) c,
         Event.makeCurrent NO_DISPLAY ctx.surface ctx.surface c ok])) ∧
    (∀ err : Error,
      drv.eglMakeCurrent
        (h ++ [Event.createWindowSurface ctx.display ctx.config ctx.window
          (drv.eglCreateWindowSurface h ctx.display ctx.config ctx.window)])
        ctx.display (drv.eglCreateWindowSurface h ctx.display ctx.config ctx.window)
        (drv.eglCreateWindowSurface h ctx.display ctx.config ctx.window) ctx.context = false →
      drv.eglGetError
        (h ++ [Event.createWindowSurface ctx.display ctx.config ctx.window
            (drv.eglCreateWindowSurface h ctx.display ctx.config ctx.window),
          Event.makeCurrent ctx.display
            (drv.eglCreateWindowSurface h ctx.display ctx.config ctx.window)
            (drv.eglCreateWindowSurface h ctx.display ctx.config ctx.window) ctx.context false]) =
        err →
      err ≠ CONTEXT_LOST →
      ∃ (pre : Trace) (c : EGLContext) (h2 : Trace) (surf cont : Trace),
        (ctx.Resume drv h).ev = pre ++ (c.Terminate drv h2).ev ++ surf ++ cont ∧
        pre.length = 3 ∧
        (∃ (ok : Bool) (rest : Trace), surf = Event.init NO_DISPLAY ok :: rest) ∧
        (∃ (cfg : Config) (a : List EGLint) (k : Context) (s : Surface) (ok : Bool),
          cont = [Event.createContext NO_DISPLAY cfg NO_CONTEXT a k,
                  Event.makeCurrent NO_DISPLAY s s k ok]) ∧
        (∀ e ∈ surf ++ cont, e.displayArg = some NO_DISPLAY)) ∧
    (∀ err : Error,
      drv.eglSwapBuffers h ctx.display ctx.surface = false →
      drv.eglGetError (h ++ [Event.swapBuffers ctx.display ctx.surface false]) = err →
      (err = CONTEXT_LOST ∨ err = BAD_CONTEXT) →
      ∃ (h2 : Trace) (c : Context) (ok : Bool),
        (ctx.SwapBuffers drv h).ev =
          [Event.swapBuffers ctx.display ctx.surface false, Event.getError err] ++
            (ctx.Terminate drv h2).ev ++
            [Event.createContext NO_DISPLAY ctx.config NO_CONTEXT
                (contextAttribs ctx.esMajor ctx.esMinor) c,
             Event.makeCurrent NO_DISPLAY NO_SURFACE NO_SURFACE c ok]) := by
  refine ⟨runOp_display drv ctx h, fun ops h2 => runOps_display_none drv ops _ h2 rfl, ?_, ?_, ?_⟩
  · intro hd
    refine ⟨?_, ?_, ?_⟩
    · have := InitEGLSurface_head drv ctx h
      rw [hd] at this
      exact this
    · have := InitEGLSurface_displayArg drv ctx h
      rw [hd] at this
      exact this
    · have := (InitEGLContext_spec drv ctx h).2.1
      rw [hd] at this
      exact ⟨_, _, this⟩
  · intro err hbind herr hne
    obtain ⟨pre, c, h2, h3, h4, hev, _, _, hpre⟩ := Resume_rebuild_decomp drv ctx h err hbind herr hne
    have hT : (c.Terminate drv h2).ctx.display = NO_DISPLAY := rfl
    have hR1 : ((c.Terminate drv h2).ctx.InitEGLSurface drv h3).ctx.display = NO_DISPLAY := by
      rw [InitEGLSurface_frame]; rfl
    refine ⟨pre, c, h2, _, _, hev, by rw [hpre]; rfl, ?_, ?_, ?_⟩
    · obtain ⟨rest, hr⟩ := InitEGLSurface_head drv (c.Terminate drv h2).ctx h3
      rw [hT] at hr
      exact ⟨_, rest, hr⟩
    · have := (InitEGLContext_spec drv ((c.Terminate drv h2).ctx.InitEGLSurface drv h3).ctx h4).2.1
      rw [hR1] at this
      exact ⟨_, _, _, _, _, this⟩
    · intro e he
      rcases List.mem_append.mp he with he | he
      · rw [← hT]; exact InitEGLSurface_displayArg drv _ h3 e he
      · rw [← hR1]; exact InitEGLContext_displayArg drv _ h4 e he
  · intro err hswap herr hlost
    obtain ⟨h2, h3, hev, _⟩ := SwapBuffers_lost_decomp drv ctx h err hswap herr hlost
    have := (InitEGLContext_spec drv (ctx.Terminate drv h2).ctx h3).2.1
    rw [this] at hev
    exact ⟨h2, _, _, hev⟩

/-- C20 at a concrete run: a Ready manager whose every bind-current fails with
the last error `0x3003`; the rebuild path of `Resume` runs on the none display. -/
theorem C20_display_never_reacquired_witness :
    (simDriver true false 0x3003 [9] [5]).eglGetError [] ≠ CONTEXT_LOST ∧
    ∃ (pre : Trace) (c : EGLContext) (h2 : Trace) (surf cont : Trace),
      (readyCtx.Resume (simDriver true false 0x3003 [9] [5]) []).ev =
        pre ++ (c.Terminate (simDriver true false 0x3003 [9] [5]) h2).ev ++ surf ++ cont ∧
      pre.length = 3 ∧
      (∃ (ok : Bool) (rest : Trace), surf = Event.init NO_DISPLAY ok :: rest) ∧
      (∃ (cfg : Config) (a : List EGLint) (k : Context) (s : Surface) (ok : Bool),
        cont = [Event.createContext NO_DISPLAY cfg NO_CONTEXT a k,
                Event.makeCurrent NO_DISPLAY s s k ok]) ∧
      (∀ e ∈ surf ++ cont, e.displayArg = some NO_DISPLAY) :=
  ⟨by decide,
    (C20_display_never_reacquired (simDriver true false 0x3003 [9] [5]) readyCtx []).2.2.2.1
      0x3003 (by decide) (by decide) (by decide)⟩

/-! ## C21: a stored configuration and the selection step -/

theorem scanView_fst_mem (drv : Driver) (d : Display) (confs : List Config) :
    ∀ (h : Trace), ∀ x ∈ scanView drv d h confs, x.1 ∈ confs := by
  induction confs with
  | nil => intro h x hx; simp [scanView] at hx
  | cons c cs ih =>
    intro h x hx
    simp only [scanView, List.mem_cons] at hx
    rcases hx with hx | hx
    · rw [hx]; exact List.mem_cons_self _ _
    · exact List.mem_cons_of_mem _ (ih _ x hx)

/-- The scan never unsets a configuration when the list holds no nil handle. -/
theorem scanConfs_config_ne (drv : Driver) (ctx : EGLContext) (h : Trace) (confs : List Config)
    (hnn : (0 : Config) ∉ confs) (hc : ctx.config ≠ 0) :
    (scanConfs drv ctx h confs).1.config ≠ 0 := by
  by_cases he : (scanConfs drv ctx h confs).1.config = ctx.config
  · rw [he]; exact hc
  · obtain ⟨x, hx, hx1, _⟩ := scanConfs_assigned drv confs ctx h he
    intro h0
    have hm := scanView_fst_mem drv ctx.display confs h x hx
    rw [hx1, h0] at hm
    exact hnn hm

/-- When `Initialize` succeeded and a configuration is selected, exactly one
window surface is created, with that configuration. -/
theorem InitEGLSurface_reaches_create (drv : Driver) (ctx : EGLContext) (h : Trace)
    (hi : drv.eglInitialize h ctx.display = true)
    (hc : (ctx.InitEGLSurface drv h).ctx.config ≠ 0) :
    createdSurfaces (ctx.InitEGLSurface drv h).ev =
      [((ctx.InitEGLSurface drv h).ctx.config, (ctx.InitEGLSurface drv h).ctx.surface)] := by
  rcases InitEGLSurface_createdSurfaces drv ctx h with ⟨h1, _, h3⟩ | ⟨h1, _, _⟩
  · exfalso
    have hd : ∃ d1 d2, candidateDepths ctx.depthSize = [d1, d2] := by
      rcases candidateDepths_eq ctx.depthSize with hc | hc <;> exact ⟨_, _, hc⟩
    obtain ⟨d1, d2, hd⟩ := hd
    simp only [EGLContext.InitEGLSurface, Initialize, hi, hd, not_true_eq_false, if_false] at hc h1
    by_cases h0 : (selectLoop drv ctx (h ++ [Event.init ctx.display true]) [d1, d2]).1.config = 0
    · simp only [h0, if_true] at hc
      exact hc rfl
    · simp only [h0, if_false] at h1
      split at h1 <;>
        simp [createdSurfaces, List.filterMap_append, CreateWindowSurface,
          Event.asCreateSurface] at h1
  · exact h1

/-- When `Initialize` succeeded, the `config` `InitEGLSurface` leaves is the one
the candidate loop leaves. -/
theorem InitEGLSurface_config_eq_select (drv : Driver) (ctx : EGLContext) (h : Trace) (d1 d2 : Int)
    (hi : drv.eglInitialize h ctx.display = true)
    (hd : candidateDepths ctx.depthSize = [d1, d2]) :
    (ctx.InitEGLSurface drv h).ctx.config =
      (selectLoop drv ctx (h ++ [Event.init ctx.display true]) [d1, d2]).1.config := by
  simp only [EGLContext.InitEGLSurface, Initialize, hi, hd]
  simp only [not_true_eq_false, if_false]
  split
  · rfl
  · split <;> rfl

/-- A candidate keeps a configuration set when the driver returns non-nil
handles only. -/
theorem processCandidate_keeps_config (drv : Driver) (ctx : EGLContext) (h : Trace) (depth : Int)
    (hnn : ∀ (t : Trace) (d : Display) (a : List EGLint) (n : Nat),
      (0 : Config) ∉ drv.eglChooseConfig t d a n)
    (hc : ctx.config ≠ 0) : (processCandidate drv ctx h depth).1.config ≠ 0 := by
  by_cases hq : (ChooseConfig drv h ctx.display (candidateAttribs depth ctx.esMajor) 16).1 = []
  · rw [processCandidate_of_empty drv ctx h depth hq]; exact hc
  · exact processCandidate_config_ne drv ctx h depth
      (fun hm => hnn _ _ _ 16 (List.mem_of_mem_take hm)) hq

/-- With a configuration set and non-nil handles only, line 167 does not run. -/
theorem fallbackApplied_eq_false (drv : Driver) (ctx : EGLContext) (h : Trace) (depth : Int)
    (hnn : ∀ (t : Trace) (d : Display) (a : List EGLint) (n : Nat),
      (0 : Config) ∉ drv.eglChooseConfig t d a n)
    (hc : ctx.config ≠ 0) : fallbackApplied drv ctx h depth = false := by
  have hs := scanConfs_config_ne drv ctx
    (h ++ (ChooseConfig drv h ctx.display (candidateAttribs depth ctx.esMajor) 16).2)
    (ChooseConfig drv h ctx.display (candidateAttribs depth ctx.esMajor) 16).1
    (fun hm => hnn _ _ _ 16 (List.mem_of_mem_take hm)) hc
  simp [fallbackApplied, hs]

/-- C21, as stated, fails.  A Ready manager is terminated; `config` is still 9.
The driver then answers the 8/8/8 query with the nil handle alone, which
reports 8/8/8: the scan of `InitEGLSurface` assigns it, unsetting `config`,
the first-configuration fallback runs (and stores the nil handle again), the
second candidate returns nothing, and `InitEGLSurface` fails at the selection
step without calling `CreateWindowSurface`. -/
theorem C21_counterexample :
    (readyCtx.Terminate simDriverNil []).ctx.config = 9 ∧
    fallbackApplied simDriverNil (readyCtx.Terminate simDriverNil []).ctx
      ((readyCtx.Terminate simDriverNil []).ev ++ [Event.init NO_DISPLAY true]) 32 = true ∧
    ((readyCtx.Terminate simDriverNil []).ctx.InitEGLSurface simDriverNil
      (readyCtx.Terminate simDriverNil []).ev).val = false ∧
    ((readyCtx.Terminate simDriverNil []).ctx.InitEGLSurface simDriverNil
      (readyCtx.Terminate simDriverNil []).ev).ctx.config = 0 ∧
    chooseQueries ((readyCtx.Terminate simDriverNil []).ctx.InitEGLSurface simDriverNil
      (readyCtx.Terminate simDriverNil []).ev).ev =
      [(candidateAttribs 32 2, [0]), (candidateAttribs 16 2, [])] ∧
    createdSurfaces ((readyCtx.Terminate simDriverNil []).ctx.InitEGLSurface simDriverNil
      (readyCtx.Terminate simDriverNil []).ev).ev = [] := by
  decide

/-- C21 (amended): `Terminate` leaves `config` unchanged.  When `Initialize`
succeeds and the driver returns zero configurations for both candidates,
`InitEGLSurface` leaves `config` as it was, applies no fallback and, when
`config` was set on entry, creates one window surface with the previously
stored configuration.  When `config` is set on entry and the driver returns
non-nil configuration handles only, `InitEGLSurface` never fails at the
selection step: `config` is set afterwards, one window surface is created with
it, and the first-configuration fallback runs for neither candidate. -/
theorem C21_stored_config_and_selection (drv : Driver) (ctx : EGLContext) (h : Trace)
    (d1 d2 : Int) (hd : candidateDepths ctx.depthSize = [d1, d2])
    (hi : drv.eglInitialize h ctx.display = true) :
    (∀ h0 : Trace, (ctx.Terminate drv h0).ctx.config = ctx.config) ∧
    ((ChooseConfig drv (h ++ [Event.init ctx.display true]) ctx.display
        (candidateAttribs d1 ctx.esMajor) 16).1 = [] →
      (ChooseConfig drv
        (h ++ [Event.init ctx.display true,
          Event.chooseConfig ctx.display (candidateAttribs d1 ctx.esMajor) 16 []])
        ctx.display (candidateAttribs d2 ctx.esMajor) 16).1 = [] →
      (ctx.InitEGLSurface drv h).ctx.config = ctx.config ∧
      fallbackApplied drv ctx (h ++ [Event.init ctx.display true]) d1 = false ∧
      fallbackApplied drv ctx
        (h ++ [Event.init ctx.display true,
          Event.chooseConfig ctx.display (candidateAttribs d1 ctx.esMajor) 16 []]) d2 = false ∧
      (ctx.config ≠ 0 →
        createdSurfaces (ctx.InitEGLSurface drv h).ev =
          [(ctx.config, (ctx.InitEGLSurface drv h).ctx.surface)])) ∧
    ((∀ (t : Trace) (d : Display) (a : List EGLint) (n : Nat),
        (0 : Config) ∉ drv.eglChooseConfig t d a n) →
      ctx.config ≠ 0 →
      (ctx.InitEGLSurface drv h).ctx.config ≠ 0 ∧
      createdSurfaces (ctx.InitEGLSurface drv h).ev =
        [((ctx.InitEGLSurface drv h).ctx.config, (ctx.InitEGLSurface drv h).ctx.surface)] ∧
      fallbackApplied drv ctx (h ++ [Event.init ctx.display true]) d1 = false ∧
      fallbackApplied drv (processCandidate drv ctx (h ++ [Event.init ctx.display true]) d1).1
        (h ++ [Event.init ctx.display true] ++
          (processCandidate drv ctx (h ++ [Event.init ctx.display true]) d1).2) d2 = false) := by
  refine ⟨fun _ => rfl, ?_, ?_⟩
  · intro hq1 hq2
    have e1 : (ChooseConfig drv (h ++ [Event.init ctx.display true]) ctx.display
        (candidateAttribs d1 ctx.esMajor) 16).2 =
        [Event.chooseConfig ctx.display (candidateAttribs d1 ctx.esMajor) 16 []] := by
      have := hq1
      simp only [ChooseConfig] at this ⊢
      rw [this]
    have p1 : processCandidate drv ctx (h ++ [Event.init ctx.display true]) d1 =
        (ctx, [Event.chooseConfig ctx.display (candidateAttribs d1 ctx.esMajor) 16 []]) := by
      simp only [processCandidate, hq1, e1, List.length_nil, if_true]
    have hh : h ++ [Event.init ctx.display true] ++
        [Event.chooseConfig ctx.display (candidateAttribs d1 ctx.esMajor) 16 []] =
        h ++ [Event.init ctx.display true,
          Event.chooseConfig ctx.display (candidateAttribs d1 ctx.esMajor) 16 []] := by simp
    have p2 := processCandidate_of_empty drv ctx
      (h ++ [Event.init ctx.display true,
        Event.chooseConfig ctx.display (candidateAttribs d1 ctx.esMajor) 16 []]) d2 hq2
    have hsel : (selectLoop drv ctx (h ++ [Event.init ctx.display true]) [d1, d2]).1.config =
        ctx.config := by
      rw [selectLoop_two, p1]
      simp only [hh]
      rw [p2]
    have hcfg : (ctx.InitEGLSurface drv h).ctx.config = ctx.config := by
      rw [InitEGLSurface_config_eq_select drv ctx h d1 d2 hi hd, hsel]
    refine ⟨hcfg, ?_, ?_, ?_⟩
    · simp [fallbackApplied, hq1]
    · simp [fallbackApplied, hq2]
    · intro hc
      have := InitEGLSurface_reaches_create drv ctx h hi (by rw [hcfg]; exact hc)
      rw [hcfg] at this
      exact this
  · intro hnn hc
    have hc2 := InitEGLSurface_config_ne drv ctx h hnn hc
    exact ⟨hc2, InitEGLSurface_reaches_create drv ctx h hi hc2,
      fallbackApplied_eq_false drv ctx _ d1 hnn hc,
      fallbackApplied_eq_false drv _ _ d2 hnn
        (processCandidate_keeps_config drv ctx _ d1 hnn hc)⟩

/-- C21 (amended) at a concrete run: a terminated manager that still holds
configuration 9, and a driver without any configuration: `InitEGLSurface`
creates a surface with configuration 9. -/
theorem C21_stored_config_and_selection_witness :
    candidateDepths (readyCtx.Terminate (simDriver true true 0 [] []) []).ctx.depthSize = [32, 16] ∧
    (simDriver true true 0 [] []).eglInitialize (readyCtx.Terminate (simDriver true true 0 [] []) []).ev
      (readyCtx.Terminate (simDriver true true 0 [] []) []).ctx.display = true ∧
    (readyCtx.Terminate (simDriver true true 0 [] []) []).ctx.config ≠ 0 ∧
    createdSurfaces ((readyCtx.Terminate (simDriver true true 0 [] []) []).ctx.InitEGLSurface
      (simDriver true true 0 [] []) (readyCtx.Terminate (simDriver true true 0 [] []) []).ev).ev =
      [((readyCtx.Terminate (simDriver true true 0 [] []) []).ctx.config,
        ((readyCtx.Terminate (simDriver true true 0 [] []) []).ctx.InitEGLSurface
          (simDriver true true 0 [] [])
          (readyCtx.Terminate (simDriver true true 0 [] []) []).ev).ctx.surface)] :=
  ⟨by decide, by decide, by decide,
    ((C21_stored_config_and_selection (simDriver true true 0 [] [])
      (readyCtx.Terminate (simDriver true true 0 [] []) []).ctx
      (readyCtx.Terminate (simDriver true true 0 [] []) []).ev 32 16 (by decide) (by decide)).2.1
      (by decide) (by decide)).2.2.2 (by decide)⟩

end egl
